import Mathlib

/-!
# Paddy knowledge-based system: the derived-fact pipeline

A shallow embedding of `src/index.js` and `src/api/index.js` (the two files hold the
same pipeline; `src/api/index.js` is the commented variant).  The program talks to a
SPARQL store; every `sparqlUpdate(...)` call of the source is embedded as a function
from the graph before the update to the graph after it, obtained by evaluating the
WHERE pattern of the update over the graph and instantiating its template.

* an RDF graph is a list of triples, read as a set;
* a literal is its lexical form together with its datatype, exactly as the
  query text writes it (`"High"`, `true`, `"100"^^xsd:decimal`);
* `xsd:decimal(?x)` yields an exact rational, so the `* 1.2` and `* 1.5` of the
  budget rules are exact decimal arithmetic;
* a FILTER is three-valued: a row is kept only when the filter evaluates to `true`,
  a type error drops the row;
* the store applies every well-formed update it is sent.
-/

namespace PaddyKBS

/-! ## RDF terms, triples, graphs -/

/-- The literal datatypes that occur in the queries of the program. -/
inductive Datatype where
  | xsdString
  | xsdDecimal
  | xsdBoolean
  deriving DecidableEq, Repr

/-- An RDF term: an IRI (given in full) or a literal (lexical form and datatype). -/
inductive Term where
  | iri (name : String)
  | lit (lex : String) (dt : Datatype)
  deriving DecidableEq, Repr

/-- An RDF triple; subject and predicate are IRIs. -/
structure Triple where
  s : String
  p : String
  o : Term
  deriving DecidableEq, Repr

/-- A graph is a list of triples, read as a set. -/
abbrev Graph := List Triple

/-- The namespace bound to the empty prefix: `const ONTO`. -/
def ONTO : String :=
  "http://www.semanticweb.org/veranga/ontologies/2025/5/Knowledge_Based_System_Version_5#"

/-- The IRI written `:l` in the queries (`PREFIX : <ONTO>`). -/
def onto (l : String) : String := ONTO ++ l

/-- The IRI written `a` or `rdf:type` in the queries. -/
def rdfType : String := "http://www.w3.org/1999/02/22-rdf-syntax-ns#type"

/-- A plain string literal of a query, such as `"High"`. -/
def strLit (s : String) : Term := .lit s .xsdString

/-- The boolean literal `true` of a query. -/
def boolTrue : Term := .lit "true" .xsdBoolean

/-- The class `:Treatments` as an object term. -/
def Treatments : Term := .iri (onto "Treatments")

/-- All objects `o` with `s p o` in the graph. -/
def objects (g : Graph) (s p : String) : List Term :=
  (g.filter (fun t => t.s = s ∧ t.p = p)).map Triple.o

/-- All subjects `s` with `s p o` in the graph. -/
def subjects (g : Graph) (p : String) (o : Term) : List String :=
  (g.filter (fun t => t.p = p ∧ t.o = o)).map Triple.s

/-- Objects of a pattern whose subject is a variable bound earlier in object position:
a literal in subject position matches nothing. -/
def objectsOf (g : Graph) (s : Term) (p : String) : List Term :=
  match s with
  | .iri n => objects g n p
  | .lit _ _ => []

/-- The bindings of `OPTIONAL { s p ?x }`: every object, or one unbound row. -/
def optionalObjects (g : Graph) (s p : String) : List (Option Term) :=
  match objects g s p with
  | [] => [none]
  | os => os.map some

/-- Adds the instantiated INSERT template to the graph (a set: no duplicates added). -/
def insertAll (g : Graph) (ts : List Triple) : Graph :=
  g ++ (ts.filter (fun t => t ∉ g)).dedup

/-- Removes the instantiated DELETE template from the graph. -/
def deleteAll (g : Graph) (ts : List Triple) : Graph :=
  g.filter (fun t => t ∉ ts)

/-- A template triple `?t p o` with `?t` bound to a term: a literal subject gives no triple. -/
def tripleAt (t : Term) (p : String) (o : Term) : List Triple :=
  match t with
  | .iri n => [⟨n, p, o⟩]
  | .lit _ _ => []

/-! ## SPARQL functions used by the rules -/

/-- The SPARQL `str` function. -/
def str : Term → String
  | .iri n => n
  | .lit lex _ => lex

/-- The SPARQL `lcase` function, on the letters A to Z. -/
def lcase (s : String) : String := ⟨s.data.map Char.toLower⟩

/-- Value of a decimal digit. -/
def digitValue (c : Char) : Option Nat :=
  if '0' ≤ c ∧ c ≤ '9' then some (c.toNat - 48) else none

/-- Value of a run of decimal digits (the empty run is 0). -/
def parseDigits (cs : List Char) : Option Nat :=
  cs.foldlM (fun acc c => (digitValue c).map (fun d => acc * 10 + d)) 0

/-- Unsigned decimal numeral: digits, optionally a point and digits, at least one digit. -/
def parseUnsigned (cs : List Char) : Option ℚ :=
  let ip := cs.takeWhile (fun c => c != '.')
  match cs.dropWhile (fun c => c != '.') with
  | [] => if ip = [] then none else (parseDigits ip).map (fun n => (n : ℚ))
  | _ :: fp =>
    if ip = [] ∧ fp = [] then none
    else
      match parseDigits ip, parseDigits fp with
      | some i, some f => some ((i : ℚ) + (f : ℚ) / (10 : ℚ) ^ fp.length)
      | _, _ => none

/-- The lexical-to-value mapping of `xsd:decimal`: optional sign, then an unsigned numeral. -/
def parseDecimal (s : String) : Option ℚ :=
  match s.data with
  | '-' :: cs => (parseUnsigned cs).map (fun q => -q)
  | '+' :: cs => parseUnsigned cs
  | cs => parseUnsigned cs

/-- The lexical-to-value mapping of `xsd:boolean`. -/
def parseBoolean (s : String) : Option Bool :=
  if s = "true" ∨ s = "1" then some true
  else if s = "false" ∨ s = "0" then some false
  else none

/-- The cast `xsd:decimal(?x)`; `none` is a type error. -/
def asDecimal : Term → Option ℚ
  | .iri _ => none
  | .lit lex .xsdBoolean => (parseBoolean lex).map (fun b => if b then 1 else 0)
  | .lit lex _ => parseDecimal lex

/-- The operator `>=` on cast values. -/
def geq (a b : Option ℚ) : Option Bool :=
  match a, b with
  | some x, some y => some (decide (x ≥ y))
  | _, _ => none

/-- The operator `>` on cast values. -/
def gt (a b : Option ℚ) : Option Bool :=
  match a, b with
  | some x, some y => some (decide (x > y))
  | _, _ => none

/-- The operator `<=` on cast values. -/
def leq (a b : Option ℚ) : Option Bool :=
  match a, b with
  | some x, some y => some (decide (x ≤ y))
  | _, _ => none

/-- The product `xsd:decimal(?x) * k` of a BIND; unbound when the cast fails. -/
def times (a : Option ℚ) (k : ℚ) : Option ℚ := a.map (fun x => x * k)

/-- Three-valued `&&`. -/
def and3 : Option Bool → Option Bool → Option Bool
  | some false, _ => some false
  | _, some false => some false
  | some true, some true => some true
  | _, _ => none

/-- Three-valued `||`. -/
def or3 : Option Bool → Option Bool → Option Bool
  | some true, _ => some true
  | _, some true => some true
  | some false, some false => some false
  | _, _ => none

/-- The operator `=` on two terms: value equality where both sides have the same
known datatype, term equality otherwise, a type error for two different literals
that cannot be compared. -/
def termEq : Term → Term → Option Bool
  | .iri a, .iri b => some (decide (a = b))
  | .iri _, .lit _ _ => some false
  | .lit _ _, .iri _ => some false
  | .lit a .xsdString, .lit b .xsdString => some (decide (a = b))
  | .lit a .xsdDecimal, .lit b .xsdDecimal =>
    match parseDecimal a, parseDecimal b with
    | some x, some y => some (decide (x = y))
    | _, _ => if a = b then some true else none
  | .lit a .xsdBoolean, .lit b .xsdBoolean =>
    match parseBoolean a, parseBoolean b with
    | some x, some y => some (decide (x = y))
    | _, _ => if a = b then some true else none
  | .lit _ _, .lit _ _ => none

/-- The comparison `lcase(str(?x)) = lcase(str(?y))` of two plain strings. -/
def lcaseEq (x y : Term) : Bool := decide (lcase (str x) = lcase (str y))

/-- The comparison `lcase(str(?x)) = "label"`. -/
def lcaseIs (x : Term) (label : String) : Bool := decide (lcase (str x) = label)

/-- Whether the pattern `?s p o` holds for a term bound to `?s`. -/
def holds (g : Graph) (s : Term) (p : String) (o : Term) : Bool :=
  match s with
  | .iri n => decide ((⟨n, p, o⟩ : Triple) ∈ g)
  | .lit _ _ => false

/-- A template triple `s p ?x` for an optional variable: nothing when `?x` is unbound. -/
def templateAt (s p : String) : Option Term → List Triple
  | some o => [⟨s, p, o⟩]
  | none => []

/-! ## Session Loader and Reset: `insertUserInput` -/

/-- Disease dropdown names and the ontology individuals they stand for. -/
def diseaseMap : List (String × String) :=
  [("Rice Blast", ":Rice_Blast"), ("False Smut", ":False_Smut"),
   ("Sheath Blight", ":Sheath_Blight"), ("Bacterial Leaf Blight", ":Bacterial_Leaf_Blight"),
   ("Sheath Rot", ":Sheath_Rot")]

/-- Location names and the ontology individuals they stand for. -/
def locationMap : List (String × String) :=
  [("Ampara", ":Ampara"), ("Anuradhapura", ":Anuradhapura"), ("Badulla", ":Badulla"),
   ("Battiocaloa", ":Battiocaloa"), ("Colombo", ":Colombo"), ("Galle", ":Galle"),
   ("Gampaha", ":Gampaha"), ("Hambantota", ":Hambantota"), ("Jaffna", ":Jaffna"),
   ("Kalutara", ":Kalutara"), ("Kandy", ":Kandy"), ("Kilinochchi", ":Kilinochchi"),
   ("Kurunegala", ":Kurunegala"), ("Mannar", ":Mannar"), ("Matale", ":Matale"),
   ("Monaragala", ":Monaragala"), ("Mullaitivu", ":Mullaitivu"), ("Polonnaruwa", ":Polonnaruwa"),
   ("Puttalam", ":Puttalam"), ("Rathnapura", ":Rathnapura"), ("Trincomalee", ":Trincomalee"),
   ("Vavuniya", ":Vavuniya")]

/-- The property names an object literal inherits from `Object.prototype`. -/
def objectPrototypeKeys : List String :=
  ["constructor", "__defineGetter__", "__defineSetter__", "hasOwnProperty",
   "__lookupGetter__", "__lookupSetter__", "isPrototypeOf", "propertyIsEnumerable",
   "toString", "valueOf", "__proto__", "toLocaleString"]

/-- What `map[key]` evaluates to on one of the two object literals. -/
inductive JsValue where
  | text (s : String)
  | inherited (key : String)
  | undefined
  deriving DecidableEq, Repr

/-- Property lookup `map[key]`: an own property, else an inherited one, else `undefined`. -/
def lookupProperty (map : List (String × String)) (key : String) : JsValue :=
  match map.lookup key with
  | some v => .text v
  | none => if key ∈ objectPrototypeKeys then .inherited key else .undefined

/-- The IRI a prefixed name `:local` of the query text denotes. -/
def expandPrefixed (name : String) : String :=
  match name.data with
  | ':' :: rest => onto ⟨rest⟩
  | _ => name

/-- One solution of the WHERE pattern of `clearTreatments`. -/
structure ClearRow where
  t : String
  p : Option Term
  aff : Option Term
  cms : Option Term
  suit : Option Term
  ps : Option Term
  isSpec : Option Term

/-- Solutions of `?t a :Treatments` followed by the six OPTIONAL patterns. -/
def clearRows (g : Graph) : List ClearRow :=
  (subjects g rdfType Treatments).flatMap fun t =>
  (optionalObjects g t (onto "priority")).flatMap fun p =>
  (optionalObjects g t (onto "isAffordable")).flatMap fun aff =>
  (optionalObjects g t (onto "isControlMethodSuitable")).flatMap fun cms =>
  (optionalObjects g t (onto "isSuitable")).flatMap fun suit =>
  (optionalObjects g t (onto "hasPrimarySource")).flatMap fun ps =>
  (optionalObjects g t (onto "isSpecific")).map fun isSpec =>
    ⟨t, p, aff, cms, suit, ps, isSpec⟩

/-- The DELETE template of `clearTreatments`, instantiated at every solution. -/
def clearDeletes (g : Graph) : List Triple :=
  (clearRows g).flatMap fun r =>
    templateAt r.t (onto "priority") r.p ++
    templateAt r.t (onto "isAffordable") r.aff ++
    templateAt r.t (onto "isControlMethodSuitable") r.cms ++
    templateAt r.t (onto "isSuitable") r.suit ++
    templateAt r.t (onto "hasPrimarySource") r.ps ++
    templateAt r.t (onto "isSpecific") r.isSpec

/-- The update `clearTreatments` (Derived-Fact Reset). -/
def clearTreatments (g : Graph) : Graph := deleteAll g (clearDeletes g)

/-- The update `insertUser`: INSERT DATA of the five session triples. -/
def insertUser (g : Graph) (inst diseaseLocal locationLocal budget control : String) : Graph :=
  insertAll g
    [⟨inst, rdfType, .iri (onto "User_Inputs")⟩,
     ⟨inst, onto "hasDiseasec", .iri diseaseLocal⟩,
     ⟨inst, onto "hasLocationName", .iri locationLocal⟩,
     ⟨inst, onto "hasUserBudget", .lit budget .xsdDecimal⟩,
     ⟨inst, onto "hasControlMethodInput", strLit control⟩]

/-- Store contents after a call, and what the call returned or threw. -/
structure Outcome where
  graph : Graph
  result : Except String String

/-- The function `insertUserInput`; `now` is the value of `Date.now()`.  The texts
`budget` and `control` are spliced into string literals and are taken to contain no
quote, backslash or line break.  A map entry that is not text (an inherited property)
splices into a malformed update, which the store rejects after Reset has run. -/
def insertUserInput (g : Graph) (now : Nat)
    (diseaseName budget locationName control : String) : Outcome :=
  match lookupProperty diseaseMap diseaseName with
  | .undefined => ⟨g, .error ("Unknown disease: " ++ diseaseName)⟩
  | diseaseLocal =>
    match lookupProperty locationMap locationName with
    | .undefined => ⟨g, .error ("Unknown location: " ++ locationName)⟩
    | locationLocal =>
      let id := "UserInput_" ++ toString now
      let g1 := clearTreatments g
      match diseaseLocal, locationLocal with
      | .text d, .text l =>
        ⟨insertUser g1 (onto id) (expandPrefixed d) (expandPrefixed l) budget control, .ok id⟩
      | _, _ => ⟨g1, .error "SPARQL Update failed: 400"⟩

/-! ## Budget Tier Classifier: `applyBudgetRulesForUser` -/

/-- Solutions of `user :hasUserBudget ?budget . ?t a :Treatments ; :hasCost ?cost`,
the pattern shared by the first four budget updates, as `(budget, t, cost)`. -/
def budgetCostRows (g : Graph) (userIRI : String) : List (Term × String × Term) :=
  (objects g userIRI (onto "hasUserBudget")).flatMap fun budget =>
  (subjects g rdfType Treatments).flatMap fun t =>
  (objects g t (onto "hasCost")).map fun cost => (budget, t, cost)

/-- FILTER of `high`: `xsd:decimal(?budget) >= xsd:decimal(?cost)`. -/
def highFilter (budget cost : Term) : Option Bool :=
  geq (asDecimal budget) (asDecimal cost)

/-- BIND and FILTER of `medium`: `?budget120 = budget * 1.2`,
`cost > budget && cost <= ?budget120`. -/
def mediumFilter (budget cost : Term) : Option Bool :=
  let budget120 := times (asDecimal budget) 1.2
  and3 (gt (asDecimal cost) (asDecimal budget)) (leq (asDecimal cost) budget120)

/-- BINDs and FILTER of `low`: `cost > ?budget120 && cost <= ?budget150`. -/
def lowFilter (budget cost : Term) : Option Bool :=
  let budget120 := times (asDecimal budget) 1.2
  let budget150 := times (asDecimal budget) 1.5
  and3 (gt (asDecimal cost) budget120) (leq (asDecimal cost) budget150)

/-- BIND and FILTER of `notAffordable`: `cost > ?budget150`. -/
def notAffordableFilter (budget cost : Term) : Option Bool :=
  let budget150 := times (asDecimal budget) 1.5
  gt (asDecimal cost) budget150

/-- Instantiates `?t p o` at every row of the shared pattern that passes the filter. -/
def budgetInserts (g : Graph) (userIRI : String) (filter : Term → Term → Option Bool)
    (p : String) (o : Term) : List Triple :=
  ((budgetCostRows g userIRI).filter (fun r => filter r.1 r.2.2 = some true)).map
    fun r => ⟨r.2.1, p, o⟩

/-- The update `high`: INSERT `?t :priority "High"`. -/
def high (g : Graph) (userIRI : String) : Graph :=
  insertAll g (budgetInserts g userIRI highFilter (onto "priority") (strLit "High"))

/-- The update `medium`: INSERT `?t :priority "Medium"`. -/
def medium (g : Graph) (userIRI : String) : Graph :=
  insertAll g (budgetInserts g userIRI mediumFilter (onto "priority") (strLit "Medium"))

/-- The update `low`: INSERT `?t :priority "Low"`. -/
def low (g : Graph) (userIRI : String) : Graph :=
  insertAll g (budgetInserts g userIRI lowFilter (onto "priority") (strLit "Low"))

/-- The update `notAffordable`: INSERT `?t :isAffordable "false"` (a string literal). -/
def notAffordable (g : Graph) (userIRI : String) : Graph :=
  insertAll g (budgetInserts g userIRI notAffordableFilter (onto "isAffordable") (strLit "false"))

/-- FILTER of `affordableFromPriority`: `?pr = "High" || ?pr = "Medium" || ?pr = "Low"`. -/
def priorityFilter (pr : Term) : Option Bool :=
  or3 (or3 (termEq pr (strLit "High")) (termEq pr (strLit "Medium"))) (termEq pr (strLit "Low"))

/-- Template of `affordableFromPriority` at the solutions of `?t a :Treatments ; :priority ?pr`. -/
def affordableInserts (g : Graph) : List Triple :=
  (subjects g rdfType Treatments).flatMap fun t =>
  ((objects g t (onto "priority")).filter (fun pr => priorityFilter pr = some true)).map
    fun _ => ⟨t, onto "isAffordable", boolTrue⟩

/-- The update `affordableFromPriority`: INSERT `?t :isAffordable true`. -/
def affordableFromPriority (g : Graph) : Graph := insertAll g (affordableInserts g)

/-- The function `applyBudgetRulesForUser`: the five updates in source order. -/
def applyBudgetRulesForUser (g : Graph) (userId : String) : Graph :=
  let userIRI := onto userId
  affordableFromPriority
    (notAffordable (low (medium (high g userIRI) userIRI) userIRI) userIRI)

/-! ## Control method and suitability: `applyControlMethodAndSuitabilityRules` -/

/-- Template of `controlSuitable` at the solutions of its WHERE pattern. -/
def controlSuitableInserts (g : Graph) (userIRI : String) : List Triple :=
  (objects g userIRI (onto "hasControlMethodInput")).flatMap fun inputMethod =>
  (objects g userIRI (onto "hasDiseasec")).flatMap fun disease =>
  (objectsOf g disease (onto "hasControlMethods")).flatMap fun cm =>
  (objectsOf g cm (onto "hasMethod")).flatMap fun methodType =>
  (objectsOf g cm (onto "hasTreatments")).flatMap fun t =>
    if lcaseEq inputMethod methodType then
      tripleAt t (onto "isControlMethodSuitable") boolTrue
    else []

/-- The update `controlSuitable`. -/
def controlSuitable (g : Graph) (userIRI : String) : Graph :=
  insertAll g (controlSuitableInserts g userIRI)

/-- Template of `isSuitable` at the solutions of
`?t a :Treatments ; :isAffordable true ; :isControlMethodSuitable true`. -/
def isSuitableInserts (g : Graph) : List Triple :=
  ((subjects g rdfType Treatments).filter (fun t =>
      (⟨t, onto "isAffordable", boolTrue⟩ : Triple) ∈ g ∧
      (⟨t, onto "isControlMethodSuitable", boolTrue⟩ : Triple) ∈ g)).map
    fun t => ⟨t, onto "isSuitable", boolTrue⟩

/-- The update `isSuitable`. -/
def isSuitable (g : Graph) : Graph := insertAll g (isSuitableInserts g)

/-- The function `applyControlMethodAndSuitabilityRules`. -/
def applyControlMethodAndSuitabilityRules (g : Graph) (userId : String) : Graph :=
  isSuitable (controlSuitable g (onto userId))

/-! ## Primary-Source Determiner: `applyPrimarySourceRules` -/

/-- Template of `r5` (False Smut): the three location fields are matched as the exact
literals `"VeryHigh"`, `"Optimal"`, `"High"`, the disease is typed `:Disease` and its name
is compared through `lcase`. -/
def r5Inserts (g : Graph) (userIRI : String) : List Triple :=
  (objects g userIRI (onto "hasDiseasec")).flatMap fun d =>
  (objects g userIRI (onto "hasLocationName")).flatMap fun loc =>
    if holds g loc (onto "hasHumidity_L") (strLit "VeryHigh") ∧
       holds g loc (onto "hasTemperatureRange") (strLit "Optimal") ∧
       holds g loc (onto "hasRainfallPattern_L") (strLit "High") ∧
       holds g d rdfType (.iri (onto "Disease")) then
      ((objectsOf g d (onto "hasName")).filter (fun dname => lcaseIs dname "false smut")).flatMap
        fun _ => tripleAt d (onto "hasPrimarySource") (strLit "Chlamydospores & Sclerotia (soil)")
    else []

/-- Template of `r6` (Rice Blast, airborne spores). -/
def r6Inserts (g : Graph) (userIRI : String) : List Triple :=
  (objects g userIRI (onto "hasLocationName")).flatMap fun loc =>
  (objects g userIRI (onto "hasDiseasec")).flatMap fun d =>
  (objectsOf g loc (onto "hasHumidity_L")).flatMap fun h =>
  (objectsOf g loc (onto "hasRainfallPattern_L")).flatMap fun rain =>
  (objectsOf g d (onto "hasName")).flatMap fun dname =>
    if lcaseIs h "high" ∧ lcaseIs rain "veryhigh" ∧ lcaseIs dname "rice blast" then
      tripleAt d (onto "hasPrimarySource") (strLit "Airborne Spores")
    else []

/-- Template of `r7` (Rice Blast, infected seeds). -/
def r7Inserts (g : Graph) (userIRI : String) : List Triple :=
  (objects g userIRI (onto "hasLocationName")).flatMap fun loc =>
  (objects g userIRI (onto "hasDiseasec")).flatMap fun d =>
  (objectsOf g loc (onto "hasRainfallPattern_L")).flatMap fun rain =>
  (objectsOf g d (onto "hasName")).flatMap fun dname =>
    if lcaseIs rain "high" ∧ lcaseIs dname "rice blast" then
      tripleAt d (onto "hasPrimarySource") (strLit "Infected Seeds")
    else []

/-- Template of `r8` (Rice Blast, soil and water). -/
def r8Inserts (g : Graph) (userIRI : String) : List Triple :=
  (objects g userIRI (onto "hasLocationName")).flatMap fun loc =>
  (objects g userIRI (onto "hasDiseasec")).flatMap fun d =>
  (objectsOf g loc (onto "hasRainfallPattern_L")).flatMap fun rain =>
  (objectsOf g loc (onto "hasSoilMoisture_L")).flatMap fun moist =>
  (objectsOf g d (onto "hasName")).flatMap fun dname =>
    if lcaseIs rain "veryhigh" ∧ lcaseIs moist "high" ∧ lcaseIs dname "rice blast" then
      tripleAt d (onto "hasPrimarySource") (strLit "Soil and Water")
    else []

/-- Template of `r15`: `r6` over the properties `:hasHumidity` and `:hasRainfallPattern`. -/
def r15Inserts (g : Graph) (userIRI : String) : List Triple :=
  (objects g userIRI (onto "hasLocationName")).flatMap fun loc =>
  (objects g userIRI (onto "hasDiseasec")).flatMap fun d =>
  (objectsOf g loc (onto "hasHumidity")).flatMap fun h =>
  (objectsOf g loc (onto "hasRainfallPattern")).flatMap fun rain =>
  (objectsOf g d (onto "hasName")).flatMap fun dname =>
    if lcaseIs h "high" ∧ lcaseIs rain "veryhigh" ∧ lcaseIs dname "rice blast" then
      tripleAt d (onto "hasPrimarySource") (strLit "Airborne Spores")
    else []

/-- The update `r5`. -/
def r5 (g : Graph) (userIRI : String) : Graph := insertAll g (r5Inserts g userIRI)

/-- The update `r6`. -/
def r6 (g : Graph) (userIRI : String) : Graph := insertAll g (r6Inserts g userIRI)

/-- The update `r7`. -/
def r7 (g : Graph) (userIRI : String) : Graph := insertAll g (r7Inserts g userIRI)

/-- The update `r8`. -/
def r8 (g : Graph) (userIRI : String) : Graph := insertAll g (r8Inserts g userIRI)

/-- The update `r15`. -/
def r15 (g : Graph) (userIRI : String) : Graph := insertAll g (r15Inserts g userIRI)

/-- The function `applyPrimarySourceRules`: all five updates run, in source order. -/
def applyPrimarySourceRules (g : Graph) (userId : String) : Graph :=
  let userIRI := onto userId
  r15 (r8 (r7 (r6 (r5 g userIRI) userIRI) userIRI) userIRI) userIRI

/-! ## Symptom-Specificity Matcher: `applySymptomSpecificRule` -/

/-- FILTER of `rule11`: the five pairwise `lcase(str(..)) = lcase(str(..))` comparisons. -/
def rule11Filter (tempL humL soilL lightL rainL tempE humE soilE lightE rainE : Term) : Bool :=
  lcaseEq tempL tempE && lcaseEq humL humE && lcaseEq soilL soilE &&
  lcaseEq lightL lightE && lcaseEq rainL rainE

/-- Template of `rule11`: INSERT `?sym :isSpecific "true"` (a string literal). -/
def rule11Inserts (g : Graph) (userIRI : String) : List Triple :=
  (objects g userIRI (onto "hasLocationName")).flatMap fun loc =>
  (objects g userIRI (onto "hasDiseasec")).flatMap fun d =>
  (objectsOf g loc (onto "hasTemperatureRange")).flatMap fun tempL =>
  (objectsOf g loc (onto "hasHumidity_L")).flatMap fun humL =>
  (objectsOf g loc (onto "hasSoilMoisture_L")).flatMap fun soilL =>
  (objectsOf g loc (onto "hasLightIntensity_L")).flatMap fun lightL =>
  (objectsOf g loc (onto "hasRainfallPattern_L")).flatMap fun rainL =>
  (objectsOf g d (onto "hasSymptomps")).flatMap fun sym =>
  (objectsOf g sym (onto "AreAffectedBy")).flatMap fun env =>
  (objectsOf g env (onto "hasTemperatureRange_symp")).flatMap fun tempE =>
  (objectsOf g env (onto "hasHumidity")).flatMap fun humE =>
  (objectsOf g env (onto "hasSoilMoisture")).flatMap fun soilE =>
  (objectsOf g env (onto "hasLightIntensity")).flatMap fun lightE =>
  (objectsOf g env (onto "hasRainfallPattern")).flatMap fun rainE =>
    if rule11Filter tempL humL soilL lightL rainL tempE humE soilE lightE rainE then
      tripleAt sym (onto "isSpecific") (strLit "true")
    else []

/-- The update `rule11`. -/
def rule11 (g : Graph) (userIRI : String) : Graph := insertAll g (rule11Inserts g userIRI)

/-- The function `applySymptomSpecificRule`. -/
def applySymptomSpecificRule (g : Graph) (userId : String) : Graph :=
  rule11 g (onto userId)

/-! ## Pipeline Orchestrator -/

/-- The function `runAllRulesForUser`: the four stages in source order. -/
def runAllRulesForUser (g : Graph) (userId : String) : Graph :=
  applySymptomSpecificRule
    (applyPrimarySourceRules
      (applyControlMethodAndSuitabilityRules (applyBudgetRulesForUser g userId) userId)
      userId)
    userId

/-- The six derived attributes named in the DELETE template of `clearTreatments`. -/
def derivedPreds : List String :=
  [onto "priority", onto "isAffordable", onto "isControlMethodSuitable", onto "isSuitable",
   onto "hasPrimarySource", onto "isSpecific"]

/-! ## Predicates used in the statements, and example stores -/

/-- The graph `g2` differs from `g1` only in triples whose predicate is a derived attribute. -/
def Frame (g1 g2 : Graph) : Prop :=
  ∀ tr : Triple, tr.p ∉ derivedPreds → (tr ∈ g2 ↔ tr ∈ g1)

/-- The graph on which `affordableFromPriority` runs inside `applyBudgetRulesForUser`. -/
def afterTiers (g : Graph) (userId : String) : Graph :=
  notAffordable (low (medium (high g (onto userId)) (onto userId)) (onto userId)) (onto userId)

/-- The session node `u` has a budget, and each of its budget literals casts to `b`. -/
def HasBudget (g : Graph) (u : String) (b : ℚ) : Prop :=
  objects g u (onto "hasUserBudget") ≠ [] ∧
    ∀ o ∈ objects g u (onto "hasUserBudget"), asDecimal o = some b

/-- The node `t` has a cost, and each of its cost literals casts to `c`. -/
def HasCost (g : Graph) (t : String) (c : ℚ) : Prop :=
  objects g t (onto "hasCost") ≠ [] ∧ ∀ o ∈ objects g t (onto "hasCost"), asDecimal o = some c

instance (g : Graph) (u : String) (b : ℚ) : Decidable (HasBudget g u b) := by
  unfold HasBudget; infer_instance

instance (g : Graph) (t : String) (c : ℚ) : Decidable (HasCost g t c) := by
  unfold HasCost; infer_instance

/-- No node typed `:Treatments` bears one of the six derived attributes. -/
def NoDerivedOnTreatments (g : Graph) : Prop :=
  ∀ tr ∈ g, (⟨tr.s, rdfType, Treatments⟩ : Triple) ∈ g → tr.p ∉ derivedPreds

instance (g : Graph) : Decidable (NoDerivedOnTreatments g) := by
  unfold NoDerivedOnTreatments; infer_instance

/-- A small store: one session `:U` with budget 100 and four treatments costing
100, 110, 140 and 151. -/
def exampleBudgetGraph : Graph :=
  [⟨onto "U", onto "hasUserBudget", .lit "100" .xsdDecimal⟩,
   ⟨onto "T1", rdfType, Treatments⟩, ⟨onto "T1", onto "hasCost", .lit "100" .xsdDecimal⟩,
   ⟨onto "T2", rdfType, Treatments⟩, ⟨onto "T2", onto "hasCost", .lit "110" .xsdDecimal⟩,
   ⟨onto "T3", rdfType, Treatments⟩, ⟨onto "T3", onto "hasCost", .lit "140" .xsdDecimal⟩,
   ⟨onto "T4", rdfType, Treatments⟩, ⟨onto "T4", onto "hasCost", .lit "151" .xsdDecimal⟩]

/-- The node has one of the three tier priorities. -/
def hasTierPriority (g : Graph) (t : String) : Prop :=
  (⟨t, onto "priority", strLit "High"⟩ : Triple) ∈ g ∨
  (⟨t, onto "priority", strLit "Medium"⟩ : Triple) ∈ g ∨
  (⟨t, onto "priority", strLit "Low"⟩ : Triple) ∈ g

/-- The node carries the not-affordable flag as `notAffordable` writes it:
`:isAffordable "false"`. -/
def flaggedNotAffordable (g : Graph) (t : String) : Prop :=
  (⟨t, onto "isAffordable", strLit "false"⟩ : Triple) ∈ g

/-- A background graph of four treatments costing 100, 110, 140 and 151. -/
def exampleTreatments : Graph :=
  [⟨onto "T1", rdfType, Treatments⟩, ⟨onto "T1", onto "hasCost", .lit "100" .xsdDecimal⟩,
   ⟨onto "T2", rdfType, Treatments⟩, ⟨onto "T2", onto "hasCost", .lit "110" .xsdDecimal⟩,
   ⟨onto "T3", rdfType, Treatments⟩, ⟨onto "T3", onto "hasCost", .lit "140" .xsdDecimal⟩,
   ⟨onto "T4", rdfType, Treatments⟩, ⟨onto "T4", onto "hasCost", .lit "151" .xsdDecimal⟩]

/-- A background graph with one treatment `:T0` of cost 0. -/
def zeroCostGraph : Graph :=
  [⟨onto "T0", rdfType, Treatments⟩, ⟨onto "T0", onto "hasCost", .lit "0" .xsdDecimal⟩]

/-- A background graph with one treatment `:T7` of cost -120. -/
def negativeCostGraph : Graph :=
  [⟨onto "T7", rdfType, Treatments⟩, ⟨onto "T7", onto "hasCost", .lit "-120" .xsdDecimal⟩]

/-- A background graph with treatments `:T5` and `:T6` costing 120 and 150. -/
def boundaryGraph : Graph :=
  [⟨onto "T5", rdfType, Treatments⟩, ⟨onto "T5", onto "hasCost", .lit "120" .xsdDecimal⟩,
   ⟨onto "T6", rdfType, Treatments⟩, ⟨onto "T6", onto "hasCost", .lit "150" .xsdDecimal⟩]

/-- A background graph: two location profiles and the disease Rice Blast. -/
def twoLocations : Graph :=
  [⟨onto "Kandy", onto "hasHumidity_L", strLit "High"⟩,
   ⟨onto "Kandy", onto "hasRainfallPattern_L", strLit "VeryHigh"⟩,
   ⟨onto "Kandy", onto "hasSoilMoisture_L", strLit "High"⟩,
   ⟨onto "Jaffna", onto "hasHumidity_L", strLit "Low"⟩,
   ⟨onto "Jaffna", onto "hasRainfallPattern_L", strLit "Low"⟩,
   ⟨onto "Rice_Blast", rdfType, .iri (onto "Disease")⟩,
   ⟨onto "Rice_Blast", onto "hasName", strLit "Rice Blast"⟩]

/-- The store after a first submission: Rice Blast at Kandy. -/
def afterFirstSession : Graph :=
  runAllRulesForUser (insertUserInput twoLocations 1 "Rice Blast" "100" "Kandy" "Spray").graph
    "UserInput_1"

/-- A graph in which a symptom node carries `isSpecific` and a typed treatment a priority. -/
def staleSymptom : Graph :=
  [⟨onto "Symptom1", onto "isSpecific", strLit "true"⟩,
   ⟨onto "T1", rdfType, Treatments⟩,
   ⟨onto "T1", onto "priority", strLit "High"⟩]

/-- A store with one session asking for "Spray" against Rice Blast: two control methods of
Rice Blast labelled "spray" and "SPRAY", one labelled "Dust", and a control method
labelled "spray" that belongs to another disease. -/
def exampleControlGraph : Graph :=
  [⟨onto "U", onto "hasControlMethodInput", strLit "Spray"⟩,
   ⟨onto "U", onto "hasDiseasec", .iri (onto "Rice_Blast")⟩,
   ⟨onto "Rice_Blast", onto "hasControlMethods", .iri (onto "CM1")⟩,
   ⟨onto "Rice_Blast", onto "hasControlMethods", .iri (onto "CM2")⟩,
   ⟨onto "Rice_Blast", onto "hasControlMethods", .iri (onto "CM3")⟩,
   ⟨onto "False_Smut", onto "hasControlMethods", .iri (onto "CM4")⟩,
   ⟨onto "CM1", onto "hasMethod", strLit "spray"⟩,
   ⟨onto "CM1", onto "hasTreatments", .iri (onto "T1")⟩,
   ⟨onto "CM2", onto "hasMethod", strLit "SPRAY"⟩,
   ⟨onto "CM2", onto "hasTreatments", .iri (onto "T2")⟩,
   ⟨onto "CM3", onto "hasMethod", strLit "Dust"⟩,
   ⟨onto "CM3", onto "hasTreatments", .iri (onto "T3")⟩,
   ⟨onto "CM4", onto "hasMethod", strLit "spray"⟩,
   ⟨onto "CM4", onto "hasTreatments", .iri (onto "T4")⟩]

/-- A background graph for the suitability stage: Rice Blast has the control methods `:CM1`
("spray", treatments `:T1` costing 100 and `:T2` costing 500) and `:CM2` ("Dust",
treatment `:T3` costing 50). -/
def exampleSuitGraph : Graph :=
  [⟨onto "Rice_Blast", onto "hasControlMethods", .iri (onto "CM1")⟩,
   ⟨onto "Rice_Blast", onto "hasControlMethods", .iri (onto "CM2")⟩,
   ⟨onto "CM1", onto "hasMethod", strLit "spray"⟩,
   ⟨onto "CM1", onto "hasTreatments", .iri (onto "T1")⟩,
   ⟨onto "CM1", onto "hasTreatments", .iri (onto "T2")⟩,
   ⟨onto "CM2", onto "hasMethod", strLit "Dust"⟩,
   ⟨onto "CM2", onto "hasTreatments", .iri (onto "T3")⟩,
   ⟨onto "T1", rdfType, Treatments⟩, ⟨onto "T1", onto "hasCost", .lit "100" .xsdDecimal⟩,
   ⟨onto "T2", rdfType, Treatments⟩, ⟨onto "T2", onto "hasCost", .lit "500" .xsdDecimal⟩,
   ⟨onto "T3", rdfType, Treatments⟩, ⟨onto "T3", onto "hasCost", .lit "50" .xsdDecimal⟩]

/-- The store right after the submission {Rice Blast, 100, Kandy, Spray} over `twoLocations`. -/
def sessionAtKandy : Graph :=
  (insertUserInput twoLocations 1 "Rice Blast" "100" "Kandy" "Spray").graph

/-- Galle with the profile of rule R1 written in lower case, and the disease False Smut. -/
def lowerCaseFalseSmut : Graph :=
  [⟨onto "Galle", onto "hasHumidity_L", strLit "veryhigh"⟩,
   ⟨onto "Galle", onto "hasTemperatureRange", strLit "optimal"⟩,
   ⟨onto "Galle", onto "hasRainfallPattern_L", strLit "high"⟩,
   ⟨onto "False_Smut", rdfType, .iri (onto "Disease")⟩,
   ⟨onto "False_Smut", onto "hasName", strLit "False Smut"⟩]

/-- Galle with the profile of rule R1 in the exact casing of the query text. -/
def exactCaseFalseSmut : Graph :=
  [⟨onto "Galle", onto "hasHumidity_L", strLit "VeryHigh"⟩,
   ⟨onto "Galle", onto "hasTemperatureRange", strLit "Optimal"⟩,
   ⟨onto "Galle", onto "hasRainfallPattern_L", strLit "High"⟩,
   ⟨onto "False_Smut", rdfType, .iri (onto "Disease")⟩,
   ⟨onto "False_Smut", onto "hasName", strLit "False Smut"⟩]

/-- Galle with the profile of rule R2 written in lower case, and the disease Rice Blast. -/
def lowerCaseRiceBlast : Graph :=
  [⟨onto "Galle", onto "hasHumidity_L", strLit "high"⟩,
   ⟨onto "Galle", onto "hasRainfallPattern_L", strLit "veryhigh"⟩,
   ⟨onto "Rice_Blast", onto "hasName", strLit "Rice Blast"⟩]

/-! ## Symptom specificity: the matching condition in words -/

/-- The symptom `sym` belongs to the disease of session `u`, its required environmental
profile has all five fields, the location of `u` has its five fields, and each pair agrees
up to letter case. -/
def SymptomMatches (g : Graph) (u sym : String) : Prop :=
  ∃ loc d env : String, ∃ tempL humL soilL lightL rainL tempE humE soilE lightE rainE : Term,
    (⟨u, onto "hasLocationName", .iri loc⟩ : Triple) ∈ g ∧
    (⟨u, onto "hasDiseasec", .iri d⟩ : Triple) ∈ g ∧
    (⟨loc, onto "hasTemperatureRange", tempL⟩ : Triple) ∈ g ∧
    (⟨loc, onto "hasHumidity_L", humL⟩ : Triple) ∈ g ∧
    (⟨loc, onto "hasSoilMoisture_L", soilL⟩ : Triple) ∈ g ∧
    (⟨loc, onto "hasLightIntensity_L", lightL⟩ : Triple) ∈ g ∧
    (⟨loc, onto "hasRainfallPattern_L", rainL⟩ : Triple) ∈ g ∧
    (⟨d, onto "hasSymptomps", .iri sym⟩ : Triple) ∈ g ∧
    (⟨sym, onto "AreAffectedBy", .iri env⟩ : Triple) ∈ g ∧
    (⟨env, onto "hasTemperatureRange_symp", tempE⟩ : Triple) ∈ g ∧
    (⟨env, onto "hasHumidity", humE⟩ : Triple) ∈ g ∧
    (⟨env, onto "hasSoilMoisture", soilE⟩ : Triple) ∈ g ∧
    (⟨env, onto "hasLightIntensity", lightE⟩ : Triple) ∈ g ∧
    (⟨env, onto "hasRainfallPattern", rainE⟩ : Triple) ∈ g ∧
    lcase (str tempL) = lcase (str tempE) ∧ lcase (str humL) = lcase (str humE) ∧
    lcase (str soilL) = lcase (str soilE) ∧ lcase (str lightL) = lcase (str lightE) ∧
    lcase (str rainL) = lcase (str rainE)

/-- A session `:U` for Rice Blast at Kandy, the five-field profile of Kandy, and the
symptom `:S1` of Rice Blast with a required profile `:E1`; the profile values are the
five arguments. -/
def symptomStore (temp hum soil light rain : String) : Graph :=
  [⟨onto "U", onto "hasLocationName", .iri (onto "Kandy")⟩,
   ⟨onto "U", onto "hasDiseasec", .iri (onto "Rice_Blast")⟩,
   ⟨onto "Kandy", onto "hasTemperatureRange", strLit "Optimal"⟩,
   ⟨onto "Kandy", onto "hasHumidity_L", strLit "High"⟩,
   ⟨onto "Kandy", onto "hasSoilMoisture_L", strLit "High"⟩,
   ⟨onto "Kandy", onto "hasLightIntensity_L", strLit "Low"⟩,
   ⟨onto "Kandy", onto "hasRainfallPattern_L", strLit "VeryHigh"⟩,
   ⟨onto "Rice_Blast", onto "hasSymptomps", .iri (onto "S1")⟩,
   ⟨onto "S1", onto "AreAffectedBy", .iri (onto "E1")⟩,
   ⟨onto "E1", onto "hasTemperatureRange_symp", strLit temp⟩,
   ⟨onto "E1", onto "hasHumidity", strLit hum⟩,
   ⟨onto "E1", onto "hasSoilMoisture", strLit soil⟩,
   ⟨onto "E1", onto "hasLightIntensity", strLit light⟩,
   ⟨onto "E1", onto "hasRainfallPattern", strLit rain⟩]

/-- The store `symptomStore` with a matching profile from which the light-intensity field
of the symptom profile has been dropped. -/
def symptomStoreMissingLight : Graph :=
  (symptomStore "optimal" "HIGH" "high" "low" "veryhigh").filter
    (fun tr => tr.p ≠ onto "hasLightIntensity")

/-! ## The pipeline over a store whose update calls may fail -/

/-- The store as the program reaches it: its graph, and the names of the update requests
sent to it so far, oldest first. -/
structure Store where
  graph : Graph
  issued : List String
  deriving DecidableEq

/-- One update request: the name of the query text in the source and its effect on the
graph; `none` when the spliced text is not a well-formed update. -/
structure Update where
  name : String
  effect : Option (Graph → Graph)

/-- An `async` function of the source: from the store before the call to the returned value
or the thrown error message, and the store after the call. -/
def Async (α : Type) : Type := Store → Except String α × Store

/-- Runs an `async` function from a store. -/
def Async.run {α : Type} (t : Async α) (s : Store) : Except String α × Store := t s

/-- The statement `return x`. -/
def Async.ret {α : Type} (x : α) : Async α := fun s => (.ok x, s)

/-- The statement `throw new Error(e)`. -/
def Async.throw {α : Type} (e : String) : Async α := fun s => (.error e, s)

/-- What follows an awaited call: the continuation on its value, or its error passed on. -/
def Async.next {α β : Type} (r : Except String α × Store) (f : α → Async β) :
    Except String β × Store :=
  match r with
  | (.ok x, s1) => f x s1
  | (.error e, s1) => (.error e, s1)

/-- The sequence `const x = await t; f(x)`: an error thrown by `t` ends the sequence. -/
def Async.andThen {α β : Type} (t : Async α) (f : α → Async β) : Async β := fun s =>
  Async.next (t s) f

/-- The helper `sparqlUpdate`: sends the request, which is the call number
`s.issued.length` (counting from 0).  The call fails when the store fails it (`fails`) or the
text is malformed; a failed call changes nothing in the graph and throws. -/
def sparqlUpdate (fails : Nat → Bool) (u : Update) : Async Unit := fun s =>
  match u.effect with
  | none => (.error "SPARQL Update failed: 400", ⟨s.graph, s.issued ++ [u.name]⟩)
  | some f =>
    if fails s.issued.length then
      (.error "SPARQL Update failed", ⟨s.graph, s.issued ++ [u.name]⟩)
    else (.ok (), ⟨f s.graph, s.issued ++ [u.name]⟩)

/-- A run of `await sparqlUpdate(..)` statements, one after the other. -/
def runUpdates (fails : Nat → Bool) : List Update → Async Unit
  | [] => Async.ret ()
  | u :: us => (sparqlUpdate fails u).andThen fun _ => runUpdates fails us

/-- The request `clearTreatments`. -/
def clearTreatmentsUpdate : Update := ⟨"clearTreatments", some clearTreatments⟩

/-- The request `insertUser`; malformed unless both map entries are text. -/
def insertUserUpdate (id : String) (diseaseLocal locationLocal : JsValue)
    (budget control : String) : Update :=
  ⟨"insertUser",
    match diseaseLocal, locationLocal with
    | .text d, .text l =>
      some fun g => insertUser g (onto id) (expandPrefixed d) (expandPrefixed l) budget control
    | _, _ => none⟩

/-- The five requests of `applyBudgetRulesForUser`, in source order. -/
def budgetUpdates (userId : String) : List Update :=
  [⟨"high", some fun g => high g (onto userId)⟩,
   ⟨"medium", some fun g => medium g (onto userId)⟩,
   ⟨"low", some fun g => low g (onto userId)⟩,
   ⟨"notAffordable", some fun g => notAffordable g (onto userId)⟩,
   ⟨"affordableFromPriority", some affordableFromPriority⟩]

/-- The two requests of `applyControlMethodAndSuitabilityRules`, in source order. -/
def controlUpdates (userId : String) : List Update :=
  [⟨"controlSuitable", some fun g => controlSuitable g (onto userId)⟩,
   ⟨"isSuitable", some isSuitable⟩]

/-- The five requests of `applyPrimarySourceRules`, in source order. -/
def primarySourceUpdates (userId : String) : List Update :=
  [⟨"r5", some fun g => r5 g (onto userId)⟩, ⟨"r6", some fun g => r6 g (onto userId)⟩,
   ⟨"r7", some fun g => r7 g (onto userId)⟩, ⟨"r8", some fun g => r8 g (onto userId)⟩,
   ⟨"r15", some fun g => r15 g (onto userId)⟩]

/-- The request of `applySymptomSpecificRule`. -/
def symptomUpdates (userId : String) : List Update :=
  [⟨"rule11", some fun g => rule11 g (onto userId)⟩]

namespace Fallible

/-- The function `insertUserInput` over a store that may fail: the two lookups and their
throws, then the awaited `clearTreatments` and `insertUser`, then `return id`. -/
def insertUserInput (fails : Nat → Bool) (now : Nat)
    (diseaseName budget locationName control : String) : Async String :=
  match lookupProperty diseaseMap diseaseName with
  | .undefined => Async.throw ("Unknown disease: " ++ diseaseName)
  | diseaseLocal =>
    match lookupProperty locationMap locationName with
    | .undefined => Async.throw ("Unknown location: " ++ locationName)
    | locationLocal =>
      let id := "UserInput_" ++ toString now
      (runUpdates fails
        [clearTreatmentsUpdate, insertUserUpdate id diseaseLocal locationLocal budget control]
        ).andThen fun _ => Async.ret id

/-- The function `applyBudgetRulesForUser` over a store that may fail. -/
def applyBudgetRulesForUser (fails : Nat → Bool) (userId : String) : Async Unit :=
  runUpdates fails (budgetUpdates userId)

/-- The function `applyControlMethodAndSuitabilityRules` over a store that may fail. -/
def applyControlMethodAndSuitabilityRules (fails : Nat → Bool) (userId : String) :
    Async Unit :=
  runUpdates fails (controlUpdates userId)

/-- The function `applyPrimarySourceRules` over a store that may fail. -/
def applyPrimarySourceRules (fails : Nat → Bool) (userId : String) : Async Unit :=
  runUpdates fails (primarySourceUpdates userId)

/-- The function `applySymptomSpecificRule` over a store that may fail. -/
def applySymptomSpecificRule (fails : Nat → Bool) (userId : String) : Async Unit :=
  runUpdates fails (symptomUpdates userId)

/-- The function `runAllRulesForUser` over a store that may fail: four awaited stages. -/
def runAllRulesForUser (fails : Nat → Bool) (userId : String) : Async Unit :=
  (applyBudgetRulesForUser fails userId).andThen fun _ =>
  (applyControlMethodAndSuitabilityRules fails userId).andThen fun _ =>
  (applyPrimarySourceRules fails userId).andThen fun _ =>
  applySymptomSpecificRule fails userId

/-- The body of the `try` block of the route `POST /submit-input`:
`insertUserInput`, then `runAllRulesForUser`, then the instance id as the answer. -/
def submission (fails : Nat → Bool) (now : Nat)
    (disease budget location controlMethod : String) : Async String :=
  (insertUserInput fails now disease budget location controlMethod).andThen fun instanceId =>
  (runAllRulesForUser fails instanceId).andThen fun _ => Async.ret instanceId

end Fallible

/-- The answer of the route `POST /submit-input`. -/
inductive Response where
  | success (inst : String)
  | badRequest
  | serverError (message : String)
  deriving DecidableEq, Repr

/-- The route `POST /submit-input` for text fields: 400 when a required field is empty,
else `insertUserInput` and `runAllRulesForUser`; any thrown error gives 500. -/
def submitInput (fails : Nat → Bool) (now : Nat)
    (disease budget location controlMethod : String) (s : Store) : Response × Store :=
  if disease = "" ∨ budget = "" ∨ location = "" then (.badRequest, s)
  else
    match (Fallible.submission fails now disease budget location controlMethod).run s with
    | (.ok instanceId, s1) => (.success instanceId, s1)
    | (.error message, s1) => (.serverError message, s1)

/-- The fifteen requests of one submission, in the order the program sends them. -/
def pipelineUpdates (id : String) (diseaseLocal locationLocal : JsValue)
    (budget control : String) : List Update :=
  [clearTreatmentsUpdate, insertUserUpdate id diseaseLocal locationLocal budget control] ++
    budgetUpdates id ++ controlUpdates id ++ primarySourceUpdates id ++ symptomUpdates id

/-- The graph after the listed requests have all been applied, in order. -/
def applyAll (us : List Update) (g : Graph) : Graph :=
  us.foldl (fun acc u => match u.effect with | some f => f acc | none => acc) g

/-- Every listed request is well-formed text. -/
def WellFormed (us : List Update) : Prop := ∀ u ∈ us, u.effect.isSome = true

/-- The names of the fifteen requests of one submission, in the order they are sent. -/
def pipelineNames : List String :=
  ["clearTreatments", "insertUser", "high", "medium", "low", "notAffordable",
   "affordableFromPriority", "controlSuitable", "isSuitable", "r5", "r6", "r7", "r8", "r15",
   "rule11"]
/-- The answer and the store after a first submission {Rice Blast, 1000, Kandy, Spray} at
`Date.now() = 1` over `twoLocations`, with a store that never fails. -/
def firstSubmission : Response × Store :=
  submitInput (fun _ => false) 1 "Rice Blast" "1000" "Kandy" "Spray" ⟨twoLocations, []⟩

/-- The answer and the store after a second submission {Rice Blast, 10, Jaffna, Dust}
handled within the same millisecond (`Date.now() = 1` again). -/
def secondSubmission : Response × Store :=
  submitInput (fun _ => false) 1 "Rice Blast" "10" "Jaffna" "Dust" firstSubmission.2

/-! ## Readers of the derived flags -/

/-- The block `?disease :hasSymptoms ?symptom . ?symptom :isSpecific ?isSpecific .
FILTER(?isSpecific = true)` of the disease-details query: the symptoms it binds. -/
def specificSymptoms (g : Graph) (userIRI : String) : List Term :=
  (objects g userIRI (onto "hasDiseasec")).flatMap fun disease =>
  (objectsOf g disease (onto "hasSymptoms")).flatMap fun symptom =>
  ((objectsOf g symptom (onto "isSpecific")).filter
    (fun isSpecific => termEq isSpecific boolTrue = some true)).map fun _ => symptom

/-- The matching example store of the symptom rule, in which the disease is linked to its
symptom by `:hasSymptoms` as well, the property the disease-details query follows. -/
def symptomStoreLinked : Graph :=
  symptomStore "optimal" "HIGH" "high" "low" "veryhigh" ++
    [⟨onto "Rice_Blast", onto "hasSymptoms", .iri (onto "S1")⟩]

/-! ## History of sessions -/

/-- A background graph: Rice Blast has the control method `:CM1`, labelled "spray", with the
typed treatment `:T1`. -/
def historyBackground : Graph :=
  [⟨onto "Rice_Blast", onto "hasControlMethods", .iri (onto "CM1")⟩,
   ⟨onto "CM1", onto "hasMethod", strLit "spray"⟩,
   ⟨onto "CM1", onto "hasTreatments", .iri (onto "T1")⟩,
   ⟨onto "T1", rdfType, Treatments⟩]

/-- The store left by an earlier session {Rice Blast, 100, Kandy, Spray} at `Date.now() = 1`. -/
def historyGraph : Graph :=
  runAllRulesForUser (insertUserInput historyBackground 1 "Rice Blast" "100" "Kandy" "Spray").graph
    "UserInput_1"

/-- The four session attributes that `insertUser` writes next to the type of the node. -/
def sessionPreds : List String :=
  [onto "hasDiseasec", onto "hasLocationName", onto "hasUserBudget",
   onto "hasControlMethodInput"]

/-- The four derived attributes of Treatments. -/
def treatmentPreds : List String :=
  [onto "priority", onto "isAffordable", onto "isControlMethodSuitable", onto "isSuitable"]

/-- A triple that the run for the session node `u` can read: its predicate is no derived
attribute, it is no session attribute of another node, and it is no `:User_Inputs` typing. -/
def Reads (u : String) (tr : Triple) : Prop :=
  tr.p ∉ derivedPreds ∧ (tr.s = u ∨ tr.p ∉ sessionPreds) ∧
    ¬ (tr.p = rdfType ∧ tr.o = .iri (onto "User_Inputs"))

/-- Two graphs hold the same triples among those the run for `u` can read. -/
def AgreeFor (u : String) (g1 g2 : Graph) : Prop :=
  ∀ tr : Triple, Reads u tr → (tr ∈ g1 ↔ tr ∈ g2)

/-- One submission: the value of `Date.now()` and the four fields of the request. -/
structure Submission where
  now : Nat
  disease : String
  budget : String
  location : String
  control : String

/-- The store after one submission has been handled to its end (or to its error). -/
def runSubmission (g : Graph) (x : Submission) : Graph :=
  match insertUserInput g x.now x.disease x.budget x.location x.control with
  | ⟨g1, .ok id⟩ => runAllRulesForUser g1 id
  | ⟨g1, .error _⟩ => g1

/-- The store after a sequence of submissions, handled one after the other. -/
def runSubmissions (g : Graph) (xs : List Submission) : Graph := xs.foldl runSubmission g

/-! ## Basic facts about graphs -/

theorem mem_objects {g : Graph} {s p : String} {o : Term} :
    o ∈ objects g s p ↔ (⟨s, p, o⟩ : Triple) ∈ g := by
  unfold objects
  constructor
  · intro h
    obtain ⟨t, ht, rfl⟩ := List.mem_map.1 h
    have h2 := List.mem_filter.1 ht
    obtain ⟨hs, hp⟩ := of_decide_eq_true h2.2
    subst hs; subst hp
    exact h2.1
  · intro h
    exact List.mem_map.2 ⟨_, List.mem_filter.2 ⟨h, by simp⟩, rfl⟩

theorem mem_subjects {g : Graph} {s p : String} {o : Term} :
    s ∈ subjects g p o ↔ (⟨s, p, o⟩ : Triple) ∈ g := by
  unfold subjects
  constructor
  · intro h
    obtain ⟨t, ht, rfl⟩ := List.mem_map.1 h
    have h2 := List.mem_filter.1 ht
    obtain ⟨hp, ho⟩ := of_decide_eq_true h2.2
    subst hp; subst ho
    exact h2.1
  · intro h
    exact List.mem_map.2 ⟨_, List.mem_filter.2 ⟨h, by simp⟩, rfl⟩

theorem mem_objectsOf {g : Graph} {s : Term} {p : String} {o : Term} :
    o ∈ objectsOf g s p ↔ ∃ n, s = .iri n ∧ (⟨n, p, o⟩ : Triple) ∈ g := by
  cases s with
  | iri n => simp [objectsOf, mem_objects]
  | lit l d => simp [objectsOf]

theorem mem_tripleAt {t : Term} {p : String} {o : Term} {tr : Triple} :
    tr ∈ tripleAt t p o ↔ ∃ n, t = .iri n ∧ tr = ⟨n, p, o⟩ := by
  cases t with
  | iri n => simp [tripleAt]
  | lit l d => simp [tripleAt]

theorem holds_iff {g : Graph} {s : Term} {p : String} {o : Term} :
    holds g s p o = true ↔ ∃ n, s = .iri n ∧ (⟨n, p, o⟩ : Triple) ∈ g := by
  cases s with
  | iri n => simp [holds]
  | lit l d => simp [holds]

theorem mem_insertAll {g : Graph} {ts : List Triple} {tr : Triple} :
    tr ∈ insertAll g ts ↔ tr ∈ g ∨ tr ∈ ts := by
  unfold insertAll
  rw [List.mem_append, List.mem_dedup, List.mem_filter]
  by_cases h : tr ∈ g <;> simp [h]

theorem mem_deleteAll {g : Graph} {ts : List Triple} {tr : Triple} :
    tr ∈ deleteAll g ts ↔ tr ∈ g ∧ tr ∉ ts := by
  unfold deleteAll
  simp [List.mem_filter]

theorem mem_optionalObjects_some {g : Graph} {s p : String} {o : Term} :
    some o ∈ optionalObjects g s p ↔ (⟨s, p, o⟩ : Triple) ∈ g := by
  unfold optionalObjects
  rw [← mem_objects]
  cases h : objects g s p with
  | nil => simp
  | cons a l => simp

theorem optionalObjects_ne_nil (g : Graph) (s p : String) :
    ∃ x, x ∈ optionalObjects g s p := by
  unfold optionalObjects
  cases h : objects g s p with
  | nil => exact ⟨none, by simp⟩
  | cons a l => exact ⟨some a, by simp⟩

theorem onto_inj {a b : String} : onto a = onto b ↔ a = b := by
  unfold onto
  constructor
  · intro h
    have h2 := congrArg String.data h
    simp only [String.data_append] at h2
    exact String.ext (List.append_cancel_left h2)
  · intro h; rw [h]

theorem onto_ne_rdfType (a : String) : onto a ≠ rdfType := by
  intro h
  have h2 := congrArg (fun s => s.data.take 12) h
  simp only [onto, String.data_append] at h2
  rw [List.take_append_of_le_length (by decide)] at h2
  revert h2
  decide

theorem mem_insertAll_of_pred {g : Graph} {ts : List Triple} {tr : Triple} {q : String}
    (h : ∀ x ∈ ts, x.p = q) (hne : tr.p ≠ q) : tr ∈ insertAll g ts ↔ tr ∈ g := by
  rw [mem_insertAll]
  constructor
  · rintro (h1 | h1)
    · exact h1
    · exact absurd (h tr h1) hne
  · intro h1; exact Or.inl h1

theorem mem_budgetInserts {g : Graph} {u : String} {f : Term → Term → Option Bool}
    {p : String} {o : Term} {tr : Triple} :
    tr ∈ budgetInserts g u f p o ↔
      ∃ budget t cost, tr = ⟨t, p, o⟩ ∧ (⟨u, onto "hasUserBudget", budget⟩ : Triple) ∈ g ∧
        (⟨t, rdfType, Treatments⟩ : Triple) ∈ g ∧ (⟨t, onto "hasCost", cost⟩ : Triple) ∈ g ∧
        f budget cost = some true := by
  unfold budgetInserts budgetCostRows
  simp only [List.mem_map, List.mem_filter, List.mem_flatMap, mem_objects, mem_subjects,
    decide_eq_true_eq]
  constructor
  · rintro ⟨r, ⟨⟨budget, hb, t, ht, cost, hc, rfl⟩, hf⟩, rfl⟩
    exact ⟨budget, t, cost, rfl, hb, ht, hc, hf⟩
  · rintro ⟨budget, t, cost, rfl, hb, ht, hc, hf⟩
    exact ⟨(budget, t, cost), ⟨⟨budget, hb, t, ht, cost, hc, rfl⟩, hf⟩, rfl⟩

theorem budgetInserts_pred {g : Graph} {u : String} {f : Term → Term → Option Bool}
    {p : String} {o : Term} : ∀ x ∈ budgetInserts g u f p o, x.p = p := by
  intro x hx
  obtain ⟨_, _, _, rfl, _⟩ := mem_budgetInserts.1 hx
  rfl

theorem mem_templateAt {s p : String} {x : Option Term} {tr : Triple} :
    tr ∈ templateAt s p x ↔ ∃ o, x = some o ∧ tr = ⟨s, p, o⟩ := by
  cases x with
  | none => simp [templateAt]
  | some o => simp [templateAt]

theorem mem_clearRows {g : Graph} {r : ClearRow} :
    r ∈ clearRows g ↔
      (⟨r.t, rdfType, Treatments⟩ : Triple) ∈ g ∧
      r.p ∈ optionalObjects g r.t (onto "priority") ∧
      r.aff ∈ optionalObjects g r.t (onto "isAffordable") ∧
      r.cms ∈ optionalObjects g r.t (onto "isControlMethodSuitable") ∧
      r.suit ∈ optionalObjects g r.t (onto "isSuitable") ∧
      r.ps ∈ optionalObjects g r.t (onto "hasPrimarySource") ∧
      r.isSpec ∈ optionalObjects g r.t (onto "isSpecific") := by
  unfold clearRows
  simp only [List.mem_flatMap, List.mem_map, mem_subjects]
  constructor
  · rintro ⟨t, ht, p, hp, aff, haff, cms, hcms, suit, hsuit, ps, hps, isSpec, hsp, rfl⟩
    exact ⟨ht, hp, haff, hcms, hsuit, hps, hsp⟩
  · rintro ⟨ht, hp, haff, hcms, hsuit, hps, hsp⟩
    exact ⟨r.t, ht, r.p, hp, r.aff, haff, r.cms, hcms, r.suit, hsuit, r.ps, hps, r.isSpec, hsp, rfl⟩

theorem mem_clearDeletes {g : Graph} {tr : Triple} :
    tr ∈ clearDeletes g ↔
      tr ∈ g ∧ (⟨tr.s, rdfType, Treatments⟩ : Triple) ∈ g ∧ tr.p ∈ derivedPreds := by
  unfold clearDeletes
  simp only [List.mem_flatMap, List.mem_append, mem_templateAt, mem_clearRows]
  constructor
  · rintro ⟨r, ⟨ht, hp, haff, hcms, hsuit, hps, hsp⟩, h⟩
    rcases h with (((((⟨o, ho, rfl⟩ | ⟨o, ho, rfl⟩) | ⟨o, ho, rfl⟩) | ⟨o, ho, rfl⟩) |
      ⟨o, ho, rfl⟩) | ⟨o, ho, rfl⟩)
    · rw [ho] at hp
      exact ⟨mem_optionalObjects_some.1 hp, ht, by simp [derivedPreds]⟩
    · rw [ho] at haff
      exact ⟨mem_optionalObjects_some.1 haff, ht, by simp [derivedPreds]⟩
    · rw [ho] at hcms
      exact ⟨mem_optionalObjects_some.1 hcms, ht, by simp [derivedPreds]⟩
    · rw [ho] at hsuit
      exact ⟨mem_optionalObjects_some.1 hsuit, ht, by simp [derivedPreds]⟩
    · rw [ho] at hps
      exact ⟨mem_optionalObjects_some.1 hps, ht, by simp [derivedPreds]⟩
    · rw [ho] at hsp
      exact ⟨mem_optionalObjects_some.1 hsp, ht, by simp [derivedPreds]⟩
  · rintro ⟨hmem, ht, hp⟩
    obtain ⟨s, p, o⟩ := tr
    obtain ⟨x1, h1⟩ := optionalObjects_ne_nil g s (onto "priority")
    obtain ⟨x2, h2⟩ := optionalObjects_ne_nil g s (onto "isAffordable")
    obtain ⟨x3, h3⟩ := optionalObjects_ne_nil g s (onto "isControlMethodSuitable")
    obtain ⟨x4, h4⟩ := optionalObjects_ne_nil g s (onto "isSuitable")
    obtain ⟨x5, h5⟩ := optionalObjects_ne_nil g s (onto "hasPrimarySource")
    obtain ⟨x6, h6⟩ := optionalObjects_ne_nil g s (onto "isSpecific")
    simp only [derivedPreds, List.mem_cons, List.mem_singleton, List.not_mem_nil, or_false] at hp
    simp only at ht
    rcases hp with (rfl | rfl | rfl | rfl | rfl | rfl)
    · exact ⟨⟨s, some o, x2, x3, x4, x5, x6⟩,
        ⟨ht, mem_optionalObjects_some.2 hmem, h2, h3, h4, h5, h6⟩, by simp⟩
    · exact ⟨⟨s, x1, some o, x3, x4, x5, x6⟩,
        ⟨ht, h1, mem_optionalObjects_some.2 hmem, h3, h4, h5, h6⟩, by simp⟩
    · exact ⟨⟨s, x1, x2, some o, x4, x5, x6⟩,
        ⟨ht, h1, h2, mem_optionalObjects_some.2 hmem, h4, h5, h6⟩, by simp⟩
    · exact ⟨⟨s, x1, x2, x3, some o, x5, x6⟩,
        ⟨ht, h1, h2, h3, mem_optionalObjects_some.2 hmem, h5, h6⟩, by simp⟩
    · exact ⟨⟨s, x1, x2, x3, x4, some o, x6⟩,
        ⟨ht, h1, h2, h3, h4, mem_optionalObjects_some.2 hmem, h6⟩, by simp⟩
    · exact ⟨⟨s, x1, x2, x3, x4, x5, some o⟩,
        ⟨ht, h1, h2, h3, h4, h5, mem_optionalObjects_some.2 hmem⟩, by simp⟩

theorem mem_clearTreatments {g : Graph} {tr : Triple} :
    tr ∈ clearTreatments g ↔
      tr ∈ g ∧ ¬ ((⟨tr.s, rdfType, Treatments⟩ : Triple) ∈ g ∧ tr.p ∈ derivedPreds) := by
  unfold clearTreatments
  rw [mem_deleteAll, mem_clearDeletes]
  constructor
  · rintro ⟨h1, h2⟩
    exact ⟨h1, fun h3 => h2 ⟨h1, h3⟩⟩
  · rintro ⟨h1, h2⟩
    exact ⟨h1, fun h3 => h2 h3.2⟩

theorem clearTreatments_subset {g : Graph} {tr : Triple} (h : tr ∈ clearTreatments g) :
    tr ∈ g := (mem_clearTreatments.1 h).1

theorem clearTreatments_idem (g : Graph) :
    clearTreatments (clearTreatments g) = clearTreatments g := by
  have key : ∀ h : Graph, (∀ tr ∈ h, tr ∉ clearDeletes h) → clearTreatments h = h := by
    intro h hh
    unfold clearTreatments deleteAll
    rw [List.filter_eq_self]
    intro tr htr
    simpa using hh tr htr
  apply key
  intro tr htr hdel
  obtain ⟨_, hty, hp⟩ := mem_clearDeletes.1 hdel
  exact (mem_clearTreatments.1 htr).2 ⟨clearTreatments_subset hty, hp⟩

theorem clearTreatments_noop {g : Graph}
    (h : ∀ tr ∈ g, (⟨tr.s, rdfType, Treatments⟩ : Triple) ∈ g → tr.p ∉ derivedPreds) :
    clearTreatments g = g := by
  unfold clearTreatments deleteAll
  rw [List.filter_eq_self]
  intro tr htr
  simp only [decide_eq_true_eq]
  intro hdel
  obtain ⟨_, hty, hp⟩ := mem_clearDeletes.1 hdel
  exact h tr htr hty hp

theorem mem_insertUser {g : Graph} {inst d l budget control : String} {tr : Triple} :
    tr ∈ insertUser g inst d l budget control ↔
      tr ∈ g ∨ tr = ⟨inst, rdfType, .iri (onto "User_Inputs")⟩ ∨
      tr = ⟨inst, onto "hasDiseasec", .iri d⟩ ∨
      tr = ⟨inst, onto "hasLocationName", .iri l⟩ ∨
      tr = ⟨inst, onto "hasUserBudget", .lit budget .xsdDecimal⟩ ∨
      tr = ⟨inst, onto "hasControlMethodInput", strLit control⟩ := by
  unfold insertUser
  rw [mem_insertAll]
  simp

theorem insertUserInput_ok {g : Graph} {now : Nat} {dn budget ln control id : String}
    (h : (insertUserInput g now dn budget ln control).result = .ok id) :
    id = "UserInput_" ++ toString now ∧
      ∃ d l, (insertUserInput g now dn budget ln control).graph =
        insertUser (clearTreatments g) (onto id) d l budget control := by
  unfold insertUserInput at h ⊢
  cases hd : lookupProperty diseaseMap dn <;> cases hl : lookupProperty locationMap ln <;>
    simp only [hd, hl] at h ⊢ <;> simp at h
  subst h
  exact ⟨rfl, _, _, rfl⟩

theorem Frame.refl (g : Graph) : Frame g g := fun _ _ => Iff.rfl

theorem Frame.trans {g1 g2 g3 : Graph} (h12 : Frame g1 g2) (h23 : Frame g2 g3) :
    Frame g1 g3 := fun tr h => (h23 tr h).trans (h12 tr h)

theorem frame_insertAll {g : Graph} {ts : List Triple}
    (h : ∀ x ∈ ts, x.p ∈ derivedPreds) : Frame g (insertAll g ts) := by
  intro tr htr
  rw [mem_insertAll]
  constructor
  · rintro (h1 | h1)
    · exact h1
    · exact absurd (h tr h1) htr
  · intro h1; exact Or.inl h1

theorem budgetInserts_congr {g1 g2 : Graph} (h : Frame g1 g2) {u : String}
    {f : Term → Term → Option Bool} {p : String} {o : Term} {tr : Triple} :
    tr ∈ budgetInserts g2 u f p o ↔ tr ∈ budgetInserts g1 u f p o := by
  simp only [mem_budgetInserts]
  have e1 : ∀ x, (⟨u, onto "hasUserBudget", x⟩ : Triple) ∈ g2 ↔
      (⟨u, onto "hasUserBudget", x⟩ : Triple) ∈ g1 :=
    fun x => h _ (by simp [derivedPreds, onto_inj])
  have e2 : ∀ t, (⟨t, rdfType, Treatments⟩ : Triple) ∈ g2 ↔
      (⟨t, rdfType, Treatments⟩ : Triple) ∈ g1 :=
    fun t => h _ (by simp [derivedPreds, (onto_ne_rdfType _).symm])
  have e3 : ∀ t x, (⟨t, onto "hasCost", x⟩ : Triple) ∈ g2 ↔
      (⟨t, onto "hasCost", x⟩ : Triple) ∈ g1 :=
    fun t x => h _ (by simp [derivedPreds, onto_inj])
  simp only [e1, e2, e3]

theorem frame_budgetInserts {g : Graph} {u : String} {f : Term → Term → Option Bool}
    {p : String} {o : Term} (hp : p ∈ derivedPreds) :
    Frame g (insertAll g (budgetInserts g u f p o)) :=
  frame_insertAll (fun x hx => by rw [budgetInserts_pred x hx]; exact hp)

theorem mem_affordableInserts {g : Graph} {tr : Triple} :
    tr ∈ affordableInserts g ↔
      ∃ t pr, tr = ⟨t, onto "isAffordable", boolTrue⟩ ∧ (⟨t, rdfType, Treatments⟩ : Triple) ∈ g ∧
        (⟨t, onto "priority", pr⟩ : Triple) ∈ g ∧ priorityFilter pr = some true := by
  unfold affordableInserts
  simp only [List.mem_map, List.mem_filter, List.mem_flatMap, mem_objects, mem_subjects,
    decide_eq_true_eq]
  constructor
  · rintro ⟨t, ht, pr, ⟨hpr, hf⟩, rfl⟩
    exact ⟨t, pr, rfl, ht, hpr, hf⟩
  · rintro ⟨t, pr, rfl, ht, hpr, hf⟩
    exact ⟨t, ht, pr, ⟨hpr, hf⟩, rfl⟩

theorem priorityFilter_iff (pr : Term) :
    priorityFilter pr = some true ↔
      pr = strLit "High" ∨ pr = strLit "Medium" ∨ pr = strLit "Low" := by
  cases pr with
  | iri n => simp [priorityFilter, termEq, strLit, or3]
  | lit lex dt =>
    cases dt with
    | xsdString =>
      by_cases h1 : lex = "High"
      · subst h1; simp [priorityFilter, termEq, strLit, or3]
      · by_cases h2 : lex = "Medium"
        · subst h2; simp [priorityFilter, termEq, strLit, or3]
        · by_cases h3 : lex = "Low"
          · subst h3; simp [priorityFilter, termEq, strLit, or3]
          · simp [priorityFilter, termEq, strLit, or3, h1, h2, h3]
    | xsdDecimal => simp [priorityFilter, termEq, strLit, or3]
    | xsdBoolean => simp [priorityFilter, termEq, strLit, or3]

theorem frame_high (g : Graph) (u : String) : Frame g (high g u) :=
  frame_budgetInserts (by simp [derivedPreds])

theorem frame_medium (g : Graph) (u : String) : Frame g (medium g u) :=
  frame_budgetInserts (by simp [derivedPreds])

theorem frame_low (g : Graph) (u : String) : Frame g (low g u) :=
  frame_budgetInserts (by simp [derivedPreds])

theorem frame_notAffordable (g : Graph) (u : String) : Frame g (notAffordable g u) :=
  frame_budgetInserts (by simp [derivedPreds])

theorem frame_afterTiers (g : Graph) (userId : String) : Frame g (afterTiers g userId) :=
  (((frame_high g _).trans (frame_medium _ _)).trans (frame_low _ _)).trans
    (frame_notAffordable _ _)

theorem mem_afterTiers {g : Graph} {userId : String} {tr : Triple} :
    tr ∈ afterTiers g userId ↔
      tr ∈ g ∨
      tr ∈ budgetInserts g (onto userId) highFilter (onto "priority") (strLit "High") ∨
      tr ∈ budgetInserts g (onto userId) mediumFilter (onto "priority") (strLit "Medium") ∨
      tr ∈ budgetInserts g (onto userId) lowFilter (onto "priority") (strLit "Low") ∨
      tr ∈ budgetInserts g (onto userId) notAffordableFilter (onto "isAffordable")
        (strLit "false") := by
  have f1 : Frame g (high g (onto userId)) := frame_high _ _
  have f2 : Frame g (medium (high g (onto userId)) (onto userId)) :=
    f1.trans (frame_medium _ _)
  have f3 : Frame g (low (medium (high g (onto userId)) (onto userId)) (onto userId)) :=
    f2.trans (frame_low _ _)
  unfold afterTiers
  conv_lhs => unfold notAffordable
  rw [mem_insertAll, budgetInserts_congr f3]
  conv_lhs => unfold low
  rw [mem_insertAll, budgetInserts_congr f2]
  conv_lhs => unfold medium
  rw [mem_insertAll, budgetInserts_congr f1]
  conv_lhs => unfold high
  rw [mem_insertAll]
  tauto

theorem mem_applyBudgetRulesForUser {g : Graph} {userId : String} {tr : Triple} :
    tr ∈ applyBudgetRulesForUser g userId ↔
      tr ∈ afterTiers g userId ∨ tr ∈ affordableInserts (afterTiers g userId) := by
  show tr ∈ affordableFromPriority (afterTiers g userId) ↔ _
  unfold affordableFromPriority
  rw [mem_insertAll]

theorem frame_applyBudgetRulesForUser (g : Graph) (userId : String) :
    Frame g (applyBudgetRulesForUser g userId) := by
  show Frame g (affordableFromPriority (afterTiers g userId))
  refine (frame_afterTiers g userId).trans (frame_insertAll ?_)
  intro x hx
  obtain ⟨t, pr, rfl, _⟩ := mem_affordableInserts.1 hx
  simp [derivedPreds]

theorem highFilter_iff {x y : Term} {b c : ℚ} (hx : asDecimal x = some b)
    (hy : asDecimal y = some c) : highFilter x y = some true ↔ b ≥ c := by
  simp [highFilter, geq, hx, hy]

theorem mediumFilter_iff {x y : Term} {b c : ℚ} (hx : asDecimal x = some b)
    (hy : asDecimal y = some c) : mediumFilter x y = some true ↔ c > b ∧ c ≤ b * 1.2 := by
  by_cases h1 : b < c <;> by_cases h2 : c ≤ b * 1.2 <;>
    simp [mediumFilter, gt, leq, times, and3, hx, hy, h1, h2]

theorem lowFilter_iff {x y : Term} {b c : ℚ} (hx : asDecimal x = some b)
    (hy : asDecimal y = some c) :
    lowFilter x y = some true ↔ c > b * 1.2 ∧ c ≤ b * 1.5 := by
  by_cases h1 : b * 1.2 < c <;> by_cases h2 : c ≤ b * 1.5 <;>
    simp [lowFilter, gt, leq, times, and3, hx, hy, h1, h2]

theorem notAffordableFilter_iff {x y : Term} {b c : ℚ} (hx : asDecimal x = some b)
    (hy : asDecimal y = some c) : notAffordableFilter x y = some true ↔ c > b * 1.5 := by
  simp [notAffordableFilter, gt, times, hx, hy]

theorem filter_casts {f : Term → Term → Option Bool} {x y : Term}
    (hf : f = highFilter ∨ f = mediumFilter ∨ f = lowFilter ∨ f = notAffordableFilter)
    (h : f x y = some true) : ∃ b c, asDecimal x = some b ∧ asDecimal y = some c := by
  cases hx : asDecimal x with
  | none =>
    rcases hf with (rfl | rfl | rfl | rfl) <;>
      simp [highFilter, mediumFilter, lowFilter, notAffordableFilter, geq, gt, leq, times, and3,
        hx] at h
  | some b =>
    cases hy : asDecimal y with
    | none =>
      rcases hf with (rfl | rfl | rfl | rfl) <;>
        simp [highFilter, mediumFilter, lowFilter, notAffordableFilter, geq, gt, leq, times,
          and3, hx, hy] at h
    | some c => exact ⟨b, c, rfl, rfl⟩

theorem mem_budgetInserts_triple {g : Graph} {u : String} {f : Term → Term → Option Bool}
    {p q t : String} {o o2 : Term} :
    (⟨t, q, o2⟩ : Triple) ∈ budgetInserts g u f p o ↔
      q = p ∧ o2 = o ∧ (⟨t, rdfType, Treatments⟩ : Triple) ∈ g ∧
        ∃ budget cost, (⟨u, onto "hasUserBudget", budget⟩ : Triple) ∈ g ∧
          (⟨t, onto "hasCost", cost⟩ : Triple) ∈ g ∧ f budget cost = some true := by
  rw [mem_budgetInserts]
  constructor
  · rintro ⟨budget, t2, cost, heq, hb, ht, hc, hf⟩
    injection heq with h1 h2 h3
    subst h1; subst h2; subst h3
    exact ⟨rfl, rfl, ht, budget, cost, hb, hc, hf⟩
  · rintro ⟨rfl, rfl, ht, budget, cost, hb, hc, hf⟩
    exact ⟨budget, t, cost, rfl, hb, ht, hc, hf⟩

/-- Which priority triples a node has after `applyBudgetRulesForUser`. -/
theorem priority_mem_applyBudgetRules {g : Graph} {userId t : String} {o : Term} :
    (⟨t, onto "priority", o⟩ : Triple) ∈ applyBudgetRulesForUser g userId ↔
      (⟨t, onto "priority", o⟩ : Triple) ∈ g ∨
      ((⟨t, rdfType, Treatments⟩ : Triple) ∈ g ∧
        ∃ budget cost, (⟨onto userId, onto "hasUserBudget", budget⟩ : Triple) ∈ g ∧
          (⟨t, onto "hasCost", cost⟩ : Triple) ∈ g ∧
          ((o = strLit "High" ∧ highFilter budget cost = some true) ∨
           (o = strLit "Medium" ∧ mediumFilter budget cost = some true) ∨
           (o = strLit "Low" ∧ lowFilter budget cost = some true))) := by
  rw [mem_applyBudgetRulesForUser, mem_afterTiers, mem_affordableInserts]
  simp only [mem_budgetInserts_triple]
  constructor
  · rintro (h | h)
    · rcases h with (h | ⟨_, rfl, ht, bu, co, h1, h2, h3⟩ | ⟨_, rfl, ht, bu, co, h1, h2, h3⟩ |
        ⟨_, rfl, ht, bu, co, h1, h2, h3⟩ | ⟨hq, _⟩)
      · exact Or.inl h
      · exact Or.inr ⟨ht, bu, co, h1, h2, Or.inl ⟨rfl, h3⟩⟩
      · exact Or.inr ⟨ht, bu, co, h1, h2, Or.inr (Or.inl ⟨rfl, h3⟩)⟩
      · exact Or.inr ⟨ht, bu, co, h1, h2, Or.inr (Or.inr ⟨rfl, h3⟩)⟩
      · simp [onto_inj] at hq
    · obtain ⟨t2, pr, heq, _⟩ := h
      simp [onto_inj] at heq
  · rintro (h | ⟨ht, bu, co, h1, h2, h3⟩)
    · exact Or.inl (Or.inl h)
    · rcases h3 with (⟨rfl, h3⟩ | ⟨rfl, h3⟩ | ⟨rfl, h3⟩)
      · exact Or.inl (Or.inr (Or.inl ⟨trivial, rfl, ht, bu, co, h1, h2, h3⟩))
      · exact Or.inl (Or.inr (Or.inr (Or.inl ⟨trivial, rfl, ht, bu, co, h1, h2, h3⟩)))
      · exact Or.inl (Or.inr (Or.inr (Or.inr (Or.inl ⟨trivial, rfl, ht, bu, co, h1, h2, h3⟩))))

/-- Which `isAffordable` triples a node has after `applyBudgetRulesForUser`. -/
theorem affordable_mem_applyBudgetRules {g : Graph} {userId t : String} {o : Term} :
    (⟨t, onto "isAffordable", o⟩ : Triple) ∈ applyBudgetRulesForUser g userId ↔
      (⟨t, onto "isAffordable", o⟩ : Triple) ∈ g ∨
      (o = strLit "false" ∧ (⟨t, rdfType, Treatments⟩ : Triple) ∈ g ∧
        ∃ budget cost, (⟨onto userId, onto "hasUserBudget", budget⟩ : Triple) ∈ g ∧
          (⟨t, onto "hasCost", cost⟩ : Triple) ∈ g ∧
          notAffordableFilter budget cost = some true) ∨
      (o = boolTrue ∧ (⟨t, rdfType, Treatments⟩ : Triple) ∈ g ∧
        ∃ pr, (pr = strLit "High" ∨ pr = strLit "Medium" ∨ pr = strLit "Low") ∧
          (⟨t, onto "priority", pr⟩ : Triple) ∈ applyBudgetRulesForUser g userId) := by
  have hty : (⟨t, rdfType, Treatments⟩ : Triple) ∈ afterTiers g userId ↔
      (⟨t, rdfType, Treatments⟩ : Triple) ∈ g :=
    frame_afterTiers g userId _ (by simp [derivedPreds, (onto_ne_rdfType _).symm])
  have hpr : ∀ pr, (⟨t, onto "priority", pr⟩ : Triple) ∈ applyBudgetRulesForUser g userId ↔
      (⟨t, onto "priority", pr⟩ : Triple) ∈ afterTiers g userId := by
    intro pr
    rw [mem_applyBudgetRulesForUser, mem_affordableInserts]
    constructor
    · rintro (h | ⟨t2, pr2, heq, _⟩)
      · exact h
      · simp [onto_inj] at heq
    · intro h; exact Or.inl h
  rw [mem_applyBudgetRulesForUser, mem_affordableInserts]
  simp only [hpr, hty]
  rw [mem_afterTiers]
  simp only [mem_budgetInserts_triple]
  constructor
  · rintro (h | ⟨t2, pr, heq, ht, hp, hf⟩)
    · rcases h with (h | ⟨hq, _⟩ | ⟨hq, _⟩ | ⟨hq, _⟩ | ⟨_, rfl, ht, bu, co, h1, h2, h3⟩)
      · exact Or.inl h
      · simp [onto_inj] at hq
      · simp [onto_inj] at hq
      · simp [onto_inj] at hq
      · exact Or.inr (Or.inl ⟨rfl, ht, bu, co, h1, h2, h3⟩)
    · injection heq with h1 h2 h3
      subst h1; subst h3
      exact Or.inr (Or.inr ⟨rfl, hty.1 ht, pr, (priorityFilter_iff pr).1 hf, hp⟩)
  · rintro (h | ⟨rfl, ht, bu, co, h1, h2, h3⟩ | ⟨rfl, ht, pr, hpr2, hp⟩)
    · exact Or.inl (Or.inl h)
    · exact Or.inl (Or.inr (Or.inr (Or.inr (Or.inr ⟨trivial, rfl, ht, bu, co, h1, h2, h3⟩))))
    · exact Or.inr ⟨t, pr, rfl, hty.2 ht, hp, (priorityFilter_iff pr).2 hpr2⟩

theorem hasBudget_iff {g : Graph} {u : String} {b : ℚ} :
    HasBudget g u b ↔
      (∃ o, (⟨u, onto "hasUserBudget", o⟩ : Triple) ∈ g) ∧
      ∀ o, (⟨u, onto "hasUserBudget", o⟩ : Triple) ∈ g → asDecimal o = some b := by
  unfold HasBudget
  simp only [mem_objects, ne_eq, ← List.length_pos, List.length_pos_iff_exists_mem]

theorem hasCost_iff {g : Graph} {t : String} {c : ℚ} :
    HasCost g t c ↔
      (∃ o, (⟨t, onto "hasCost", o⟩ : Triple) ∈ g) ∧
      ∀ o, (⟨t, onto "hasCost", o⟩ : Triple) ∈ g → asDecimal o = some c := by
  unfold HasCost
  simp only [mem_objects, ne_eq, ← List.length_pos, List.length_pos_iff_exists_mem]

/-- The tier conditions in numbers, for a treatment with one cost value under a session
with one budget value. -/
theorem tiers_numeric {g : Graph} {userId t : String} {b c : ℚ}
    (hb : HasBudget g (onto userId) b) (ht : (⟨t, rdfType, Treatments⟩ : Triple) ∈ g)
    (hc : HasCost g t c) :
    (∀ o, (⟨t, onto "priority", o⟩ : Triple) ∈ applyBudgetRulesForUser g userId ↔
      (⟨t, onto "priority", o⟩ : Triple) ∈ g ∨ (o = strLit "High" ∧ b ≥ c) ∨
      (o = strLit "Medium" ∧ c > b ∧ c ≤ b * 1.2) ∨
      (o = strLit "Low" ∧ c > b * 1.2 ∧ c ≤ b * 1.5)) ∧
    (∀ o, (⟨t, onto "isAffordable", o⟩ : Triple) ∈ applyBudgetRulesForUser g userId ↔
      (⟨t, onto "isAffordable", o⟩ : Triple) ∈ g ∨ (o = strLit "false" ∧ c > b * 1.5) ∨
      (o = boolTrue ∧ ∃ pr, (pr = strLit "High" ∨ pr = strLit "Medium" ∨ pr = strLit "Low") ∧
        (⟨t, onto "priority", pr⟩ : Triple) ∈ applyBudgetRulesForUser g userId)) := by
  obtain ⟨⟨bu0, hbu0⟩, hball⟩ := hasBudget_iff.1 hb
  obtain ⟨⟨co0, hco0⟩, hcall⟩ := hasCost_iff.1 hc
  constructor
  · intro o
    rw [priority_mem_applyBudgetRules]
    constructor
    · rintro (h | ⟨_, bu, co, h1, h2, h3⟩)
      · exact Or.inl h
      · have e1 := hball bu h1
        have e2 := hcall co h2
        rcases h3 with (⟨rfl, h3⟩ | ⟨rfl, h3⟩ | ⟨rfl, h3⟩)
        · exact Or.inr (Or.inl ⟨rfl, (highFilter_iff e1 e2).1 h3⟩)
        · exact Or.inr (Or.inr (Or.inl ⟨rfl, (mediumFilter_iff e1 e2).1 h3⟩))
        · exact Or.inr (Or.inr (Or.inr ⟨rfl, (lowFilter_iff e1 e2).1 h3⟩))
    · have e1 := hball bu0 hbu0
      have e2 := hcall co0 hco0
      rintro (h | ⟨rfl, h⟩ | ⟨rfl, h⟩ | ⟨rfl, h⟩)
      · exact Or.inl h
      · exact Or.inr ⟨ht, bu0, co0, hbu0, hco0, Or.inl ⟨rfl, (highFilter_iff e1 e2).2 h⟩⟩
      · exact Or.inr ⟨ht, bu0, co0, hbu0, hco0,
          Or.inr (Or.inl ⟨rfl, (mediumFilter_iff e1 e2).2 h⟩)⟩
      · exact Or.inr ⟨ht, bu0, co0, hbu0, hco0,
          Or.inr (Or.inr ⟨rfl, (lowFilter_iff e1 e2).2 h⟩)⟩
  · intro o
    rw [affordable_mem_applyBudgetRules]
    constructor
    · rintro (h | ⟨rfl, _, bu, co, h1, h2, h3⟩ | ⟨rfl, _, h⟩)
      · exact Or.inl h
      · exact Or.inr (Or.inl ⟨rfl, (notAffordableFilter_iff (hball bu h1) (hcall co h2)).1 h3⟩)
      · exact Or.inr (Or.inr ⟨rfl, h⟩)
    · rintro (h | ⟨rfl, h⟩ | ⟨rfl, h⟩)
      · exact Or.inl h
      · exact Or.inr (Or.inl ⟨rfl, ht, bu0, co0, hbu0, hco0,
          (notAffordableFilter_iff (hball bu0 hbu0) (hcall co0 hco0)).2 h⟩)
      · exact Or.inr (Or.inr ⟨rfl, ht, h⟩)

/-- C1: on a graph whose Treatments carry no derived attribute, for a session with budget
`b` and a Treatment with cost `c`, `applyBudgetRulesForUser` asserts priority High iff
`b >= c`, Medium iff `c > b` and `c <= 1.2*b`, Low iff `c > 1.2*b` and `c <= 1.5*b`, the
not-affordable flag iff `c > 1.5*b`, and `isAffordable true` iff the Treatment received
one of the three priorities. -/
theorem budget_tier_classifier (g : Graph) (userId t : String) (b c : ℚ)
    (hclean : NoDerivedOnTreatments g) (hb : HasBudget g (onto userId) b)
    (ht : (⟨t, rdfType, Treatments⟩ : Triple) ∈ g) (hc : HasCost g t c) :
    ((⟨t, onto "priority", strLit "High"⟩ : Triple) ∈ applyBudgetRulesForUser g userId ↔
        b ≥ c) ∧
    ((⟨t, onto "priority", strLit "Medium"⟩ : Triple) ∈ applyBudgetRulesForUser g userId ↔
        c > b ∧ c ≤ 1.2 * b) ∧
    ((⟨t, onto "priority", strLit "Low"⟩ : Triple) ∈ applyBudgetRulesForUser g userId ↔
        c > 1.2 * b ∧ c ≤ 1.5 * b) ∧
    ((⟨t, onto "isAffordable", strLit "false"⟩ : Triple) ∈ applyBudgetRulesForUser g userId ↔
        c > 1.5 * b) ∧
    ((⟨t, onto "isAffordable", boolTrue⟩ : Triple) ∈ applyBudgetRulesForUser g userId ↔
        ((⟨t, onto "priority", strLit "High"⟩ : Triple) ∈ applyBudgetRulesForUser g userId ∨
         (⟨t, onto "priority", strLit "Medium"⟩ : Triple) ∈ applyBudgetRulesForUser g userId ∨
         (⟨t, onto "priority", strLit "Low"⟩ : Triple) ∈ applyBudgetRulesForUser g userId)) := by
  obtain ⟨hp, ha⟩ := tiers_numeric hb ht hc
  have np : ∀ o, (⟨t, onto "priority", o⟩ : Triple) ∉ g :=
    fun o h => hclean _ h ht (by simp [derivedPreds])
  have na : ∀ o, (⟨t, onto "isAffordable", o⟩ : Triple) ∉ g :=
    fun o h => hclean _ h ht (by simp [derivedPreds])
  have m12 : (1.2 : ℚ) * b = b * 1.2 := mul_comm _ _
  have m15 : (1.5 : ℚ) * b = b * 1.5 := mul_comm _ _
  rw [m12, m15]
  refine ⟨?_, ?_, ?_, ?_, ?_⟩
  · rw [hp]; simp [np, strLit]
  · rw [hp]; simp [np, strLit]
  · rw [hp]; simp [np, strLit]
  · rw [ha]; simp [na, strLit, boolTrue]
  · rw [ha]
    simp only [na, false_or]
    constructor
    · rintro (⟨h, _⟩ | ⟨_, pr, hpr, hmem⟩)
      · simp [strLit, boolTrue] at h
      · rcases hpr with (rfl | rfl | rfl)
        · exact Or.inl hmem
        · exact Or.inr (Or.inl hmem)
        · exact Or.inr (Or.inr hmem)
    · rintro (h | h | h)
      · exact Or.inr ⟨trivial, _, Or.inl rfl, h⟩
      · exact Or.inr ⟨trivial, _, Or.inr (Or.inl rfl), h⟩
      · exact Or.inr ⟨trivial, _, Or.inr (Or.inr rfl), h⟩

set_option maxRecDepth 100000 in
/-- Witness for C1, the four examples of the specification: budget 100 with cost 100 gives
High, cost 110 gives Medium, cost 140 gives Low, cost 151 gives not affordable. -/
theorem budget_tier_classifier_witness :
    (⟨onto "T1", onto "priority", strLit "High"⟩ : Triple) ∈
        applyBudgetRulesForUser exampleBudgetGraph "U" ∧
    (⟨onto "T2", onto "priority", strLit "Medium"⟩ : Triple) ∈
        applyBudgetRulesForUser exampleBudgetGraph "U" ∧
    (⟨onto "T3", onto "priority", strLit "Low"⟩ : Triple) ∈
        applyBudgetRulesForUser exampleBudgetGraph "U" ∧
    (⟨onto "T4", onto "isAffordable", strLit "false"⟩ : Triple) ∈
        applyBudgetRulesForUser exampleBudgetGraph "U" :=
  ⟨(budget_tier_classifier exampleBudgetGraph "U" (onto "T1") 100 100
      (by decide) (by decide) (by decide) (by decide)).1.2 (by norm_num),
   (budget_tier_classifier exampleBudgetGraph "U" (onto "T2") 100 110
      (by decide) (by decide) (by decide) (by decide)).2.1.2 (by norm_num),
   (budget_tier_classifier exampleBudgetGraph "U" (onto "T3") 100 140
      (by decide) (by decide) (by decide) (by decide)).2.2.1.2 (by norm_num),
   (budget_tier_classifier exampleBudgetGraph "U" (onto "T4") 100 151
      (by decide) (by decide) (by decide) (by decide)).2.2.2.1.2 (by norm_num)⟩

/-! ## The graph a session starts from: Reset, then the session insert -/

theorem typed_mem_session {g : Graph} {inst d l budget control t : String} :
    (⟨t, rdfType, Treatments⟩ : Triple) ∈ insertUser (clearTreatments g) inst d l budget control ↔
      (⟨t, rdfType, Treatments⟩ : Triple) ∈ g := by
  rw [mem_insertUser, mem_clearTreatments]
  simp [derivedPreds, (onto_ne_rdfType _).symm, onto_ne_rdfType, Treatments, onto_inj, strLit]

theorem cost_mem_session {g : Graph} {inst d l budget control t : String} {o : Term} :
    (⟨t, onto "hasCost", o⟩ : Triple) ∈ insertUser (clearTreatments g) inst d l budget control ↔
      (⟨t, onto "hasCost", o⟩ : Triple) ∈ g := by
  rw [mem_insertUser, mem_clearTreatments]
  simp [derivedPreds, (onto_ne_rdfType _).symm, onto_ne_rdfType, onto_inj, strLit]

theorem budget_mem_session {g : Graph} {inst d l budget control : String} {o : Term} :
    (⟨inst, onto "hasUserBudget", o⟩ : Triple) ∈
        insertUser (clearTreatments g) inst d l budget control ↔
      (⟨inst, onto "hasUserBudget", o⟩ : Triple) ∈ g ∨ o = .lit budget .xsdDecimal := by
  rw [mem_insertUser, mem_clearTreatments]
  simp [derivedPreds, (onto_ne_rdfType _).symm, onto_ne_rdfType, onto_inj, strLit]

theorem noDerived_session (g : Graph) (inst d l budget control : String) :
    NoDerivedOnTreatments (insertUser (clearTreatments g) inst d l budget control) := by
  intro tr htr hty hp
  rw [typed_mem_session] at hty
  rw [mem_insertUser, mem_clearTreatments] at htr
  rcases htr with (⟨_, h⟩ | rfl | rfl | rfl | rfl | rfl)
  · exact h ⟨hty, hp⟩
  all_goals simp [derivedPreds, (onto_ne_rdfType _).symm, onto_inj] at hp

theorem hasCost_session {g : Graph} {inst d l budget control t : String} {c : ℚ}
    (h : HasCost g t c) :
    HasCost (insertUser (clearTreatments g) inst d l budget control) t c := by
  rw [hasCost_iff] at h ⊢
  simpa only [cost_mem_session] using h

theorem hasBudget_session {g : Graph} {inst d l budget control : String} {b : ℚ}
    (hfresh : objects g inst (onto "hasUserBudget") = [])
    (hb : asDecimal (.lit budget .xsdDecimal) = some b) :
    HasBudget (insertUser (clearTreatments g) inst d l budget control) inst b := by
  have hno : ∀ o, (⟨inst, onto "hasUserBudget", o⟩ : Triple) ∉ g := by
    intro o ho
    have := mem_objects.2 ho
    rw [hfresh] at this
    exact List.not_mem_nil _ this
  rw [hasBudget_iff]
  simp only [budget_mem_session, hno, false_or]
  exact ⟨⟨_, rfl⟩, fun o ho => ho ▸ hb⟩

theorem tier_filters_exclusive (x y : Term) :
    ¬ (highFilter x y = some true ∧ mediumFilter x y = some true) ∧
    ¬ (highFilter x y = some true ∧ lowFilter x y = some true) ∧
    ¬ (mediumFilter x y = some true ∧ lowFilter x y = some true) := by
  refine ⟨?_, ?_, ?_⟩
  · rintro ⟨h1, h2⟩
    obtain ⟨b, c, hx, hy⟩ := filter_casts (Or.inl rfl) h1
    have a1 := (highFilter_iff hx hy).1 h1
    have a2 := (mediumFilter_iff hx hy).1 h2
    linarith [a2.1]
  · rintro ⟨h1, h2⟩
    obtain ⟨b, c, hx, hy⟩ := filter_casts (Or.inl rfl) h1
    have a1 := (highFilter_iff hx hy).1 h1
    have a2 := (lowFilter_iff hx hy).1 h2
    obtain ⟨a3, a4⟩ := a2
    have a5 : (0 : ℚ) < b := by
      have e1 : b * 1.2 < b * 1.5 := lt_of_lt_of_le a3 a4
      have e2 : b * 1.5 - b * 1.2 = b * 0.3 := by ring
      have e3 : (0 : ℚ) < b * 0.3 := by rw [← e2]; linarith
      have e4 : b * 0.3 = b * (3 / 10) := by norm_num
      rw [e4] at e3
      linarith
    have a6 : b * 1.2 = b + b * (1 / 5) := by norm_num; ring
    rw [a6] at a3
    have a7 : (0 : ℚ) < b * (1 / 5) := by positivity
    linarith
  · rintro ⟨h1, h2⟩
    obtain ⟨b, c, hx, hy⟩ := filter_casts (Or.inr (Or.inl rfl)) h1
    have a1 := (mediumFilter_iff hx hy).1 h1
    have a2 := (lowFilter_iff hx hy).1 h2
    linarith [a1.2, a2.1]

/-- C2: for a session with budget `b >= 0` and a Treatment with a cost, after Reset, the
session insert and the budget rules exactly one holds: the Treatment has a priority among
High, Medium, Low, or it carries the not-affordable flag. -/
theorem exactly_one_tier_or_flag (g : Graph) (now : Nat)
    (diseaseName budget locationName control id t : String) (b c : ℚ)
    (hok : (insertUserInput g now diseaseName budget locationName control).result = .ok id)
    (hfresh : objects g (onto id) (onto "hasUserBudget") = [])
    (hb : asDecimal (.lit budget .xsdDecimal) = some b) (hb0 : 0 ≤ b)
    (ht : (⟨t, rdfType, Treatments⟩ : Triple) ∈ g) (hc : HasCost g t c) :
    (hasTierPriority
        (applyBudgetRulesForUser
          (insertUserInput g now diseaseName budget locationName control).graph id) t ∨
      flaggedNotAffordable
        (applyBudgetRulesForUser
          (insertUserInput g now diseaseName budget locationName control).graph id) t) ∧
    ¬ (hasTierPriority
        (applyBudgetRulesForUser
          (insertUserInput g now diseaseName budget locationName control).graph id) t ∧
      flaggedNotAffordable
        (applyBudgetRulesForUser
          (insertUserInput g now diseaseName budget locationName control).graph id) t) := by
  obtain ⟨_, d, l, hg⟩ := insertUserInput_ok hok
  rw [hg]
  have hclean := noDerived_session g (onto id) d l budget control
  have hty : (⟨t, rdfType, Treatments⟩ : Triple) ∈
      insertUser (clearTreatments g) (onto id) d l budget control := typed_mem_session.2 ht
  have hcS : HasCost (insertUser (clearTreatments g) (onto id) d l budget control) t c :=
    hasCost_session hc
  obtain ⟨hp, ha⟩ := tiers_numeric (hasBudget_session hfresh hb) hty hcS
  have np : ∀ o, (⟨t, onto "priority", o⟩ : Triple) ∉
      insertUser (clearTreatments g) (onto id) d l budget control :=
    fun o h => hclean _ h hty (by simp [derivedPreds])
  have na : ∀ o, (⟨t, onto "isAffordable", o⟩ : Triple) ∉
      insertUser (clearTreatments g) (onto id) d l budget control :=
    fun o h => hclean _ h hty (by simp [derivedPreds])
  have e12 : b * 1.2 = b + b * (1 / 5) := by norm_num; ring
  have e15 : b * 1.5 = b + b * (1 / 2) := by norm_num; ring
  have p5 : (0 : ℚ) ≤ b * (1 / 5) := by positivity
  have p2 : (0 : ℚ) ≤ b * (1 / 2) := by positivity
  have p52 : b * (1 / 5) ≤ b * (1 / 2) := by
    apply mul_le_mul_of_nonneg_left _ hb0
    norm_num
  unfold hasTierPriority flaggedNotAffordable
  simp only [hp, ha, np, na, false_or, strLit, boolTrue, Term.lit.injEq, and_true, true_and,
    String.reduceEq, false_and, or_false, and_false, reduceCtorEq]
  rw [e12, e15]
  constructor
  · by_cases h1 : c ≤ b
    · exact Or.inl (Or.inl h1)
    · by_cases h2 : c ≤ b + b * (1 / 5)
      · exact Or.inl (Or.inr (Or.inl ⟨lt_of_not_le h1, h2⟩))
      · by_cases h3 : c ≤ b + b * (1 / 2)
        · exact Or.inl (Or.inr (Or.inr ⟨lt_of_not_le h2, h3⟩))
        · exact Or.inr (lt_of_not_le h3)
  · rintro ⟨h | h | h, h4⟩
    · linarith
    · linarith [h.2]
    · linarith [h.2]

set_option maxRecDepth 100000 in
/-- Witness for C2: budget 100 at the treatment costing 110 of `exampleTreatments`. -/
theorem exactly_one_tier_or_flag_witness :
    (hasTierPriority
        (applyBudgetRulesForUser
          (insertUserInput exampleTreatments 1 "Rice Blast" "100" "Kandy" "Spray").graph
          "UserInput_1") (onto "T2") ∨
      flaggedNotAffordable
        (applyBudgetRulesForUser
          (insertUserInput exampleTreatments 1 "Rice Blast" "100" "Kandy" "Spray").graph
          "UserInput_1") (onto "T2")) ∧
    ¬ (hasTierPriority
        (applyBudgetRulesForUser
          (insertUserInput exampleTreatments 1 "Rice Blast" "100" "Kandy" "Spray").graph
          "UserInput_1") (onto "T2") ∧
      flaggedNotAffordable
        (applyBudgetRulesForUser
          (insertUserInput exampleTreatments 1 "Rice Blast" "100" "Kandy" "Spray").graph
          "UserInput_1") (onto "T2")) :=
  exactly_one_tier_or_flag exampleTreatments 1 "Rice Blast" "100" "Kandy" "Spray"
    "UserInput_1" (onto "T2") 100 110 (by rfl) (by decide) (by decide) (by norm_num)
    (by decide) (by decide)

/-- The tier conditions in numbers for a whole run: Reset, session insert, budget rules. -/
theorem session_tiers {g : Graph} {now : Nat}
    {diseaseName budget locationName control id t : String} {b c : ℚ}
    (hok : (insertUserInput g now diseaseName budget locationName control).result = .ok id)
    (hfresh : objects g (onto id) (onto "hasUserBudget") = [])
    (hb : asDecimal (.lit budget .xsdDecimal) = some b)
    (ht : (⟨t, rdfType, Treatments⟩ : Triple) ∈ g) (hc : HasCost g t c) :
    (∀ o, (⟨t, onto "priority", o⟩ : Triple) ∈ applyBudgetRulesForUser
        (insertUserInput g now diseaseName budget locationName control).graph id ↔
      (o = strLit "High" ∧ b ≥ c) ∨ (o = strLit "Medium" ∧ c > b ∧ c ≤ b * 1.2) ∨
      (o = strLit "Low" ∧ c > b * 1.2 ∧ c ≤ b * 1.5)) ∧
    ((⟨t, onto "isAffordable", strLit "false"⟩ : Triple) ∈ applyBudgetRulesForUser
        (insertUserInput g now diseaseName budget locationName control).graph id ↔
      c > b * 1.5) := by
  obtain ⟨_, d, l, hg⟩ := insertUserInput_ok hok
  rw [hg]
  have hclean := noDerived_session g (onto id) d l budget control
  have hty : (⟨t, rdfType, Treatments⟩ : Triple) ∈
      insertUser (clearTreatments g) (onto id) d l budget control := typed_mem_session.2 ht
  have hcS : HasCost (insertUser (clearTreatments g) (onto id) d l budget control) t c :=
    hasCost_session hc
  obtain ⟨hp, ha⟩ := tiers_numeric (hasBudget_session hfresh hb) hty hcS
  have np : ∀ o, (⟨t, onto "priority", o⟩ : Triple) ∉
      insertUser (clearTreatments g) (onto id) d l budget control :=
    fun o h => hclean _ h hty (by simp [derivedPreds])
  have na : ∀ o, (⟨t, onto "isAffordable", o⟩ : Triple) ∉
      insertUser (clearTreatments g) (onto id) d l budget control :=
    fun o h => hclean _ h hty (by simp [derivedPreds])
  constructor
  · intro o
    rw [hp]
    simp only [np, false_or]
  · rw [ha]
    simp [na, strLit, boolTrue]

/-- C3: within one run (Reset, session insert, budget rules), for every budget text and every
Treatment with a single cost, the Treatment ends with at most one priority value; the
filters of High, Medium and Low are pairwise mutually exclusive. -/
theorem at_most_one_priority (g : Graph) (now : Nat)
    (diseaseName budget locationName control id t : String)
    (hok : (insertUserInput g now diseaseName budget locationName control).result = .ok id)
    (hfresh : objects g (onto id) (onto "hasUserBudget") = [])
    (ht : (⟨t, rdfType, Treatments⟩ : Triple) ∈ g)
    (hcost : ∀ o1 ∈ objects g t (onto "hasCost"), ∀ o2 ∈ objects g t (onto "hasCost"), o1 = o2) :
    (∀ o1 o2,
      (⟨t, onto "priority", o1⟩ : Triple) ∈ applyBudgetRulesForUser
        (insertUserInput g now diseaseName budget locationName control).graph id →
      (⟨t, onto "priority", o2⟩ : Triple) ∈ applyBudgetRulesForUser
        (insertUserInput g now diseaseName budget locationName control).graph id →
      o1 = o2) ∧
    (∀ x y : Term,
      ¬ (highFilter x y = some true ∧ mediumFilter x y = some true) ∧
      ¬ (highFilter x y = some true ∧ lowFilter x y = some true) ∧
      ¬ (mediumFilter x y = some true ∧ lowFilter x y = some true)) := by
  refine ⟨?_, tier_filters_exclusive⟩
  obtain ⟨_, d, l, hg⟩ := insertUserInput_ok hok
  rw [hg]
  have hclean := noDerived_session g (onto id) d l budget control
  have hty : (⟨t, rdfType, Treatments⟩ : Triple) ∈
      insertUser (clearTreatments g) (onto id) d l budget control := typed_mem_session.2 ht
  have np : ∀ o, (⟨t, onto "priority", o⟩ : Triple) ∉
      insertUser (clearTreatments g) (onto id) d l budget control :=
    fun o h => hclean _ h hty (by simp [derivedPreds])
  have hno : ∀ o, (⟨onto id, onto "hasUserBudget", o⟩ : Triple) ∉ g := by
    intro o ho
    have := mem_objects.2 ho
    rw [hfresh] at this
    exact List.not_mem_nil _ this
  intro o1 o2 h1 h2
  rw [priority_mem_applyBudgetRules] at h1 h2
  simp only [np, false_or, budget_mem_session, cost_mem_session, hno] at h1 h2
  obtain ⟨_, bu1, co1, rfl, hc1, hf1⟩ := h1
  obtain ⟨_, bu2, co2, rfl, hc2, hf2⟩ := h2
  have hco : co1 = co2 := hcost _ (mem_objects.2 hc1) _ (mem_objects.2 hc2)
  subst hco
  obtain ⟨e1, e2, e3⟩ := tier_filters_exclusive (.lit budget .xsdDecimal) co1
  rcases hf1 with (⟨rfl, f1⟩ | ⟨rfl, f1⟩ | ⟨rfl, f1⟩) <;>
    rcases hf2 with (⟨rfl, f2⟩ | ⟨rfl, f2⟩ | ⟨rfl, f2⟩)
  · rfl
  · exact absurd ⟨f1, f2⟩ e1
  · exact absurd ⟨f1, f2⟩ e2
  · exact absurd ⟨f2, f1⟩ e1
  · rfl
  · exact absurd ⟨f1, f2⟩ e3
  · exact absurd ⟨f2, f1⟩ e2
  · exact absurd ⟨f2, f1⟩ e3
  · rfl

set_option maxRecDepth 100000 in
/-- Witness for C3: a negative budget text at the treatment costing 110. -/
theorem at_most_one_priority_witness :
    (∀ o1 o2,
      (⟨onto "T2", onto "priority", o1⟩ : Triple) ∈ applyBudgetRulesForUser
        (insertUserInput exampleTreatments 1 "Rice Blast" "-100" "Kandy" "Spray").graph
        "UserInput_1" →
      (⟨onto "T2", onto "priority", o2⟩ : Triple) ∈ applyBudgetRulesForUser
        (insertUserInput exampleTreatments 1 "Rice Blast" "-100" "Kandy" "Spray").graph
        "UserInput_1" →
      o1 = o2) ∧
    (∀ x y : Term,
      ¬ (highFilter x y = some true ∧ mediumFilter x y = some true) ∧
      ¬ (highFilter x y = some true ∧ lowFilter x y = some true) ∧
      ¬ (mediumFilter x y = some true ∧ lowFilter x y = some true)) :=
  at_most_one_priority exampleTreatments 1 "Rice Blast" "-100" "Kandy" "Spray"
    "UserInput_1" (onto "T2") (by rfl) (by decide) (by decide) (by decide)

set_option maxRecDepth 100000 in
/-- Counterexample to C4 as stated: with budget 0 the cost 0 equals both `0 * 1.2` and
`0 * 1.5`, and the treatment is classified High, neither Medium nor Low; with budget -100
the cost -120 equals `-100 * 1.2`, and the treatment is classified High, not Medium. -/
theorem boundary_fails_at_zero_budget :
    (asDecimal (.lit "0" .xsdDecimal) = some 0 ∧ HasCost zeroCostGraph (onto "T0") 0 ∧
      (0 : ℚ) = 0 * 1.2 ∧ (0 : ℚ) = 0 * 1.5 ∧
      (⟨onto "T0", onto "priority", strLit "Medium"⟩ : Triple) ∉ applyBudgetRulesForUser
        (insertUserInput zeroCostGraph 1 "Rice Blast" "0" "Kandy" "").graph "UserInput_1" ∧
      (⟨onto "T0", onto "priority", strLit "Low"⟩ : Triple) ∉ applyBudgetRulesForUser
        (insertUserInput zeroCostGraph 1 "Rice Blast" "0" "Kandy" "").graph "UserInput_1" ∧
      (⟨onto "T0", onto "priority", strLit "High"⟩ : Triple) ∈ applyBudgetRulesForUser
        (insertUserInput zeroCostGraph 1 "Rice Blast" "0" "Kandy" "").graph "UserInput_1") ∧
    (asDecimal (.lit "-100" .xsdDecimal) = some (-100) ∧
      HasCost negativeCostGraph (onto "T7") (-120) ∧ (-120 : ℚ) = -100 * 1.2 ∧
      (⟨onto "T7", onto "priority", strLit "Medium"⟩ : Triple) ∉ applyBudgetRulesForUser
        (insertUserInput negativeCostGraph 1 "Rice Blast" "-100" "Kandy" "").graph
        "UserInput_1" ∧
      (⟨onto "T7", onto "priority", strLit "High"⟩ : Triple) ∈ applyBudgetRulesForUser
        (insertUserInput negativeCostGraph 1 "Rice Blast" "-100" "Kandy" "").graph
        "UserInput_1") := by
  have hb : asDecimal (.lit "0" .xsdDecimal) = some 0 := by decide
  have hc : HasCost zeroCostGraph (onto "T0") 0 := by decide
  have key := (@session_tiers zeroCostGraph 1 "Rice Blast" "0" "Kandy" "" "UserInput_1"
    (onto "T0") 0 0 (by rfl) (by decide) hb (by decide) hc).1
  have hb2 : asDecimal (.lit "-100" .xsdDecimal) = some (-100) := by decide
  have hc2 : HasCost negativeCostGraph (onto "T7") (-120) := by decide
  have key2 := (@session_tiers negativeCostGraph 1 "Rice Blast" "-100" "Kandy" ""
    "UserInput_1" (onto "T7") (-100) (-120) (by rfl) (by decide) hb2 (by decide) hc2).1
  refine ⟨⟨hb, hc, by norm_num, by norm_num, ?_, ?_, ?_⟩, ⟨hb2, hc2, by norm_num, ?_, ?_⟩⟩
  · rw [key]; simp [strLit]
  · rw [key]; simp [strLit]
  · rw [key]; simp [strLit]
  · rw [key2]; simp [strLit]; norm_num
  · rw [key2]; simp [strLit]; norm_num

/-- C4 (amended): for a session with budget `b > 0`, a Treatment whose cost equals `b * 1.2`
exactly is classified Medium and not Low, and one whose cost equals `b * 1.5` exactly is
classified Low and is not flagged not-affordable. -/
theorem boundary_tiers_positive_budget (g : Graph) (now : Nat)
    (diseaseName budget locationName control id t : String) (b c : ℚ)
    (hok : (insertUserInput g now diseaseName budget locationName control).result = .ok id)
    (hfresh : objects g (onto id) (onto "hasUserBudget") = [])
    (hb : asDecimal (.lit budget .xsdDecimal) = some b) (hpos : 0 < b)
    (ht : (⟨t, rdfType, Treatments⟩ : Triple) ∈ g) (hc : HasCost g t c) :
    (c = b * 1.2 →
      (⟨t, onto "priority", strLit "Medium"⟩ : Triple) ∈ applyBudgetRulesForUser
        (insertUserInput g now diseaseName budget locationName control).graph id ∧
      (⟨t, onto "priority", strLit "Low"⟩ : Triple) ∉ applyBudgetRulesForUser
        (insertUserInput g now diseaseName budget locationName control).graph id) ∧
    (c = b * 1.5 →
      (⟨t, onto "priority", strLit "Low"⟩ : Triple) ∈ applyBudgetRulesForUser
        (insertUserInput g now diseaseName budget locationName control).graph id ∧
      ¬ flaggedNotAffordable (applyBudgetRulesForUser
        (insertUserInput g now diseaseName budget locationName control).graph id) t) := by
  obtain ⟨hp, ha⟩ := session_tiers hok hfresh hb ht hc
  have e12 : b * 1.2 = b + b * (1 / 5) := by norm_num; ring
  have e15 : b * 1.5 = b + b * (1 / 2) := by norm_num; ring
  have p5 : (0 : ℚ) < b * (1 / 5) := by positivity
  have p2 : (0 : ℚ) < b * (1 / 2) := by positivity
  have p52 : b * (1 / 5) < b * (1 / 2) := by
    apply mul_lt_mul_of_pos_left _ hpos
    norm_num
  unfold flaggedNotAffordable
  rw [ha]
  simp only [hp, strLit, Term.lit.injEq, and_true, String.reduceEq, false_and, or_false,
    false_or, true_and]
  rw [e12, e15]
  constructor
  · intro h
    subst h
    exact ⟨⟨by linarith, le_refl _⟩, fun h2 => by linarith [h2.1]⟩
  · intro h
    subst h
    exact ⟨⟨by linarith, le_refl _⟩, fun h2 => by linarith⟩

set_option maxRecDepth 100000 in
/-- Witness for C4 (amended): budget 100 with the treatments costing 120 and 150. -/
theorem boundary_tiers_positive_budget_witness :
    ((⟨onto "T5", onto "priority", strLit "Medium"⟩ : Triple) ∈ applyBudgetRulesForUser
        (insertUserInput boundaryGraph 1 "Rice Blast" "100" "Kandy" "").graph "UserInput_1" ∧
      (⟨onto "T5", onto "priority", strLit "Low"⟩ : Triple) ∉ applyBudgetRulesForUser
        (insertUserInput boundaryGraph 1 "Rice Blast" "100" "Kandy" "").graph "UserInput_1") ∧
    ((⟨onto "T6", onto "priority", strLit "Low"⟩ : Triple) ∈ applyBudgetRulesForUser
        (insertUserInput boundaryGraph 1 "Rice Blast" "100" "Kandy" "").graph "UserInput_1" ∧
      ¬ flaggedNotAffordable (applyBudgetRulesForUser
        (insertUserInput boundaryGraph 1 "Rice Blast" "100" "Kandy" "").graph "UserInput_1")
        (onto "T6")) :=
  ⟨(boundary_tiers_positive_budget boundaryGraph 1 "Rice Blast" "100" "Kandy" "" "UserInput_1"
      (onto "T5") 100 120 (by rfl) (by decide) (by decide) (by norm_num) (by decide)
      (by decide)).1 (by norm_num),
   (boundary_tiers_positive_budget boundaryGraph 1 "Rice Blast" "100" "Kandy" "" "UserInput_1"
      (onto "T6") 100 150 (by rfl) (by decide) (by decide) (by norm_num) (by decide)
      (by decide)).2 (by norm_num)⟩

set_option maxRecDepth 1000000 in
/-- C5, the code at the failing input: the first session (Rice Blast at Kandy) writes
`hasPrimarySource "Airborne Spores"` on the disease; the Reset of the second submission
(Rice Blast at Jaffna, where no rule fires) leaves it in place, it is still there after the
second run, and the second session alone would not have derived it.  Likewise an
`isSpecific` value on a symptom node survives `clearTreatments`, while the priority of a
typed treatment is removed. -/
theorem reset_keeps_disease_and_symptom_facts :
    (⟨onto "Rice_Blast", onto "hasPrimarySource", strLit "Airborne Spores"⟩ : Triple) ∈
      afterFirstSession ∧
    (⟨onto "Rice_Blast", onto "hasPrimarySource", strLit "Airborne Spores"⟩ : Triple) ∈
      clearTreatments afterFirstSession ∧
    (⟨onto "Rice_Blast", onto "hasPrimarySource", strLit "Airborne Spores"⟩ : Triple) ∈
      runAllRulesForUser
        (insertUserInput afterFirstSession 2 "Rice Blast" "100" "Jaffna" "Spray").graph
        "UserInput_2" ∧
    (⟨onto "Rice_Blast", onto "hasPrimarySource", strLit "Airborne Spores"⟩ : Triple) ∉
      runAllRulesForUser
        (insertUserInput twoLocations 2 "Rice Blast" "100" "Jaffna" "Spray").graph
        "UserInput_2" ∧
    (⟨onto "Symptom1", onto "isSpecific", strLit "true"⟩ : Triple) ∈
      clearTreatments staleSymptom ∧
    (⟨onto "T1", onto "priority", strLit "High"⟩ : Triple) ∉ clearTreatments staleSymptom := by
  decide

/-- C6: Reset is idempotent: `clearTreatments` applied twice gives the same graph as applied
once, and on a graph in which no Treatment bears a derived attribute it changes nothing. -/
theorem reset_idempotent (g : Graph) :
    clearTreatments (clearTreatments g) = clearTreatments g ∧
    (NoDerivedOnTreatments g → clearTreatments g = g) :=
  ⟨clearTreatments_idem g, fun h => clearTreatments_noop h⟩

set_option maxRecDepth 1000000 in
/-- Witness for C6: twice equals once on a graph with a stale priority, and Reset is a
no-op on the four clean treatments. -/
theorem reset_idempotent_witness :
    clearTreatments (clearTreatments staleSymptom) = clearTreatments staleSymptom ∧
    NoDerivedOnTreatments exampleTreatments ∧
    clearTreatments exampleTreatments = exampleTreatments :=
  ⟨(reset_idempotent staleSymptom).1, by decide,
   (reset_idempotent exampleTreatments).2 (by decide)⟩

/-! ## Control method and suitability -/

theorem mem_ite_nil {c : Prop} [Decidable c] {l : List Triple} {x : Triple} :
    x ∈ (if c then l else []) ↔ c ∧ x ∈ l := by
  split <;> simp [*]

theorem pred_flatMap {α : Type} {l : List α} {f : α → List Triple} {q : String}
    (h : ∀ a ∈ l, ∀ x ∈ f a, x.p = q) : ∀ x ∈ l.flatMap f, x.p = q := by
  intro x hx
  obtain ⟨a, ha, hxa⟩ := List.mem_flatMap.1 hx
  exact h a ha x hxa

theorem pred_ite {c : Prop} [Decidable c] {l : List Triple} {q : String}
    (h : ∀ x ∈ l, x.p = q) : ∀ x ∈ (if c then l else []), x.p = q := by
  intro x hx
  exact h x (mem_ite_nil.1 hx).2

theorem pred_tripleAt (t : Term) (p : String) (o : Term) : ∀ x ∈ tripleAt t p o, x.p = p := by
  intro x hx
  obtain ⟨n, _, rfl⟩ := mem_tripleAt.1 hx
  rfl

theorem lcaseEq_iff {x y : Term} : lcaseEq x y = true ↔ lcase (str x) = lcase (str y) := by
  simp [lcaseEq]

theorem lcaseIs_iff {x : Term} {label : String} :
    lcaseIs x label = true ↔ lcase (str x) = label := by
  simp [lcaseIs]

theorem mem_controlSuitableInserts {g : Graph} {u : String} {tr : Triple} :
    tr ∈ controlSuitableInserts g u ↔
      ∃ input disease cm method t,
        (⟨u, onto "hasControlMethodInput", input⟩ : Triple) ∈ g ∧
        (⟨u, onto "hasDiseasec", .iri disease⟩ : Triple) ∈ g ∧
        (⟨disease, onto "hasControlMethods", .iri cm⟩ : Triple) ∈ g ∧
        (⟨cm, onto "hasMethod", method⟩ : Triple) ∈ g ∧
        (⟨cm, onto "hasTreatments", .iri t⟩ : Triple) ∈ g ∧
        lcase (str input) = lcase (str method) ∧
        tr = ⟨t, onto "isControlMethodSuitable", boolTrue⟩ := by
  unfold controlSuitableInserts
  simp only [List.mem_flatMap, mem_objects, mem_objectsOf, mem_ite_nil, mem_tripleAt,
    lcaseEq_iff]
  constructor
  · rintro ⟨input, hi, dis, hd, cm, ⟨d, rfl, hcm⟩, method, ⟨c, rfl, hm⟩, t, ⟨c2, hc2, ht⟩,
      heq, n, rfl, rfl⟩
    injection hc2 with hc2
    subst hc2
    exact ⟨input, d, c, method, n, hi, hd, hcm, hm, ht, heq, rfl⟩
  · rintro ⟨input, d, c, method, n, hi, hd, hcm, hm, ht, heq, rfl⟩
    exact ⟨input, hi, .iri d, hd, .iri c, ⟨d, rfl, hcm⟩, method, ⟨c, rfl, hm⟩, .iri n,
      ⟨c, rfl, ht⟩, heq, n, rfl, rfl⟩

theorem controlSuitableInserts_pred {g : Graph} {u : String} :
    ∀ x ∈ controlSuitableInserts g u, x.p = onto "isControlMethodSuitable" := by
  unfold controlSuitableInserts
  iterate 5 refine pred_flatMap fun _ _ => ?_
  exact pred_ite (pred_tripleAt _ _ _)

theorem mem_isSuitableInserts {g : Graph} {tr : Triple} :
    tr ∈ isSuitableInserts g ↔
      ∃ t, (⟨t, rdfType, Treatments⟩ : Triple) ∈ g ∧
        (⟨t, onto "isAffordable", boolTrue⟩ : Triple) ∈ g ∧
        (⟨t, onto "isControlMethodSuitable", boolTrue⟩ : Triple) ∈ g ∧
        tr = ⟨t, onto "isSuitable", boolTrue⟩ := by
  unfold isSuitableInserts
  simp only [List.mem_map, List.mem_filter, mem_subjects, decide_eq_true_eq]
  constructor
  · rintro ⟨t, ⟨ht, ha, hc⟩, rfl⟩
    exact ⟨t, ht, ha, hc, rfl⟩
  · rintro ⟨t, ht, ha, hc, rfl⟩
    exact ⟨t, ⟨ht, ha, hc⟩, rfl⟩

theorem isSuitableInserts_pred {g : Graph} :
    ∀ x ∈ isSuitableInserts g, x.p = onto "isSuitable" := by
  intro x hx
  obtain ⟨_, _, _, _, rfl⟩ := mem_isSuitableInserts.1 hx
  rfl

set_option maxRecDepth 1000000 in
/-- C7: the update `controlSuitable` marks a node `isControlMethodSuitable true` iff the node
is reachable by `hasTreatments` from a control method of the session's disease whose method
label, lower-cased, equals the session's control-method input, lower-cased; it writes
nothing else; and the input "Spray" matches the labels "spray" and "SPRAY" of the
session's disease only. -/
theorem control_method_matching :
    (∀ (g : Graph) (userId t : String),
      (⟨t, onto "isControlMethodSuitable", boolTrue⟩ : Triple) ∈
          controlSuitableInserts g (onto userId) ↔
        ∃ input disease cm method,
          (⟨onto userId, onto "hasControlMethodInput", input⟩ : Triple) ∈ g ∧
          (⟨onto userId, onto "hasDiseasec", .iri disease⟩ : Triple) ∈ g ∧
          (⟨disease, onto "hasControlMethods", .iri cm⟩ : Triple) ∈ g ∧
          (⟨cm, onto "hasMethod", method⟩ : Triple) ∈ g ∧
          (⟨cm, onto "hasTreatments", .iri t⟩ : Triple) ∈ g ∧
          lcase (str input) = lcase (str method)) ∧
    (∀ (g : Graph) (userId : String) (tr : Triple),
      tr ∈ controlSuitable g (onto userId) ↔
        tr ∈ g ∨ ∃ t, tr = ⟨t, onto "isControlMethodSuitable", boolTrue⟩ ∧
          tr ∈ controlSuitableInserts g (onto userId)) ∧
    controlSuitableInserts exampleControlGraph (onto "U") =
      [⟨onto "T1", onto "isControlMethodSuitable", boolTrue⟩,
       ⟨onto "T2", onto "isControlMethodSuitable", boolTrue⟩] := by
  refine ⟨?_, ?_, by decide⟩
  · intro g userId t
    rw [mem_controlSuitableInserts]
    constructor
    · rintro ⟨input, d, c, method, n, hi, hd, hcm, hm, ht, heq, htr⟩
      injection htr with h1 _ _
      subst h1
      exact ⟨input, d, c, method, hi, hd, hcm, hm, ht, heq⟩
    · rintro ⟨input, d, c, method, hi, hd, hcm, hm, ht, heq⟩
      exact ⟨input, d, c, method, t, hi, hd, hcm, hm, ht, heq, rfl⟩
  · intro g userId tr
    unfold controlSuitable
    rw [mem_insertAll]
    constructor
    · rintro (h | h)
      · exact Or.inl h
      · obtain ⟨i, d, c, m, t, hi, hd, hc, hm, ht, he, rfl⟩ := mem_controlSuitableInserts.1 h
        exact Or.inr ⟨t, rfl, h⟩
    · rintro (h | ⟨_, _, h⟩)
      · exact Or.inl h
      · exact Or.inr h

/-! ## Which predicates each stage writes -/

theorem r5Inserts_pred {g : Graph} {u : String} :
    ∀ x ∈ r5Inserts g u, x.p = onto "hasPrimarySource" := by
  unfold r5Inserts
  iterate 2 refine pred_flatMap fun _ _ => ?_
  refine pred_ite (pred_flatMap fun _ _ => ?_)
  exact pred_tripleAt _ _ _

theorem r6Inserts_pred {g : Graph} {u : String} :
    ∀ x ∈ r6Inserts g u, x.p = onto "hasPrimarySource" := by
  unfold r6Inserts
  iterate 5 refine pred_flatMap fun _ _ => ?_
  exact pred_ite (pred_tripleAt _ _ _)

theorem r7Inserts_pred {g : Graph} {u : String} :
    ∀ x ∈ r7Inserts g u, x.p = onto "hasPrimarySource" := by
  unfold r7Inserts
  iterate 4 refine pred_flatMap fun _ _ => ?_
  exact pred_ite (pred_tripleAt _ _ _)

theorem r8Inserts_pred {g : Graph} {u : String} :
    ∀ x ∈ r8Inserts g u, x.p = onto "hasPrimarySource" := by
  unfold r8Inserts
  iterate 5 refine pred_flatMap fun _ _ => ?_
  exact pred_ite (pred_tripleAt _ _ _)

theorem r15Inserts_pred {g : Graph} {u : String} :
    ∀ x ∈ r15Inserts g u, x.p = onto "hasPrimarySource" := by
  unfold r15Inserts
  iterate 5 refine pred_flatMap fun _ _ => ?_
  exact pred_ite (pred_tripleAt _ _ _)

theorem rule11Inserts_pred {g : Graph} {u : String} :
    ∀ x ∈ rule11Inserts g u, x.p = onto "isSpecific" := by
  unfold rule11Inserts
  iterate 14 refine pred_flatMap fun _ _ => ?_
  exact pred_ite (pred_tripleAt _ _ _)

theorem mem_applyPrimarySourceRules_of_pred {g : Graph} {userId : String} {tr : Triple}
    (h : tr.p ≠ onto "hasPrimarySource") : tr ∈ applyPrimarySourceRules g userId ↔ tr ∈ g := by
  unfold applyPrimarySourceRules r15 r8 r7 r6 r5
  simp only
  rw [mem_insertAll_of_pred r15Inserts_pred h, mem_insertAll_of_pred r8Inserts_pred h,
    mem_insertAll_of_pred r7Inserts_pred h, mem_insertAll_of_pred r6Inserts_pred h,
    mem_insertAll_of_pred r5Inserts_pred h]

theorem mem_applySymptomSpecificRule_of_pred {g : Graph} {userId : String} {tr : Triple}
    (h : tr.p ≠ onto "isSpecific") : tr ∈ applySymptomSpecificRule g userId ↔ tr ∈ g := by
  unfold applySymptomSpecificRule rule11
  rw [mem_insertAll_of_pred rule11Inserts_pred h]

theorem mem_controlSuitable_of_pred {g : Graph} {u : String} {tr : Triple}
    (h : tr.p ≠ onto "isControlMethodSuitable") : tr ∈ controlSuitable g u ↔ tr ∈ g := by
  unfold controlSuitable
  rw [mem_insertAll_of_pred controlSuitableInserts_pred h]

theorem mem_isSuitable_of_pred {g : Graph} {tr : Triple}
    (h : tr.p ≠ onto "isSuitable") : tr ∈ isSuitable g ↔ tr ∈ g := by
  unfold isSuitable
  rw [mem_insertAll_of_pred isSuitableInserts_pred h]

theorem mem_applyBudgetRulesForUser_of_pred {g : Graph} {userId : String} {tr : Triple}
    (h1 : tr.p ≠ onto "priority") (h2 : tr.p ≠ onto "isAffordable") :
    tr ∈ applyBudgetRulesForUser g userId ↔ tr ∈ g := by
  rw [mem_applyBudgetRulesForUser, mem_afterTiers]
  constructor
  · rintro ((h | h | h | h | h) | h)
    · exact h
    · exact absurd (budgetInserts_pred _ h) h1
    · exact absurd (budgetInserts_pred _ h) h1
    · exact absurd (budgetInserts_pred _ h) h1
    · exact absurd (budgetInserts_pred _ h) h2
    · obtain ⟨_, _, rfl, _⟩ := mem_affordableInserts.1 h
      exact absurd rfl h2
  · intro h; exact Or.inl (Or.inl h)

/-- C8: after a full run (Reset and session insert, then all rules), the nodes typed
`:Treatments` are those of the graph before the run, and for every one of them, whatever
its disease, `isSuitable true` holds iff both `isAffordable true` and
`isControlMethodSuitable true` hold. -/
theorem overall_suitability (g : Graph) (now : Nat)
    (diseaseName budget locationName control id : String)
    (hok : (insertUserInput g now diseaseName budget locationName control).result = .ok id)
    (t : String) :
    ((⟨t, rdfType, Treatments⟩ : Triple) ∈ runAllRulesForUser
        (insertUserInput g now diseaseName budget locationName control).graph id ↔
      (⟨t, rdfType, Treatments⟩ : Triple) ∈ g) ∧
    ((⟨t, rdfType, Treatments⟩ : Triple) ∈ g →
      ((⟨t, onto "isSuitable", boolTrue⟩ : Triple) ∈ runAllRulesForUser
          (insertUserInput g now diseaseName budget locationName control).graph id ↔
        (⟨t, onto "isAffordable", boolTrue⟩ : Triple) ∈ runAllRulesForUser
          (insertUserInput g now diseaseName budget locationName control).graph id ∧
        (⟨t, onto "isControlMethodSuitable", boolTrue⟩ : Triple) ∈ runAllRulesForUser
          (insertUserInput g now diseaseName budget locationName control).graph id)) := by
  obtain ⟨_, d, l, hg⟩ := insertUserInput_ok hok
  rw [hg]
  generalize hS : insertUser (clearTreatments g) (onto id) d l budget control = gS
  have hclean : NoDerivedOnTreatments gS := hS ▸ noDerived_session g (onto id) d l budget control
  have htyS : (⟨t, rdfType, Treatments⟩ : Triple) ∈ gS ↔ (⟨t, rdfType, Treatments⟩ : Triple) ∈ g :=
    hS ▸ typed_mem_session
  have hfin : ∀ tr : Triple, tr.p ≠ onto "hasPrimarySource" → tr.p ≠ onto "isSpecific" →
      (tr ∈ runAllRulesForUser gS id ↔
        tr ∈ isSuitable (controlSuitable (applyBudgetRulesForUser gS id) (onto id))) := by
    intro tr h1 h2
    unfold runAllRulesForUser applyControlMethodAndSuitabilityRules
    rw [mem_applySymptomSpecificRule_of_pred h2, mem_applyPrimarySourceRules_of_pred h1]
  have hty3 : (⟨t, rdfType, Treatments⟩ : Triple) ∈
      controlSuitable (applyBudgetRulesForUser gS id) (onto id) ↔
      (⟨t, rdfType, Treatments⟩ : Triple) ∈ gS := by
    rw [mem_controlSuitable_of_pred (by simp [(onto_ne_rdfType _).symm]),
      mem_applyBudgetRulesForUser_of_pred (by simp [(onto_ne_rdfType _).symm])
        (by simp [(onto_ne_rdfType _).symm])]
  have hty : (⟨t, rdfType, Treatments⟩ : Triple) ∈ runAllRulesForUser gS id ↔
      (⟨t, rdfType, Treatments⟩ : Triple) ∈ g := by
    rw [hfin _ (by simp [(onto_ne_rdfType _).symm]) (by simp [(onto_ne_rdfType _).symm]),
      mem_isSuitable_of_pred (by simp [(onto_ne_rdfType _).symm]), hty3, htyS]
  refine ⟨hty, fun ht => ?_⟩
  have hsuit3 : (⟨t, onto "isSuitable", boolTrue⟩ : Triple) ∉
      controlSuitable (applyBudgetRulesForUser gS id) (onto id) := by
    rw [mem_controlSuitable_of_pred (by simp [onto_inj]),
      mem_applyBudgetRulesForUser_of_pred (by simp [onto_inj]) (by simp [onto_inj])]
    exact fun h => hclean _ h (htyS.2 ht) (by simp [derivedPreds])
  rw [hfin _ (by simp [onto_inj]) (by simp [onto_inj]),
    hfin _ (by simp [onto_inj]) (by simp [onto_inj]),
    hfin _ (by simp [onto_inj]) (by simp [onto_inj]),
    @mem_isSuitable_of_pred _ ⟨t, onto "isAffordable", boolTrue⟩ (by simp [onto_inj]),
    @mem_isSuitable_of_pred _ ⟨t, onto "isControlMethodSuitable", boolTrue⟩
      (by simp [onto_inj])]
  unfold isSuitable
  rw [mem_insertAll, mem_isSuitableInserts]
  constructor
  · rintro (h | ⟨t2, _, ha, hc, heq⟩)
    · exact absurd h hsuit3
    · injection heq with h1 _ _
      subst h1
      exact ⟨ha, hc⟩
  · rintro ⟨ha, hc⟩
    exact Or.inr ⟨t, hty3.2 (htyS.2 ht), ha, hc, rfl⟩

set_option maxRecDepth 1000000 in
/-- Witness for C8: the run {Rice Blast, 100, Kandy, Spray} over `exampleSuitGraph`, at the
treatment `:T1`. -/
theorem overall_suitability_witness :
    (⟨onto "T1", rdfType, Treatments⟩ : Triple) ∈ exampleSuitGraph ∧
    ((⟨onto "T1", onto "isSuitable", boolTrue⟩ : Triple) ∈ runAllRulesForUser
        (insertUserInput exampleSuitGraph 1 "Rice Blast" "100" "Kandy" "Spray").graph
        "UserInput_1" ↔
      (⟨onto "T1", onto "isAffordable", boolTrue⟩ : Triple) ∈ runAllRulesForUser
        (insertUserInput exampleSuitGraph 1 "Rice Blast" "100" "Kandy" "Spray").graph
        "UserInput_1" ∧
      (⟨onto "T1", onto "isControlMethodSuitable", boolTrue⟩ : Triple) ∈ runAllRulesForUser
        (insertUserInput exampleSuitGraph 1 "Rice Blast" "100" "Kandy" "Spray").graph
        "UserInput_1") :=
  ⟨by decide,
   (overall_suitability exampleSuitGraph 1 "Rice Blast" "100" "Kandy" "Spray" "UserInput_1"
      (by rfl) (onto "T1")).2 (by decide)⟩

/-! ## Primary-source rules -/

theorem subset_insertAll {g : Graph} {ts : List Triple} {tr : Triple} (h : tr ∈ g) :
    tr ∈ insertAll g ts := mem_insertAll.2 (Or.inl h)

theorem r6Inserts_of {g : Graph} {u d loc : String} {dname h rain : Term}
    (hd : (⟨u, onto "hasDiseasec", .iri d⟩ : Triple) ∈ g)
    (hloc : (⟨u, onto "hasLocationName", .iri loc⟩ : Triple) ∈ g)
    (hname : (⟨d, onto "hasName", dname⟩ : Triple) ∈ g)
    (hn : lcase (str dname) = "rice blast")
    (hh : (⟨loc, onto "hasHumidity_L", h⟩ : Triple) ∈ g) (hhv : lcase (str h) = "high")
    (hr : (⟨loc, onto "hasRainfallPattern_L", rain⟩ : Triple) ∈ g)
    (hrv : lcase (str rain) = "veryhigh") :
    (⟨d, onto "hasPrimarySource", strLit "Airborne Spores"⟩ : Triple) ∈ r6Inserts g u := by
  simp only [r6Inserts, List.mem_flatMap, mem_objects, mem_objectsOf, mem_ite_nil, mem_tripleAt,
    lcaseIs_iff]
  exact ⟨.iri loc, hloc, .iri d, hd, h, ⟨loc, rfl, hh⟩, rain, ⟨loc, rfl, hr⟩, dname,
    ⟨d, rfl, hname⟩, ⟨hhv, hrv, hn⟩, d, rfl, rfl⟩

theorem r8Inserts_of {g : Graph} {u d loc : String} {dname rain moist : Term}
    (hd : (⟨u, onto "hasDiseasec", .iri d⟩ : Triple) ∈ g)
    (hloc : (⟨u, onto "hasLocationName", .iri loc⟩ : Triple) ∈ g)
    (hname : (⟨d, onto "hasName", dname⟩ : Triple) ∈ g)
    (hn : lcase (str dname) = "rice blast")
    (hr : (⟨loc, onto "hasRainfallPattern_L", rain⟩ : Triple) ∈ g)
    (hrv : lcase (str rain) = "veryhigh")
    (hm : (⟨loc, onto "hasSoilMoisture_L", moist⟩ : Triple) ∈ g)
    (hmv : lcase (str moist) = "high") :
    (⟨d, onto "hasPrimarySource", strLit "Soil and Water"⟩ : Triple) ∈ r8Inserts g u := by
  simp only [r8Inserts, List.mem_flatMap, mem_objects, mem_objectsOf, mem_ite_nil, mem_tripleAt,
    lcaseIs_iff]
  exact ⟨.iri loc, hloc, .iri d, hd, rain, ⟨loc, rfl, hr⟩, moist, ⟨loc, rfl, hm⟩, dname,
    ⟨d, rfl, hname⟩, ⟨hrv, hmv, hn⟩, d, rfl, rfl⟩

/-- C9: for a session whose disease is named Rice Blast and whose location has humidity
High, rainfall VeryHigh and soil moisture High (each up to letter case), one run of
`applyPrimarySourceRules` asserts both "Airborne Spores" (by `r6`) and "Soil and Water"
(by `r8`) on the disease: both updates fire, and both labels are in the resulting graph. -/
theorem primary_source_additive (g : Graph) (userId d loc : String) (dname h rain moist : Term)
    (hd : (⟨onto userId, onto "hasDiseasec", .iri d⟩ : Triple) ∈ g)
    (hloc : (⟨onto userId, onto "hasLocationName", .iri loc⟩ : Triple) ∈ g)
    (hname : (⟨d, onto "hasName", dname⟩ : Triple) ∈ g)
    (hn : lcase (str dname) = "rice blast")
    (hh : (⟨loc, onto "hasHumidity_L", h⟩ : Triple) ∈ g) (hhv : lcase (str h) = "high")
    (hr : (⟨loc, onto "hasRainfallPattern_L", rain⟩ : Triple) ∈ g)
    (hrv : lcase (str rain) = "veryhigh")
    (hm : (⟨loc, onto "hasSoilMoisture_L", moist⟩ : Triple) ∈ g)
    (hmv : lcase (str moist) = "high") :
    (⟨d, onto "hasPrimarySource", strLit "Airborne Spores"⟩ : Triple) ∈
      r6Inserts (r5 g (onto userId)) (onto userId) ∧
    (⟨d, onto "hasPrimarySource", strLit "Soil and Water"⟩ : Triple) ∈
      r8Inserts (r7 (r6 (r5 g (onto userId)) (onto userId)) (onto userId)) (onto userId) ∧
    (⟨d, onto "hasPrimarySource", strLit "Airborne Spores"⟩ : Triple) ∈
      applyPrimarySourceRules g userId ∧
    (⟨d, onto "hasPrimarySource", strLit "Soil and Water"⟩ : Triple) ∈
      applyPrimarySourceRules g userId := by
  have s5 : ∀ tr : Triple, tr ∈ g → tr ∈ r5 g (onto userId) := fun _ h => subset_insertAll h
  have s7 : ∀ tr : Triple, tr ∈ g → tr ∈ r7 (r6 (r5 g (onto userId)) (onto userId)) (onto userId) :=
    fun _ h => subset_insertAll (subset_insertAll (subset_insertAll h))
  have a6 := r6Inserts_of (s5 _ hd) (s5 _ hloc) (s5 _ hname) hn (s5 _ hh) hhv (s5 _ hr) hrv
  have a8 := r8Inserts_of (s7 _ hd) (s7 _ hloc) (s7 _ hname) hn (s7 _ hr) hrv (s7 _ hm) hmv
  refine ⟨a6, a8, ?_, ?_⟩
  · unfold applyPrimarySourceRules
    exact subset_insertAll (subset_insertAll (subset_insertAll (mem_insertAll.2 (Or.inr a6))))
  · unfold applyPrimarySourceRules
    exact subset_insertAll (mem_insertAll.2 (Or.inr a8))

set_option maxRecDepth 1000000 in
/-- Witness for C9: the session at Kandy (humidity High, rainfall VeryHigh, soil moisture
High) for Rice Blast. -/
theorem primary_source_additive_witness :
    (⟨onto "Rice_Blast", onto "hasPrimarySource", strLit "Airborne Spores"⟩ : Triple) ∈
      r6Inserts (r5 sessionAtKandy (onto "UserInput_1")) (onto "UserInput_1") ∧
    (⟨onto "Rice_Blast", onto "hasPrimarySource", strLit "Soil and Water"⟩ : Triple) ∈
      r8Inserts (r7 (r6 (r5 sessionAtKandy (onto "UserInput_1")) (onto "UserInput_1"))
        (onto "UserInput_1")) (onto "UserInput_1") ∧
    (⟨onto "Rice_Blast", onto "hasPrimarySource", strLit "Airborne Spores"⟩ : Triple) ∈
      applyPrimarySourceRules sessionAtKandy "UserInput_1" ∧
    (⟨onto "Rice_Blast", onto "hasPrimarySource", strLit "Soil and Water"⟩ : Triple) ∈
      applyPrimarySourceRules sessionAtKandy "UserInput_1" :=
  primary_source_additive sessionAtKandy "UserInput_1" (onto "Rice_Blast") (onto "Kandy")
    (strLit "Rice Blast") (strLit "High") (strLit "VeryHigh") (strLit "High")
    (by decide) (by decide) (by decide) (by decide) (by decide) (by decide) (by decide)
    (by decide) (by decide) (by decide)

set_option maxRecDepth 1000000 in
/-- C10, the code at the failing input: for a False Smut session at a location whose
humidity, temperature range and rainfall are "veryhigh", "optimal", "high" (the values of
R1 up to letter case), `applyPrimarySourceRules` asserts no label; with the exact casing
"VeryHigh", "Optimal", "High" it asserts the label of R1; and the sibling rule `r6` does
accept its profile in lower case. -/
theorem r5_compares_profile_case_sensitively :
    lcase "veryhigh" = lcase "VeryHigh" ∧ lcase "optimal" = lcase "Optimal" ∧
    lcase "high" = lcase "High" ∧
    (⟨onto "False_Smut", onto "hasPrimarySource",
        strLit "Chlamydospores & Sclerotia (soil)"⟩ : Triple) ∉
      applyPrimarySourceRules
        (insertUserInput lowerCaseFalseSmut 1 "False Smut" "100" "Galle" "").graph
        "UserInput_1" ∧
    objects
      (applyPrimarySourceRules
        (insertUserInput lowerCaseFalseSmut 1 "False Smut" "100" "Galle" "").graph
        "UserInput_1")
      (onto "False_Smut") (onto "hasPrimarySource") = [] ∧
    (⟨onto "False_Smut", onto "hasPrimarySource",
        strLit "Chlamydospores & Sclerotia (soil)"⟩ : Triple) ∈
      applyPrimarySourceRules
        (insertUserInput exactCaseFalseSmut 1 "False Smut" "100" "Galle" "").graph
        "UserInput_1" ∧
    (⟨onto "Rice_Blast", onto "hasPrimarySource", strLit "Airborne Spores"⟩ : Triple) ∈
      applyPrimarySourceRules
        (insertUserInput lowerCaseRiceBlast 1 "Rice Blast" "100" "Galle" "").graph
        "UserInput_1" := by
  decide

/-! ## Symptom specificity -/

theorem mem_rule11Inserts {g : Graph} {u sym : String} :
    (⟨sym, onto "isSpecific", strLit "true"⟩ : Triple) ∈ rule11Inserts g u ↔
      SymptomMatches g u sym := by
  unfold SymptomMatches
  simp only [rule11Inserts, List.mem_flatMap, mem_objects, mem_objectsOf, mem_ite_nil,
    mem_tripleAt, rule11Filter, Bool.and_eq_true, lcaseEq_iff]
  constructor
  · rintro ⟨loc, hloc, d, hd, tempL, ⟨l1, rfl, h1⟩, humL, ⟨l2, e2, h2⟩, soilL, ⟨l3, e3, h3⟩,
      lightL, ⟨l4, e4, h4⟩, rainL, ⟨l5, e5, h5⟩, symT, ⟨d1, rfl, h6⟩, env, ⟨s1, rfl, h7⟩,
      tempE, ⟨v1, rfl, h8⟩, humE, ⟨v2, e9, h9⟩, soilE, ⟨v3, e10, h10⟩, lightE,
      ⟨v4, e11, h11⟩, rainE, ⟨v5, e12, h12⟩, ⟨⟨⟨⟨c1, c2⟩, c3⟩, c4⟩, c5⟩, n, en, etr⟩
    injection e2 with e2; subst e2
    injection e3 with e3; subst e3
    injection e4 with e4; subst e4
    injection e5 with e5; subst e5
    injection e9 with e9; subst e9
    injection e10 with e10; subst e10
    injection e11 with e11; subst e11
    injection e12 with e12; subst e12
    injection en with en; subst en
    injection etr with es _ _
    subst es
    exact ⟨l1, d1, v1, tempL, humL, soilL, lightL, rainL, tempE, humE, soilE, lightE, rainE,
      hloc, hd, h1, h2, h3, h4, h5, h6, h7, h8, h9, h10, h11, h12, c1, c2, c3, c4, c5⟩
  · rintro ⟨loc, d, env, tempL, humL, soilL, lightL, rainL, tempE, humE, soilE, lightE, rainE,
      hloc, hd, h1, h2, h3, h4, h5, h6, h7, h8, h9, h10, h11, h12, c1, c2, c3, c4, c5⟩
    exact ⟨.iri loc, hloc, .iri d, hd, tempL, ⟨loc, rfl, h1⟩, humL, ⟨loc, rfl, h2⟩, soilL,
      ⟨loc, rfl, h3⟩, lightL, ⟨loc, rfl, h4⟩, rainL, ⟨loc, rfl, h5⟩, .iri sym, ⟨d, rfl, h6⟩,
      .iri env, ⟨sym, rfl, h7⟩, tempE, ⟨env, rfl, h8⟩, humE, ⟨env, rfl, h9⟩, soilE,
      ⟨env, rfl, h10⟩, lightE, ⟨env, rfl, h11⟩, rainE, ⟨env, rfl, h12⟩,
      ⟨⟨⟨⟨c1, c2⟩, c3⟩, c4⟩, c5⟩, sym, rfl, rfl⟩

theorem rule11Inserts_object {g : Graph} {u : String} :
    ∀ x ∈ rule11Inserts g u, x.o = strLit "true" := by
  unfold rule11Inserts
  have hfm : ∀ {α : Type} {l : List α} {f : α → List Triple},
      (∀ a ∈ l, ∀ x ∈ f a, x.o = strLit "true") → ∀ x ∈ l.flatMap f, x.o = strLit "true" := by
    intro α l f h x hx
    obtain ⟨a, ha, hxa⟩ := List.mem_flatMap.1 hx
    exact h a ha x hxa
  iterate 14 refine hfm fun _ _ => ?_
  intro x hx
  obtain ⟨n, _, rfl⟩ := mem_tripleAt.1 (mem_ite_nil.1 hx).2
  rfl

/-- C11: `applySymptomSpecificRule` marks a symptom of the session's disease exactly when its
required profile has all five fields and each agrees, up to letter case, with the
corresponding field of the session's location; for a symptom without a prior `isSpecific`
value that is the only `isSpecific` fact it has afterwards.  On the example store a profile
equal up to case is marked, a profile with one differing field is not, and a profile with
one field missing is not. -/
theorem symptom_specificity (g : Graph) (userId sym : String)
    (hprior : objects g sym (onto "isSpecific") = []) :
    ((⟨sym, onto "isSpecific", strLit "true"⟩ : Triple) ∈ rule11Inserts g (onto userId) ↔
      SymptomMatches g (onto userId) sym) ∧
    (∀ o, (⟨sym, onto "isSpecific", o⟩ : Triple) ∈ applySymptomSpecificRule g userId ↔
      o = strLit "true" ∧ SymptomMatches g (onto userId) sym) ∧
    rule11Inserts (symptomStore "optimal" "HIGH" "high" "low" "veryhigh") (onto "U") =
      [⟨onto "S1", onto "isSpecific", strLit "true"⟩] ∧
    rule11Inserts (symptomStore "optimal" "HIGH" "high" "low" "high") (onto "U") = [] ∧
    rule11Inserts symptomStoreMissingLight (onto "U") = [] := by
  refine ⟨mem_rule11Inserts, ?_, by decide, by decide, by decide⟩
  intro o
  have hno : ∀ o, (⟨sym, onto "isSpecific", o⟩ : Triple) ∉ g := by
    intro o ho
    have := mem_objects.2 ho
    rw [hprior] at this
    exact List.not_mem_nil _ this
  unfold applySymptomSpecificRule rule11
  rw [mem_insertAll]
  constructor
  · rintro (h | h)
    · exact absurd h (hno o)
    · have ho := rule11Inserts_object _ h
      simp only at ho
      subst ho
      exact ⟨rfl, mem_rule11Inserts.1 h⟩
  · rintro ⟨rfl, h⟩
    exact Or.inr (mem_rule11Inserts.2 h)

set_option maxRecDepth 1000000 in
/-- Witness for C11: the symptom `:S1` of the example store, with a profile that matches the
location up to letter case. -/
theorem symptom_specificity_witness :
    (⟨onto "S1", onto "isSpecific", strLit "true"⟩ : Triple) ∈
      rule11Inserts (symptomStore "optimal" "HIGH" "high" "low" "veryhigh") (onto "U") ↔
    SymptomMatches (symptomStore "optimal" "HIGH" "high" "low" "veryhigh") (onto "U")
      (onto "S1") :=
  (symptom_specificity (symptomStore "optimal" "HIGH" "high" "low" "veryhigh") "U" (onto "S1")
    (by decide)).1

/-! ## Failure semantics of the pipeline -/

theorem next_ok {α β : Type} (x : α) (s : Store) (f : α → Async β) :
    Async.next (.ok x, s) f = f x s := rfl

theorem next_error {α β : Type} (e : String) (s : Store) (f : α → Async β) :
    Async.next (.error e, s) f = (.error e, s) := rfl

theorem andThen_run {α β : Type} (t : Async α) (f : α → Async β) (s : Store) :
    (t.andThen f).run s = Async.next (t.run s) f := rfl

theorem runUpdates_nil (fails : Nat → Bool) (s : Store) :
    (runUpdates fails []).run s = (.ok (), s) := rfl

theorem runUpdates_cons (fails : Nat → Bool) (u : Update) (us : List Update) (s : Store) :
    (runUpdates fails (u :: us)).run s =
      Async.next ((sparqlUpdate fails u).run s) fun _ => runUpdates fails us := rfl

theorem runUpdates_append (fails : Nat → Bool) (xs ys : List Update) (s : Store) :
    (runUpdates fails (xs ++ ys)).run s =
      Async.next ((runUpdates fails xs).run s) fun _ => runUpdates fails ys := by
  induction xs generalizing s with
  | nil => rfl
  | cons x xs ih =>
    rw [List.cons_append, runUpdates_cons, runUpdates_cons]
    rcases (sparqlUpdate fails x).run s with ⟨r, s1⟩
    cases r with
    | error e => rfl
    | ok v => exact ih s1

theorem next_next {α β γ : Type} (r : Except String α × Store) (f : α → Async β)
    (g : β → Async γ) :
    Async.next (Async.next r f) g = Async.next r fun x => (f x).andThen g := by
  rcases r with ⟨r, s⟩
  cases r <;> rfl

theorem andThen_assoc {α β γ : Type} (t : Async α) (f : α → Async β) (g : β → Async γ) :
    (t.andThen f).andThen g = t.andThen fun x => (f x).andThen g := by
  funext s
  exact next_next (t s) f g

theorem ret_andThen {α β : Type} (x : α) (f : α → Async β) :
    (Async.ret x).andThen f = f x := rfl

theorem runUpdates_append_eq (fails : Nat → Bool) (xs ys : List Update) :
    runUpdates fails (xs ++ ys) = (runUpdates fails xs).andThen fun _ => runUpdates fails ys := by
  funext s
  exact runUpdates_append fails xs ys s

theorem pipeline_run (fails : Nat → Bool) (now : Nat) (dn budget ln control d l : String)
    (hd : lookupProperty diseaseMap dn = .text d)
    (hl : lookupProperty locationMap ln = .text l) :
    Fallible.submission fails now dn budget ln control =
      (runUpdates fails (pipelineUpdates ("UserInput_" ++ toString now) (.text d) (.text l)
          budget control)).andThen
        fun _ => Async.ret ("UserInput_" ++ toString now) := by
  unfold Fallible.submission pipelineUpdates Fallible.insertUserInput
    Fallible.runAllRulesForUser
    Fallible.applyBudgetRulesForUser Fallible.applyControlMethodAndSuitabilityRules
    Fallible.applyPrimarySourceRules Fallible.applySymptomSpecificRule
  simp only [hd, hl, runUpdates_append_eq, andThen_assoc, ret_andThen]

theorem sparqlUpdate_ok {fails : Nat → Bool} {u : Update} {f : Graph → Graph} {s : Store}
    (hu : u.effect = some f) (hf : fails s.issued.length = false) :
    (sparqlUpdate fails u).run s = (.ok (), ⟨f s.graph, s.issued ++ [u.name]⟩) := by
  simp [sparqlUpdate, Async.run, hu, hf]

theorem sparqlUpdate_fail {fails : Nat → Bool} {u : Update} {f : Graph → Graph} {s : Store}
    (hu : u.effect = some f) (hf : fails s.issued.length = true) :
    (sparqlUpdate fails u).run s =
      (.error "SPARQL Update failed", ⟨s.graph, s.issued ++ [u.name]⟩) := by
  simp [sparqlUpdate, Async.run, hu, hf]

theorem applyAll_cons {u : Update} {f : Graph → Graph} (hu : u.effect = some f)
    (us : List Update) (g : Graph) : applyAll (u :: us) g = applyAll us (f g) := by
  simp [applyAll, hu]

/-- When no call fails, every request is sent once, in order, and all are applied. -/
theorem runUpdates_ok (fails : Nat → Bool) (us : List Update) (s : Store)
    (hwf : WellFormed us) (h : ∀ i < us.length, fails (s.issued.length + i) = false) :
    (runUpdates fails us).run s =
      (.ok (), ⟨applyAll us s.graph, s.issued ++ us.map Update.name⟩) := by
  induction us generalizing s with
  | nil => simp [runUpdates_nil, applyAll]
  | cons u us ih =>
    have hu0 := hwf u (List.mem_cons_self _ _)
    obtain ⟨f, hu⟩ := Option.isSome_iff_exists.1 hu0
    have h0 : fails s.issued.length = false := by simpa using h 0 (by simp)
    rw [runUpdates_cons, sparqlUpdate_ok hu h0, next_ok]
    have ih2 := ih ⟨f s.graph, s.issued ++ [u.name]⟩
      (fun v hv => hwf v (List.mem_cons_of_mem _ hv))
      (by
        intro i hi
        have := h (i + 1) (by simpa using hi)
        simpa [Nat.add_assoc, Nat.add_comm 1 i] using this)
    show (runUpdates fails us).run _ = _
    rw [ih2, applyAll_cons hu]
    simp

/-- When call number `k` is the first to fail, the requests before it are applied, the
failing request is the last one sent, and the error is thrown. -/
theorem runUpdates_fail (fails : Nat → Bool) (us : List Update) (s : Store) (k : Nat)
    (hwf : WellFormed us) (hk : k < us.length) (hf : fails (s.issued.length + k) = true)
    (hlt : ∀ i < k, fails (s.issued.length + i) = false) :
    (runUpdates fails us).run s =
      (.error "SPARQL Update failed",
        ⟨applyAll (us.take k) s.graph, s.issued ++ (us.take (k + 1)).map Update.name⟩) := by
  induction us generalizing s k with
  | nil => simp at hk
  | cons u us ih =>
    have hu0 := hwf u (List.mem_cons_self _ _)
    obtain ⟨f, hu⟩ := Option.isSome_iff_exists.1 hu0
    cases k with
    | zero =>
      have h0 : fails s.issued.length = true := by simpa using hf
      rw [runUpdates_cons, sparqlUpdate_fail hu h0, next_error]
      simp [applyAll]
    | succ k =>
      have h0 : fails s.issued.length = false := by simpa using hlt 0 (by simp)
      rw [runUpdates_cons, sparqlUpdate_ok hu h0, next_ok]
      have ih2 := ih ⟨f s.graph, s.issued ++ [u.name]⟩ k
        (fun v hv => hwf v (List.mem_cons_of_mem _ hv))
        (by simpa using hk)
        (by simpa [Nat.add_assoc, Nat.add_comm 1 k] using hf)
        (by
          intro i hi
          have := hlt (i + 1) (by omega)
          simpa [Nat.add_assoc, Nat.add_comm 1 i] using this)
      show (runUpdates fails us).run _ = _
      rw [ih2, List.take_succ_cons, applyAll_cons hu]
      simp

theorem pipelineUpdates_wellFormed (id d l budget control : String) :
    WellFormed (pipelineUpdates id (.text d) (.text l) budget control) := by
  intro u hu
  simp only [pipelineUpdates, clearTreatmentsUpdate, insertUserUpdate, budgetUpdates,
    controlUpdates, primarySourceUpdates, symptomUpdates, List.cons_append, List.nil_append,
    List.mem_cons, List.mem_singleton, List.not_mem_nil, or_false] at hu
  rcases hu with (rfl | rfl | rfl | rfl | rfl | rfl | rfl | rfl | rfl | rfl | rfl | rfl | rfl |
    rfl | rfl) <;> rfl

theorem pipelineUpdates_length (id : String) (dl ll : JsValue) (budget control : String) :
    (pipelineUpdates id dl ll budget control).length = 15 := rfl

/-- With no failing call the requests of one submission compute the graph of the
failure-free model: `insertUserInput` followed by `runAllRulesForUser`. -/
theorem applyAll_pipeline (g : Graph) (now : Nat) (dn budget ln control d l : String)
    (hd : lookupProperty diseaseMap dn = .text d)
    (hl : lookupProperty locationMap ln = .text l) :
    applyAll (pipelineUpdates ("UserInput_" ++ toString now) (.text d) (.text l) budget control)
        g =
      runAllRulesForUser (insertUserInput g now dn budget ln control).graph
        ("UserInput_" ++ toString now) := by
  simp only [insertUserInput, hd, hl]
  rfl

theorem pipelineUpdates_names (id : String) (dl ll : JsValue) (budget control : String) :
    (pipelineUpdates id dl ll budget control).map Update.name = pipelineNames := rfl

/-- C14: for a submission whose disease and location are entries of the two maps, over a
store whose update calls may fail (`fails n` for call number `n`, counted from the calls
already sent): the run returns the instance id iff none of its fifteen calls fails, and
then all fifteen requests were sent once, in order, and the graph is that of the
failure-free run; when call number `k` is the first to fail, the run throws, the graph is
that of the first `k` requests applied (nothing is rolled back), and the requests sent are
exactly the first `k + 1` (nothing later is sent, nothing is sent twice). -/
theorem best_effort_failure_semantics (fails : Nat → Bool) (now : Nat)
    (disease budget location control d l : String) (s : Store)
    (hd : lookupProperty diseaseMap disease = .text d)
    (hl : lookupProperty locationMap location = .text l) :
    (((Fallible.submission fails now disease budget location control).run s).1 =
        .ok ("UserInput_" ++ toString now) ↔
      ∀ i < 15, fails (s.issued.length + i) = false) ∧
    ((∀ i < 15, fails (s.issued.length + i) = false) →
      ((Fallible.submission fails now disease budget location control).run s).2 =
        ⟨runAllRulesForUser (insertUserInput s.graph now disease budget location control).graph
            ("UserInput_" ++ toString now),
          s.issued ++ pipelineNames⟩) ∧
    (∀ k < 15, fails (s.issued.length + k) = true →
      (∀ i < k, fails (s.issued.length + i) = false) →
      (Fallible.submission fails now disease budget location control).run s =
        (.error "SPARQL Update failed",
          ⟨applyAll
              ((pipelineUpdates ("UserInput_" ++ toString now) (.text d) (.text l) budget
                control).take k) s.graph,
            s.issued ++ pipelineNames.take (k + 1)⟩)) := by
  have hrun : (Fallible.submission fails now disease budget location control).run s =
      Async.next
        ((runUpdates fails (pipelineUpdates ("UserInput_" ++ toString now) (.text d) (.text l)
          budget control)).run s)
        fun _ => Async.ret ("UserInput_" ++ toString now) := by
    rw [pipeline_run fails now disease budget location control d l hd hl]
    rfl
  have hwf := pipelineUpdates_wellFormed ("UserInput_" ++ toString now) d l budget control
  have hok : (∀ i < 15, fails (s.issued.length + i) = false) →
      (Fallible.submission fails now disease budget location control).run s =
        (.ok ("UserInput_" ++ toString now),
          ⟨runAllRulesForUser
              (insertUserInput s.graph now disease budget location control).graph
              ("UserInput_" ++ toString now),
            s.issued ++ pipelineNames⟩) := by
    intro h
    rw [hrun, runUpdates_ok fails _ s hwf (by rw [pipelineUpdates_length]; exact h), next_ok,
      pipelineUpdates_names, applyAll_pipeline s.graph now disease budget location control d l
        hd hl]
    rfl
  have hfail : ∀ k < 15, fails (s.issued.length + k) = true →
      (∀ i < k, fails (s.issued.length + i) = false) →
      (Fallible.submission fails now disease budget location control).run s =
        (.error "SPARQL Update failed",
          ⟨applyAll
              ((pipelineUpdates ("UserInput_" ++ toString now) (.text d) (.text l) budget
                control).take k) s.graph,
            s.issued ++ pipelineNames.take (k + 1)⟩) := by
    intro k hk hf hlt
    rw [hrun, runUpdates_fail fails _ s k hwf (by rw [pipelineUpdates_length]; exact hk) hf hlt,
      next_error, List.map_take, pipelineUpdates_names]
  refine ⟨⟨?_, fun h => by rw [hok h]⟩, fun h => by rw [hok h], hfail⟩
  intro hres
  by_contra hne
  push_neg at hne
  have hex : ∃ i, i < 15 ∧ fails (s.issued.length + i) = true := by
    obtain ⟨i, hi, hfi⟩ := hne
    exact ⟨i, hi, by simpa using hfi⟩
  have hk := Nat.find_spec hex
  have hmin : ∀ i < Nat.find hex, fails (s.issued.length + i) = false := by
    intro i hi
    have := Nat.find_min hex hi
    have hi15 : i < 15 := lt_trans hi hk.1
    simpa [hi15] using this
  rw [hfail _ hk.1 hk.2 hmin] at hres
  simp at hres
set_option maxRecDepth 1000000 in
/-- Witness for C14: over `twoLocations`, with call number 7 (`controlSuitable`) failing. -/
theorem best_effort_failure_semantics_witness :
    (Fallible.submission (fun n => decide (n = 7)) 1 "Rice Blast" "100" "Kandy" "Spray").run
        ⟨twoLocations, []⟩ =
      (.error "SPARQL Update failed",
        ⟨applyAll
            ((pipelineUpdates ("UserInput_" ++ toString 1) (.text ":Rice_Blast")
              (.text ":Kandy") "100" "Spray").take 7) twoLocations,
          [] ++ pipelineNames.take (7 + 1)⟩) :=
  (best_effort_failure_semantics (fun n => decide (n = 7)) 1 "Rice Blast" "100" "Kandy" "Spray"
    ":Rice_Blast" ":Kandy" ⟨twoLocations, []⟩ (by rfl) (by rfl)).2.2 7 (by decide) (by decide)
    (by decide)

/-- A disease or location name that is no entry of its map and no inherited property name
makes `insertUserInput` throw before any request is sent. -/
theorem unknown_vocabulary_aborts (fails : Nat → Bool) (now : Nat)
    (diseaseName budget locationName control : String) (s : Store) :
    (lookupProperty diseaseMap diseaseName = .undefined →
      (Fallible.insertUserInput fails now diseaseName budget locationName control).run s =
        (.error ("Unknown disease: " ++ diseaseName), s)) ∧
    (lookupProperty diseaseMap diseaseName ≠ .undefined →
      lookupProperty locationMap locationName = .undefined →
      (Fallible.insertUserInput fails now diseaseName budget locationName control).run s =
        (.error ("Unknown location: " ++ locationName), s)) := by
  constructor
  · intro h
    simp only [Fallible.insertUserInput, h]
    rfl
  · intro h1 h2
    unfold Fallible.insertUserInput
    cases hd : lookupProperty diseaseMap diseaseName with
    | undefined => exact absurd hd h1
    | text v => simp only [h2]; rfl
    | inherited k => simp only [h2]; rfl

set_option maxRecDepth 1000000 in
/-- C12, the code at the failing input: the disease name "constructor" is none of the five
names of `diseaseMap`, yet `diseaseMap["constructor"]` is an inherited property and passes
the check; Reset is sent and applied (the stale priority of `staleSymptom` is gone), then
the session insert is rejected, and the error is not an unknown-disease error.  The
location name "toString" behaves the same way.  A name such as "Rice" is refused before
any request. -/
theorem inherited_property_passes_vocabulary_check :
    "constructor" ∉ diseaseMap.map Prod.fst ∧
    lookupProperty diseaseMap "constructor" = .inherited "constructor" ∧
    submitInput (fun _ => false) 1 "constructor" "100" "Kandy" "" ⟨staleSymptom, []⟩ =
      (.serverError "SPARQL Update failed: 400",
        ⟨clearTreatments staleSymptom, ["clearTreatments", "insertUser"]⟩) ∧
    clearTreatments staleSymptom ≠ staleSymptom ∧
    "toString" ∉ locationMap.map Prod.fst ∧
    submitInput (fun _ => false) 1 "Rice Blast" "100" "toString" "" ⟨staleSymptom, []⟩ =
      (.serverError "SPARQL Update failed: 400",
        ⟨clearTreatments staleSymptom, ["clearTreatments", "insertUser"]⟩) ∧
    (insertUserInput staleSymptom 1 "constructor" "100" "Kandy" "").graph =
      clearTreatments staleSymptom ∧
    submitInput (fun _ => false) 1 "Rice" "100" "Kandy" "" ⟨staleSymptom, []⟩ =
      (.serverError "Unknown disease: Rice", ⟨staleSymptom, []⟩) := by
  decide

set_option maxRecDepth 1000000 in
/-- C13, the code at the failing input: two submissions handled at the same value of
`Date.now()` both succeed and return the same identity; the second one adds its
attributes to the Session node of the first, which then has two budgets, two locations
and two control-method inputs, and the store holds one Session node. -/
theorem same_millisecond_same_identity :
    firstSubmission.1 = .success "UserInput_1" ∧
    secondSubmission.1 = .success "UserInput_1" ∧
    objects secondSubmission.2.graph (onto "UserInput_1") (onto "hasUserBudget") =
      [.lit "1000" .xsdDecimal, .lit "10" .xsdDecimal] ∧
    objects secondSubmission.2.graph (onto "UserInput_1") (onto "hasLocationName") =
      [.iri (onto "Kandy"), .iri (onto "Jaffna")] ∧
    objects secondSubmission.2.graph (onto "UserInput_1") (onto "hasControlMethodInput") =
      [strLit "Spray", strLit "Dust"] ∧
    subjects secondSubmission.2.graph rdfType (.iri (onto "User_Inputs")) =
      [onto "UserInput_1"] := by
  decide

/-! ## Datatypes of the flags, history, negative budgets -/

set_option maxRecDepth 1000000 in
/-- C15, the code at the failing input: the not-affordable flag written for the treatment
costing 151 under budget 100 is the string literal "false", not a boolean; the
`isSpecific` value written for a matching symptom is the string literal "true", not the
boolean `true`; the filter `?isSpecific = true` of the disease-details query raises a
type error on it, so the query binds no symptom, while it would bind the symptom if the
value were the boolean. -/
theorem flags_written_as_strings :
    ((⟨onto "T4", onto "isAffordable", .lit "false" .xsdString⟩ : Triple) ∈
        applyBudgetRulesForUser exampleBudgetGraph "U" ∧
      ∀ lex, (⟨onto "T4", onto "isAffordable", .lit lex .xsdBoolean⟩ : Triple) ∉
        applyBudgetRulesForUser exampleBudgetGraph "U") ∧
    objects (applySymptomSpecificRule symptomStoreLinked "U") (onto "S1") (onto "isSpecific") =
      [.lit "true" .xsdString] ∧
    termEq (.lit "true" .xsdString) boolTrue = none ∧
    specificSymptoms (applySymptomSpecificRule symptomStoreLinked "U") (onto "U") = [] ∧
    specificSymptoms (symptomStoreLinked ++ [⟨onto "S1", onto "isSpecific", boolTrue⟩])
      (onto "U") = [.iri (onto "S1")] := by
  refine ⟨?_, by decide, by decide, by decide, by decide⟩
  have hb : HasBudget exampleBudgetGraph (onto "U") 100 := by decide
  have ht : (⟨onto "T4", rdfType, Treatments⟩ : Triple) ∈ exampleBudgetGraph := by decide
  have hc : HasCost exampleBudgetGraph (onto "T4") 151 := by decide
  obtain ⟨hp, ha⟩ := tiers_numeric hb ht hc
  have hn : ∀ o, (⟨onto "T4", onto "isAffordable", o⟩ : Triple) ∉ exampleBudgetGraph := by
    intro o ho
    have := mem_objects.2 ho
    revert this
    have : objects exampleBudgetGraph (onto "T4") (onto "isAffordable") = [] := by decide
    rw [this]
    simp
  constructor
  · rw [ha]
    refine Or.inr (Or.inl ⟨rfl, ?_⟩)
    norm_num
  · intro lex
    rw [ha]
    simp only [hn, false_or, strLit, boolTrue, Term.lit.injEq, reduceCtorEq, and_false,
      false_and, or_false, not_false_eq_true]
    rintro ⟨⟨_, _⟩, pr, hpr, hmem⟩
    rw [hp] at hmem
    have hnp : ∀ o, (⟨onto "T4", onto "priority", o⟩ : Triple) ∉ exampleBudgetGraph := by
      intro o ho
      have := mem_objects.2 ho
      revert this
      have : objects exampleBudgetGraph (onto "T4") (onto "priority") = [] := by decide
      rw [this]
      simp
    rcases hmem with (h | ⟨_, h⟩ | ⟨_, h⟩ | ⟨_, h⟩)
    · exact hnp _ h
    · norm_num at h
    · norm_num at h
    · norm_num at h

set_option maxRecDepth 1000000 in
/-- C16, the code at the failing input: after an earlier session asking for "Spray", a new
session asking for "Dust" that receives the same `Date.now()` value runs on a Session node
holding both inputs, and the typed treatment `:T1` ends `isControlMethodSuitable`; the same
new session run directly on the background graph leaves `:T1` unmarked, and so does the
new session after the earlier one when its `Date.now()` value differs. -/
theorem history_leaks_through_shared_identity :
    (⟨onto "T1", rdfType, Treatments⟩ : Triple) ∈ historyBackground ∧
    (⟨onto "T1", onto "isControlMethodSuitable", boolTrue⟩ : Triple) ∈
      runAllRulesForUser
        (insertUserInput historyGraph 1 "Rice Blast" "100" "Kandy" "Dust").graph
        "UserInput_1" ∧
    (⟨onto "T1", onto "isControlMethodSuitable", boolTrue⟩ : Triple) ∉
      runAllRulesForUser
        (insertUserInput historyBackground 1 "Rice Blast" "100" "Kandy" "Dust").graph
        "UserInput_1" ∧
    (⟨onto "T1", onto "isControlMethodSuitable", boolTrue⟩ : Triple) ∉
      runAllRulesForUser
        (insertUserInput historyGraph 2 "Rice Blast" "100" "Kandy" "Dust").graph
        "UserInput_2" := by
  decide

/-- C17: the budget text may denote a negative number (the submission is accepted), and for
a fresh session with budget `b < 0` no typed Treatment, whatever its costs, receives
priority Medium or Low, while a Treatment with cost `c`, `1.5*b < c <= b`, ends with
priority High, the not-affordable flag and `isAffordable true` together. -/
theorem negative_budget_breaks_partition (g : Graph) (now : Nat)
    (diseaseName budget locationName control id t : String) (b c : ℚ)
    (hok : (insertUserInput g now diseaseName budget locationName control).result = .ok id)
    (hfresh : objects g (onto id) (onto "hasUserBudget") = [])
    (hb : asDecimal (.lit budget .xsdDecimal) = some b) (hneg : b < 0)
    (ht : (⟨t, rdfType, Treatments⟩ : Triple) ∈ g) :
    ((⟨t, onto "priority", strLit "Medium"⟩ : Triple) ∉ applyBudgetRulesForUser
        (insertUserInput g now diseaseName budget locationName control).graph id ∧
      (⟨t, onto "priority", strLit "Low"⟩ : Triple) ∉ applyBudgetRulesForUser
        (insertUserInput g now diseaseName budget locationName control).graph id) ∧
    (HasCost g t c → 1.5 * b < c → c ≤ b →
      (⟨t, onto "priority", strLit "High"⟩ : Triple) ∈ applyBudgetRulesForUser
        (insertUserInput g now diseaseName budget locationName control).graph id ∧
      flaggedNotAffordable (applyBudgetRulesForUser
        (insertUserInput g now diseaseName budget locationName control).graph id) t ∧
      (⟨t, onto "isAffordable", boolTrue⟩ : Triple) ∈ applyBudgetRulesForUser
        (insertUserInput g now diseaseName budget locationName control).graph id) ∧
    (submitInput (fun _ => false) 1 "Rice Blast" "-100" "Kandy" "" ⟨twoLocations, []⟩).1 =
      .success "UserInput_1" := by
  refine ⟨?_, ?_, by decide⟩
  · obtain ⟨_, d, l, hg⟩ := insertUserInput_ok hok
    rw [hg]
    have hclean := noDerived_session g (onto id) d l budget control
    have hty : (⟨t, rdfType, Treatments⟩ : Triple) ∈
        insertUser (clearTreatments g) (onto id) d l budget control := typed_mem_session.2 ht
    have np : ∀ o, (⟨t, onto "priority", o⟩ : Triple) ∉
        insertUser (clearTreatments g) (onto id) d l budget control :=
      fun o h => hclean _ h hty (by simp [derivedPreds])
    have hno : ∀ o, (⟨onto id, onto "hasUserBudget", o⟩ : Triple) ∉ g := by
      intro o ho
      have := mem_objects.2 ho
      rw [hfresh] at this
      exact List.not_mem_nil _ this
    have e12 : b * 1.2 = b + b * (1 / 5) := by norm_num; ring
    have e15 : b * 1.5 = b + b * (1 / 2) := by norm_num; ring
    have n5 : b * (1 / 5) < 0 := by linarith
    have n2 : b * (1 / 2) < b * (1 / 5) := by linarith
    constructor
    · intro h
      rw [priority_mem_applyBudgetRules] at h
      simp only [np, false_or, budget_mem_session, cost_mem_session, hno, strLit,
        Term.lit.injEq, and_true, String.reduceEq, false_and, or_false, true_and] at h
      obtain ⟨_, bu, co, rfl, _, hf⟩ := h
      obtain ⟨b2, c2, hx, hy⟩ := filter_casts (Or.inr (Or.inl rfl)) hf
      rw [hb] at hx
      injection hx with hx
      subst hx
      have a := (mediumFilter_iff hb hy).1 hf
      rw [e12] at a
      linarith [a.1, a.2]
    · intro h
      rw [priority_mem_applyBudgetRules] at h
      simp only [np, false_or, budget_mem_session, cost_mem_session, hno, strLit,
        Term.lit.injEq, and_true, String.reduceEq, false_and, or_false, true_and] at h
      obtain ⟨_, bu, co, rfl, _, hf⟩ := h
      obtain ⟨b2, c2, hx, hy⟩ := filter_casts (Or.inr (Or.inr (Or.inl rfl))) hf
      rw [hb] at hx
      injection hx with hx
      subst hx
      have a := (lowFilter_iff hb hy).1 hf
      rw [e12, e15] at a
      linarith [a.1, a.2]
  · intro hc hlo hhi
    obtain ⟨hp, ha⟩ := session_tiers hok hfresh hb ht hc
    have hhigh : (⟨t, onto "priority", strLit "High"⟩ : Triple) ∈ applyBudgetRulesForUser
        (insertUserInput g now diseaseName budget locationName control).graph id :=
      (hp _).2 (Or.inl ⟨rfl, hhi⟩)
    have hflag : (⟨t, onto "isAffordable", strLit "false"⟩ : Triple) ∈ applyBudgetRulesForUser
        (insertUserInput g now diseaseName budget locationName control).graph id := by
      rw [ha, mul_comm]
      exact hlo
    refine ⟨hhigh, hflag, ?_⟩
    rw [affordable_mem_applyBudgetRules]
    refine Or.inr (Or.inr ⟨rfl, ?_, strLit "High", Or.inl rfl, hhigh⟩)
    obtain ⟨_, d, l, hg⟩ := insertUserInput_ok hok
    rw [hg]
    exact typed_mem_session.2 ht

set_option maxRecDepth 1000000 in
/-- Witness for C17: budget -100 and the treatment `:T7` costing -120. -/
theorem negative_budget_breaks_partition_witness :
    ((⟨onto "T7", onto "priority", strLit "Medium"⟩ : Triple) ∉ applyBudgetRulesForUser
        (insertUserInput negativeCostGraph 1 "Rice Blast" "-100" "Kandy" "").graph
        "UserInput_1" ∧
      (⟨onto "T7", onto "priority", strLit "Low"⟩ : Triple) ∉ applyBudgetRulesForUser
        (insertUserInput negativeCostGraph 1 "Rice Blast" "-100" "Kandy" "").graph
        "UserInput_1") ∧
    ((⟨onto "T7", onto "priority", strLit "High"⟩ : Triple) ∈ applyBudgetRulesForUser
        (insertUserInput negativeCostGraph 1 "Rice Blast" "-100" "Kandy" "").graph
        "UserInput_1" ∧
      flaggedNotAffordable (applyBudgetRulesForUser
        (insertUserInput negativeCostGraph 1 "Rice Blast" "-100" "Kandy" "").graph
        "UserInput_1") (onto "T7") ∧
      (⟨onto "T7", onto "isAffordable", boolTrue⟩ : Triple) ∈ applyBudgetRulesForUser
        (insertUserInput negativeCostGraph 1 "Rice Blast" "-100" "Kandy" "").graph
        "UserInput_1") :=
  ⟨(negative_budget_breaks_partition negativeCostGraph 1 "Rice Blast" "-100" "Kandy" ""
      "UserInput_1" (onto "T7") (-100) (-120) (by rfl) (by decide) (by decide) (by norm_num)
      (by decide)).1,
   (negative_budget_breaks_partition negativeCostGraph 1 "Rice Blast" "-100" "Kandy" ""
      "UserInput_1" (onto "T7") (-100) (-120) (by rfl) (by decide) (by decide) (by norm_num)
      (by decide)).2.1 (by decide) (by norm_num) (by norm_num)⟩

/-! ## History independence for a session with an identity of its own -/

theorem not_derived {p : String} (h : p ∉ derivedPreds) :
    p ≠ onto "priority" ∧ p ≠ onto "isAffordable" ∧ p ≠ onto "isControlMethodSuitable" ∧
      p ≠ onto "isSuitable" ∧ p ≠ onto "hasPrimarySource" ∧ p ≠ onto "isSpecific" := by
  simpa [derivedPreds] using h

theorem mem_runAllRulesForUser_of_pred {g : Graph} {userId : String} {tr : Triple}
    (h1 : tr.p ≠ onto "hasPrimarySource") (h2 : tr.p ≠ onto "isSpecific") :
    tr ∈ runAllRulesForUser g userId ↔
      tr ∈ isSuitable (controlSuitable (applyBudgetRulesForUser g userId) (onto userId)) := by
  unfold runAllRulesForUser applyControlMethodAndSuitabilityRules
  rw [mem_applySymptomSpecificRule_of_pred h2, mem_applyPrimarySourceRules_of_pred h1]

theorem frame_runAllRulesForUser (g : Graph) (userId : String) :
    Frame g (runAllRulesForUser g userId) := by
  intro tr h
  obtain ⟨a1, a2, a3, a4, a5, a6⟩ := not_derived h
  rw [mem_runAllRulesForUser_of_pred a5 a6, mem_isSuitable_of_pred a4,
    mem_controlSuitable_of_pred a3, mem_applyBudgetRulesForUser_of_pred a1 a2]

theorem frame_clearTreatments (g : Graph) : Frame g (clearTreatments g) := by
  intro tr h
  rw [mem_clearTreatments]
  constructor
  · exact fun h1 => h1.1
  · exact fun h1 => ⟨h1, fun h2 => h h2.2⟩

theorem agreeFor_refl (u : String) (g : Graph) : AgreeFor u g g := fun _ _ => Iff.rfl

theorem agreeFor_symm {u : String} {g1 g2 : Graph} (h : AgreeFor u g1 g2) :
    AgreeFor u g2 g1 := fun tr hr => (h tr hr).symm

theorem agreeFor_trans {u : String} {g1 g2 g3 : Graph} (h12 : AgreeFor u g1 g2)
    (h23 : AgreeFor u g2 g3) : AgreeFor u g1 g3 := fun tr hr => (h12 tr hr).trans (h23 tr hr)

theorem agreeFor_of_frame {u : String} {g1 g2 : Graph} (h : Frame g1 g2) :
    AgreeFor u g1 g2 := fun tr hr => (h tr hr.1).symm

theorem agreeFor_insertUser_other {u inst d l budget control : String} (g : Graph)
    (hne : inst ≠ u) : AgreeFor u g (insertUser g inst d l budget control) := by
  intro tr hr
  rw [mem_insertUser]
  constructor
  · exact fun h => Or.inl h
  · rintro (h | rfl | rfl | rfl | rfl | rfl)
    · exact h
    · exact absurd ⟨rfl, rfl⟩ hr.2.2
    · rcases hr.2.1 with h | h
      · exact absurd h hne
      · simp [sessionPreds] at h
    · rcases hr.2.1 with h | h
      · exact absurd h hne
      · simp [sessionPreds] at h
    · rcases hr.2.1 with h | h
      · exact absurd h hne
      · simp [sessionPreds] at h
    · rcases hr.2.1 with h | h
      · exact absurd h hne
      · simp [sessionPreds] at h

theorem agreeFor_insertUser_same {u d l budget control : String} {g1 g2 : Graph}
    (h : AgreeFor u g1 g2) :
    AgreeFor u (insertUser g1 u d l budget control) (insertUser g2 u d l budget control) := by
  intro tr hr
  rw [mem_insertUser, mem_insertUser, h tr hr]

/-- A submission with another identity leaves every triple that the run for `u` reads. -/
theorem agreeFor_runSubmission (g : Graph) (x : Submission) (id : String)
    (hne : "UserInput_" ++ toString x.now ≠ id) :
    AgreeFor (onto id) g (runSubmission g x) := by
  have hu : onto ("UserInput_" ++ toString x.now) ≠ onto id := fun h => hne (onto_inj.1 h)
  have hc : AgreeFor (onto id) g (clearTreatments g) := agreeFor_of_frame (frame_clearTreatments g)
  unfold runSubmission insertUserInput
  cases hd : lookupProperty diseaseMap x.disease <;>
    cases hl : lookupProperty locationMap x.location <;>
    simp only [hd, hl]
  case text.text d l =>
    exact agreeFor_trans (agreeFor_trans hc (agreeFor_insertUser_other _ hu))
      (agreeFor_of_frame (frame_runAllRulesForUser _ _))
  all_goals first | exact agreeFor_refl _ _ | exact hc

theorem agreeFor_runSubmissions (g : Graph) (xs : List Submission) (id : String)
    (hne : ∀ x ∈ xs, "UserInput_" ++ toString x.now ≠ id) :
    AgreeFor (onto id) g (runSubmissions g xs) := by
  induction xs generalizing g with
  | nil => exact agreeFor_refl _ _
  | cons x xs ih =>
    have h1 := agreeFor_runSubmission g x id (hne x (List.mem_cons_self _ _))
    have h2 := ih (runSubmission g x) (fun y hy => hne y (List.mem_cons_of_mem _ hy))
    exact agreeFor_trans h1 h2
theorem reads_of_plain {u : String} {tr : Triple} (h1 : tr.p ∉ derivedPreds)
    (h2 : tr.p ∉ sessionPreds) (h3 : tr.p ≠ rdfType) : Reads u tr :=
  ⟨h1, Or.inr h2, fun h => h3 h.1⟩

theorem reads_typed (u t : String) : Reads u ⟨t, rdfType, Treatments⟩ := by
  refine ⟨?_, Or.inr ?_, ?_⟩
  · simp [derivedPreds, (onto_ne_rdfType _).symm]
  · simp [sessionPreds, (onto_ne_rdfType _).symm]
  · simp [Treatments, onto_inj]

theorem reads_session (u p : String) (o : Term) (h1 : p ∉ derivedPreds) (h3 : p ≠ rdfType) :
    Reads u ⟨u, p, o⟩ :=
  ⟨h1, Or.inl rfl, fun h => h3 h.1⟩

/-- The `priority` facts of a typed node after the budget rules depend only on what the
run reads. -/
theorem priority_congr {u : String} {gA gB : Graph} {id t : String} {o : Term}
    (hu : u = onto id) (h : AgreeFor u gA gB)
    (hA : NoDerivedOnTreatments gA) (hB : NoDerivedOnTreatments gB)
    (ht : (⟨t, rdfType, Treatments⟩ : Triple) ∈ gA) :
    (⟨t, onto "priority", o⟩ : Triple) ∈ applyBudgetRulesForUser gA id ↔
      (⟨t, onto "priority", o⟩ : Triple) ∈ applyBudgetRulesForUser gB id := by
  subst hu
  have htB : (⟨t, rdfType, Treatments⟩ : Triple) ∈ gB := (h _ (reads_typed _ t)).1 ht
  have nA : (⟨t, onto "priority", o⟩ : Triple) ∉ gA :=
    fun hm => hA _ hm ht (by simp [derivedPreds])
  have nB : (⟨t, onto "priority", o⟩ : Triple) ∉ gB :=
    fun hm => hB _ hm htB (by simp [derivedPreds])
  have e1 : ∀ x, (⟨onto id, onto "hasUserBudget", x⟩ : Triple) ∈ gA ↔
      (⟨onto id, onto "hasUserBudget", x⟩ : Triple) ∈ gB :=
    fun x => h _ (reads_session _ _ _ (by simp [derivedPreds, onto_inj]) (onto_ne_rdfType _))
  have e2 : ∀ x, (⟨t, onto "hasCost", x⟩ : Triple) ∈ gA ↔ (⟨t, onto "hasCost", x⟩ : Triple) ∈ gB :=
    fun x => h _ (reads_of_plain (by simp [derivedPreds, onto_inj])
      (by simp [sessionPreds, onto_inj]) (onto_ne_rdfType _))
  rw [priority_mem_applyBudgetRules, priority_mem_applyBudgetRules]
  simp only [nA, nB, false_or, ht, htB, true_and, e1, e2]

/-- The `isAffordable` facts of a typed node after the budget rules depend only on what the
run reads. -/
theorem affordable_congr {u : String} {gA gB : Graph} {id t : String} {o : Term}
    (hu : u = onto id) (h : AgreeFor u gA gB)
    (hA : NoDerivedOnTreatments gA) (hB : NoDerivedOnTreatments gB)
    (ht : (⟨t, rdfType, Treatments⟩ : Triple) ∈ gA) :
    (⟨t, onto "isAffordable", o⟩ : Triple) ∈ applyBudgetRulesForUser gA id ↔
      (⟨t, onto "isAffordable", o⟩ : Triple) ∈ applyBudgetRulesForUser gB id := by
  have hp : ∀ pr, (⟨t, onto "priority", pr⟩ : Triple) ∈ applyBudgetRulesForUser gA id ↔
      (⟨t, onto "priority", pr⟩ : Triple) ∈ applyBudgetRulesForUser gB id :=
    fun pr => priority_congr hu h hA hB ht
  subst hu
  have htB : (⟨t, rdfType, Treatments⟩ : Triple) ∈ gB := (h _ (reads_typed _ t)).1 ht
  have nA : (⟨t, onto "isAffordable", o⟩ : Triple) ∉ gA :=
    fun hm => hA _ hm ht (by simp [derivedPreds])
  have nB : (⟨t, onto "isAffordable", o⟩ : Triple) ∉ gB :=
    fun hm => hB _ hm htB (by simp [derivedPreds])
  have e1 : ∀ x, (⟨onto id, onto "hasUserBudget", x⟩ : Triple) ∈ gA ↔
      (⟨onto id, onto "hasUserBudget", x⟩ : Triple) ∈ gB :=
    fun x => h _ (reads_session _ _ _ (by simp [derivedPreds, onto_inj]) (onto_ne_rdfType _))
  have e2 : ∀ x, (⟨t, onto "hasCost", x⟩ : Triple) ∈ gA ↔ (⟨t, onto "hasCost", x⟩ : Triple) ∈ gB :=
    fun x => h _ (reads_of_plain (by simp [derivedPreds, onto_inj])
      (by simp [sessionPreds, onto_inj]) (onto_ne_rdfType _))
  rw [affordable_mem_applyBudgetRules, affordable_mem_applyBudgetRules]
  simp only [nA, nB, false_or, ht, htB, true_and, e1, e2, hp]

/-- The `isControlMethodSuitable` facts of a typed node after `controlSuitable` depend only
on what the run reads. -/
theorem controlSuitable_congr {u : String} {gA gB : Graph} {id t : String} {o : Term}
    (hu : u = onto id) (h : AgreeFor u gA gB)
    (hA : NoDerivedOnTreatments gA) (hB : NoDerivedOnTreatments gB)
    (ht : (⟨t, rdfType, Treatments⟩ : Triple) ∈ gA) :
    (⟨t, onto "isControlMethodSuitable", o⟩ : Triple) ∈
        controlSuitable (applyBudgetRulesForUser gA id) (onto id) ↔
      (⟨t, onto "isControlMethodSuitable", o⟩ : Triple) ∈
        controlSuitable (applyBudgetRulesForUser gB id) (onto id) := by
  subst hu
  have htB : (⟨t, rdfType, Treatments⟩ : Triple) ∈ gB := (h _ (reads_typed _ t)).1 ht
  have nA : (⟨t, onto "isControlMethodSuitable", o⟩ : Triple) ∉ applyBudgetRulesForUser gA id := by
    rw [mem_applyBudgetRulesForUser_of_pred (by simp [onto_inj]) (by simp [onto_inj])]
    exact fun hm => hA _ hm ht (by simp [derivedPreds])
  have nB : (⟨t, onto "isControlMethodSuitable", o⟩ : Triple) ∉ applyBudgetRulesForUser gB id := by
    rw [mem_applyBudgetRulesForUser_of_pred (by simp [onto_inj]) (by simp [onto_inj])]
    exact fun hm => hB _ hm htB (by simp [derivedPreds])
  have tr1 : ∀ (g : Graph) (s p : String) (x : Term), p ≠ onto "priority" →
      p ≠ onto "isAffordable" →
      ((⟨s, p, x⟩ : Triple) ∈ applyBudgetRulesForUser g id ↔ (⟨s, p, x⟩ : Triple) ∈ g) :=
    fun g s p x h1 h2 => mem_applyBudgetRulesForUser_of_pred h1 h2
  have e1 : ∀ x, (⟨onto id, onto "hasControlMethodInput", x⟩ : Triple) ∈
        applyBudgetRulesForUser gA id ↔
      (⟨onto id, onto "hasControlMethodInput", x⟩ : Triple) ∈ applyBudgetRulesForUser gB id := by
    intro x
    rw [tr1 _ _ _ _ (by simp [onto_inj]) (by simp [onto_inj]),
      tr1 _ _ _ _ (by simp [onto_inj]) (by simp [onto_inj])]
    exact h _ (reads_session _ _ _ (by simp [derivedPreds, onto_inj]) (onto_ne_rdfType _))
  have e2 : ∀ x, (⟨onto id, onto "hasDiseasec", x⟩ : Triple) ∈ applyBudgetRulesForUser gA id ↔
      (⟨onto id, onto "hasDiseasec", x⟩ : Triple) ∈ applyBudgetRulesForUser gB id := by
    intro x
    rw [tr1 _ _ _ _ (by simp [onto_inj]) (by simp [onto_inj]),
      tr1 _ _ _ _ (by simp [onto_inj]) (by simp [onto_inj])]
    exact h _ (reads_session _ _ _ (by simp [derivedPreds, onto_inj]) (onto_ne_rdfType _))
  have e3 : ∀ (s p : String) (x : Term), p ∉ derivedPreds → p ∉ sessionPreds → p ≠ rdfType →
      p ≠ onto "priority" → p ≠ onto "isAffordable" →
      ((⟨s, p, x⟩ : Triple) ∈ applyBudgetRulesForUser gA id ↔
        (⟨s, p, x⟩ : Triple) ∈ applyBudgetRulesForUser gB id) := by
    intro s p x h1 h2 h3 h4 h5
    rw [tr1 _ _ _ _ h4 h5, tr1 _ _ _ _ h4 h5]
    exact h _ (reads_of_plain h1 h2 h3)
  have e4 : ∀ s x, (⟨s, onto "hasControlMethods", x⟩ : Triple) ∈ applyBudgetRulesForUser gA id ↔
      (⟨s, onto "hasControlMethods", x⟩ : Triple) ∈ applyBudgetRulesForUser gB id :=
    fun s x => e3 s _ x (by simp [derivedPreds, onto_inj]) (by simp [sessionPreds, onto_inj])
      (onto_ne_rdfType _) (by simp [onto_inj]) (by simp [onto_inj])
  have e5 : ∀ s x, (⟨s, onto "hasMethod", x⟩ : Triple) ∈ applyBudgetRulesForUser gA id ↔
      (⟨s, onto "hasMethod", x⟩ : Triple) ∈ applyBudgetRulesForUser gB id :=
    fun s x => e3 s _ x (by simp [derivedPreds, onto_inj]) (by simp [sessionPreds, onto_inj])
      (onto_ne_rdfType _) (by simp [onto_inj]) (by simp [onto_inj])
  have e6 : ∀ s x, (⟨s, onto "hasTreatments", x⟩ : Triple) ∈ applyBudgetRulesForUser gA id ↔
      (⟨s, onto "hasTreatments", x⟩ : Triple) ∈ applyBudgetRulesForUser gB id :=
    fun s x => e3 s _ x (by simp [derivedPreds, onto_inj]) (by simp [sessionPreds, onto_inj])
      (onto_ne_rdfType _) (by simp [onto_inj]) (by simp [onto_inj])
  unfold controlSuitable
  rw [mem_insertAll, mem_insertAll, mem_controlSuitableInserts, mem_controlSuitableInserts]
  simp only [nA, nB, false_or, e1, e2, e4, e5, e6]
/-- The `isSuitable` facts of a typed node after the update `isSuitable` depend only on what
the run reads. -/
theorem isSuitable_congr {u : String} {gA gB : Graph} {id t : String} {o : Term}
    (hu : u = onto id) (h : AgreeFor u gA gB)
    (hA : NoDerivedOnTreatments gA) (hB : NoDerivedOnTreatments gB)
    (ht : (⟨t, rdfType, Treatments⟩ : Triple) ∈ gA) :
    (⟨t, onto "isSuitable", o⟩ : Triple) ∈
        isSuitable (controlSuitable (applyBudgetRulesForUser gA id) (onto id)) ↔
      (⟨t, onto "isSuitable", o⟩ : Triple) ∈
        isSuitable (controlSuitable (applyBudgetRulesForUser gB id) (onto id)) := by
  have hc := @controlSuitable_congr u gA gB id t boolTrue hu h hA hB ht
  have ha := @affordable_congr u gA gB id t boolTrue hu h hA hB ht
  have htB : (⟨t, rdfType, Treatments⟩ : Triple) ∈ gB := (h _ (reads_typed _ t)).1 ht
  have down : ∀ (g : Graph) (tr : Triple), tr.p ≠ onto "isControlMethodSuitable" →
      tr.p ≠ onto "priority" → tr.p ≠ onto "isAffordable" →
      (tr ∈ controlSuitable (applyBudgetRulesForUser g id) (onto id) ↔ tr ∈ g) := by
    intro g tr h1 h2 h3
    rw [mem_controlSuitable_of_pred h1, mem_applyBudgetRulesForUser_of_pred h2 h3]
  have nA : (⟨t, onto "isSuitable", o⟩ : Triple) ∉
      controlSuitable (applyBudgetRulesForUser gA id) (onto id) := by
    rw [down _ _ (by simp [onto_inj]) (by simp [onto_inj]) (by simp [onto_inj])]
    exact fun hm => hA _ hm ht (by simp [derivedPreds])
  have nB : (⟨t, onto "isSuitable", o⟩ : Triple) ∉
      controlSuitable (applyBudgetRulesForUser gB id) (onto id) := by
    rw [down _ _ (by simp [onto_inj]) (by simp [onto_inj]) (by simp [onto_inj])]
    exact fun hm => hB _ hm htB (by simp [derivedPreds])
  have tyA : (⟨t, rdfType, Treatments⟩ : Triple) ∈
      controlSuitable (applyBudgetRulesForUser gA id) (onto id) :=
    (down _ _ (by simp [(onto_ne_rdfType _).symm]) (by simp [(onto_ne_rdfType _).symm])
      (by simp [(onto_ne_rdfType _).symm])).2 ht
  have tyB : (⟨t, rdfType, Treatments⟩ : Triple) ∈
      controlSuitable (applyBudgetRulesForUser gB id) (onto id) :=
    (down _ _ (by simp [(onto_ne_rdfType _).symm]) (by simp [(onto_ne_rdfType _).symm])
      (by simp [(onto_ne_rdfType _).symm])).2 htB
  have affA : (⟨t, onto "isAffordable", boolTrue⟩ : Triple) ∈
        controlSuitable (applyBudgetRulesForUser gA id) (onto id) ↔
      (⟨t, onto "isAffordable", boolTrue⟩ : Triple) ∈
        controlSuitable (applyBudgetRulesForUser gB id) (onto id) := by
    rw [mem_controlSuitable_of_pred (by simp [onto_inj]),
      mem_controlSuitable_of_pred (by simp [onto_inj])]
    exact ha
  unfold isSuitable
  rw [mem_insertAll, mem_insertAll, mem_isSuitableInserts, mem_isSuitableInserts]
  simp only [nA, nB, false_or]
  constructor
  · rintro ⟨t2, _, h2, h3, heq⟩
    injection heq with e1 _ e3
    subst e1
    exact ⟨t, tyB, affA.1 h2, hc.1 h3, by rw [e3]⟩
  · rintro ⟨t2, _, h2, h3, heq⟩
    injection heq with e1 _ e3
    subst e1
    exact ⟨t, tyA, affA.2 h2, hc.2 h3, by rw [e3]⟩

theorem insertUserInput_ok_all {g : Graph} {now : Nat} {dn budget ln control id : String}
    (h : (insertUserInput g now dn budget ln control).result = .ok id) :
    ∃ d l, ∀ g2 : Graph, (insertUserInput g2 now dn budget ln control).graph =
      insertUser (clearTreatments g2) (onto id) d l budget control := by
  unfold insertUserInput at h ⊢
  cases hd : lookupProperty diseaseMap dn <;> cases hl : lookupProperty locationMap ln <;>
    simp only [hd, hl] at h ⊢ <;> simp at h
  subst h
  exact ⟨_, _, fun _ => rfl⟩

/-- History independence for a session with an identity of its own: when no earlier
submission received the identity of the new session, the `priority`, `isAffordable`,
`isControlMethodSuitable` and `isSuitable` facts of every typed Treatment after the new
run are the same on the store left by the earlier submissions as on the background graph. -/
theorem treatment_facts_history_independent (g : Graph) (xs : List Submission) (now : Nat)
    (diseaseName budget locationName control id : String)
    (hok : (insertUserInput g now diseaseName budget locationName control).result = .ok id)
    (hne : ∀ x ∈ xs, "UserInput_" ++ toString x.now ≠ id) (t p : String) (o : Term)
    (ht : (⟨t, rdfType, Treatments⟩ : Triple) ∈ g) (hp : p ∈ treatmentPreds) :
    (⟨t, p, o⟩ : Triple) ∈ runAllRulesForUser
        (insertUserInput (runSubmissions g xs) now diseaseName budget locationName
          control).graph id ↔
      (⟨t, p, o⟩ : Triple) ∈ runAllRulesForUser
        (insertUserInput g now diseaseName budget locationName control).graph id := by
  obtain ⟨d, l, hg⟩ := insertUserInput_ok_all hok
  rw [hg, hg]
  have h0 : AgreeFor (onto id) (runSubmissions g xs) g :=
    agreeFor_symm (agreeFor_runSubmissions g xs id hne)
  have hcl : AgreeFor (onto id) (clearTreatments (runSubmissions g xs)) (clearTreatments g) :=
    agreeFor_trans
      (agreeFor_trans (agreeFor_symm (agreeFor_of_frame (frame_clearTreatments _))) h0)
      (agreeFor_of_frame (frame_clearTreatments g))
  have hS : AgreeFor (onto id)
      (insertUser (clearTreatments (runSubmissions g xs)) (onto id) d l budget control)
      (insertUser (clearTreatments g) (onto id) d l budget control) :=
    agreeFor_insertUser_same hcl
  have hA := noDerived_session (runSubmissions g xs) (onto id) d l budget control
  have hB := noDerived_session g (onto id) d l budget control
  have htS : (⟨t, rdfType, Treatments⟩ : Triple) ∈
      insertUser (clearTreatments (runSubmissions g xs)) (onto id) d l budget control :=
    (hS _ (reads_typed _ t)).2 (typed_mem_session.2 ht)
  simp only [treatmentPreds, List.mem_cons, List.mem_singleton, List.not_mem_nil,
    or_false] at hp
  rcases hp with (rfl | rfl | rfl | rfl)
  · rw [mem_runAllRulesForUser_of_pred (by simp [onto_inj]) (by simp [onto_inj]),
      mem_runAllRulesForUser_of_pred (by simp [onto_inj]) (by simp [onto_inj]),
      mem_isSuitable_of_pred (by simp [onto_inj]), mem_isSuitable_of_pred (by simp [onto_inj]),
      mem_controlSuitable_of_pred (by simp [onto_inj]),
      mem_controlSuitable_of_pred (by simp [onto_inj])]
    exact priority_congr rfl hS hA hB htS
  · rw [mem_runAllRulesForUser_of_pred (by simp [onto_inj]) (by simp [onto_inj]),
      mem_runAllRulesForUser_of_pred (by simp [onto_inj]) (by simp [onto_inj]),
      mem_isSuitable_of_pred (by simp [onto_inj]), mem_isSuitable_of_pred (by simp [onto_inj]),
      mem_controlSuitable_of_pred (by simp [onto_inj]),
      mem_controlSuitable_of_pred (by simp [onto_inj])]
    exact affordable_congr rfl hS hA hB htS
  · rw [mem_runAllRulesForUser_of_pred (by simp [onto_inj]) (by simp [onto_inj]),
      mem_runAllRulesForUser_of_pred (by simp [onto_inj]) (by simp [onto_inj]),
      mem_isSuitable_of_pred (by simp [onto_inj]), mem_isSuitable_of_pred (by simp [onto_inj])]
    exact controlSuitable_congr rfl hS hA hB htS
  · rw [mem_runAllRulesForUser_of_pred (by simp [onto_inj]) (by simp [onto_inj]),
      mem_runAllRulesForUser_of_pred (by simp [onto_inj]) (by simp [onto_inj])]
    exact isSuitable_congr rfl hS hA hB htS

end PaddyKBS
